import Mathlib

/-! # Waypoint interop of the control plane: endpoint redirect and waypoint lookup

A shallow embedding of

* `pilot/pkg/features/solo.go` (the flag `EnableWaypointInterop`),
* `pilot/pkg/model/sidecar_interop.go` (`PushContext.ServicesWithWaypoint`),
* `pilot/pkg/serviceregistry/kube/controller/ambient/sidecar_interop.go`
  (`index.ServicesWithWaypoint`, `PushAllXds`, the key extractors and the two
  projections `WorkloadEds` and `ServiceEds` of `RegisterEdsShim`),
* `pilot/pkg/networking/core/sidecar_interop.go` (`findWaypointServices`),
* `pilot/pkg/xds/endpoints/sidecar_interop.go`
  (`findServiceWaypoint`, `snapshotEndpointsForPort`),
* `pkg/istio-agent/spire/workload.go` and `pemutil.go` (the `WorkloadClient`).

Conventions of the embedding.

* Go pointers that may be nil are `Option`; a Go slice is a `List` (nil and
  empty are both `[]`); a Go `map[string]string` is an association list read
  with `labels.Instance.get`, which yields `""` for a missing key as Go does.
* A function that can hit a nil pointer dereference returns `Option`:
  `none` is the runtime panic, `some r` is a normal return of `r`.
* The process-wide variables of package `features` are passed explicitly as
  a `features.Vars` value to every function, whether it reads them or not.
* Functions of the repository that these files call but that are not part of
  the sources at hand are collected in `endpoints.Deps` and taken as
  parameters, so every general theorem holds for all their implementations.
* An effect on the `XDSUpdater` is explicit state passing: the updater is
  the list of the requests it has received, and a handler returns the updater
  after the call.
* Logging is not modelled.
-/

set_option autoImplicit false
set_option linter.unusedVariables false
set_option linter.dupNamespace false

/-! ## Constants and flags -/

namespace constants

/-- The value of `constants.UnspecifiedIP`. -/
def UnspecifiedIP : String := "0.0.0.0"

end constants

namespace features

/-- The process-wide variables of package `features` read by the modelled
code. `EnableWaypointInterop` is the variable registered in `solo.go` under
`ENABLE_WAYPOINT_INTEROP`. -/
structure Vars where
  EnableWaypointInterop : Bool
deriving DecidableEq, Repr

end features

/-! ## Labels -/

namespace labels

/-- A label map, `labels.Instance` (a `map[string]string`). -/
abbrev Instance := List (String × String)

/-- Go map indexing `m[k]`: the stored value, or the empty string when the
key is missing. -/
def Instance.get (m : Instance) (k : String) : String :=
  (m.lookup k).getD ""

/-- Modelled from the spec: `labels.Instance.SubsetOf` is not part of the
sources; the spec gives it as "required labels ⊆ endpoint labels". Every key
of `i` is bound in `that` to the same value. -/
def Instance.SubsetOf (i that : Instance) : Bool :=
  i.all (fun kv => that.lookup kv.1 == some kv.2)

end labels

/-! ## The workload API objects -/

namespace workloadapi

/-- A `workloadapi.NetworkAddress`: network id and raw IP bytes. -/
structure NetworkAddress where
  Network : String
  Address : List Nat
deriving DecidableEq, Repr

/-- A `workloadapi.NamespacedHostname`. -/
structure NamespacedHostname where
  Namespace : String
  Hostname : String
deriving DecidableEq, Repr

/-- The oneof `GatewayAddress.Destination`. -/
inductive GatewayAddress_Destination where
  | Hostname (h : NamespacedHostname)
  | Address (a : NetworkAddress)
deriving DecidableEq, Repr

/-- A `workloadapi.GatewayAddress`. -/
structure GatewayAddress where
  Destination : Option GatewayAddress_Destination
  HboneMtlsPort : Nat
deriving DecidableEq, Repr

/-- The generated getter `(*GatewayAddress).GetAddress`: nil-safe, and nil
unless the destination is an address. -/
def GatewayAddress.GetAddress : Option GatewayAddress → Option NetworkAddress
  | some ⟨some (GatewayAddress_Destination.Address a), _⟩ => some a
  | _ => none

/-- The generated getter `(*GatewayAddress).GetHboneMtlsPort`: nil-safe. -/
def GatewayAddress.GetHboneMtlsPort : Option GatewayAddress → Nat
  | some g => g.HboneMtlsPort
  | none => 0

/-- A `workloadapi.Service`, with the fields the modelled code reads. -/
structure Service where
  Name : String
  Namespace : String
  Hostname : String
  Addresses : List NetworkAddress
  Waypoint : Option GatewayAddress
deriving DecidableEq, Repr

/-- The generated getter `(*Service).GetWaypoint`. -/
def Service.GetWaypoint (s : Service) : Option GatewayAddress := s.Waypoint

/-- The resource name `namespace/hostname` of a service. -/
def Service.ResourceName (s : Service) : String :=
  s.Namespace ++ "/" ++ s.Hostname

end workloadapi

/-! ## Formatting of IP addresses (`net/netip`) -/

namespace netip

/-- One hexadecimal digit, lower case. -/
def hexDigit (n : Nat) : Char :=
  if n < 10 then Char.ofNat (48 + n) else Char.ofNat (87 + n)

/-- A 16-bit group in lower-case hexadecimal without leading zeros. -/
def appendHex (x : Nat) : String :=
  if x ≥ 4096 then
    String.mk [hexDigit (x / 4096 % 16), hexDigit (x / 256 % 16), hexDigit (x / 16 % 16), hexDigit (x % 16)]
  else if x ≥ 256 then
    String.mk [hexDigit (x / 256 % 16), hexDigit (x / 16 % 16), hexDigit (x % 16)]
  else if x ≥ 16 then
    String.mk [hexDigit (x / 16 % 16), hexDigit (x % 16)]
  else String.mk [hexDigit (x % 16)]

/-- The 16-bit groups of a 16-byte address. -/
def groups : List Nat → List Nat
  | hi :: lo :: rest => (hi * 256 + lo) :: groups rest
  | _ => []

/-- Length of the run of zero groups at the head of a list. -/
def zeroRun : List Nat → Nat
  | 0 :: rest => zeroRun rest + 1
  | _ => 0

/-- The search for the zero run to compress: scanning start positions `i` in
order, a run of length at least two that is strictly longer than the best so
far replaces it. Returns `(zeroStart, zeroEnd)`, both 255 when none. -/
def longestZeroRun : List Nat → Nat → Nat × Nat → Nat × Nat
  | [], _, best => best
  | g :: rest, i, best =>
    let l := zeroRun (g :: rest)
    let best1 := if l ≥ 2 ∧ l > best.2 - best.1 then (i, i + l) else best
    longestZeroRun rest (i + 1) best1

/-- The groups from position `i` on, written with the `::` compression. -/
def string6Aux (zeroStart zeroEnd : Nat) : List Nat → Nat → String
  | [], _ => ""
  | g :: rest, i =>
    if i = zeroStart then
      "::" ++ string6Aux zeroStart zeroEnd rest (i + 1)
    else if zeroStart < i ∧ i < zeroEnd then
      string6Aux zeroStart zeroEnd rest (i + 1)
    else if i > 0 ∧ i ≠ zeroEnd then
      ":" ++ appendHex g ++ string6Aux zeroStart zeroEnd rest (i + 1)
    else
      appendHex g ++ string6Aux zeroStart zeroEnd rest (i + 1)

/-- Dotted decimal form of four bytes. -/
def string4 (a b c d : Nat) : String :=
  toString a ++ "." ++ toString b ++ "." ++ toString c ++ "." ++ toString d

/-- The composition `netip.AddrFromSlice(b)` followed by `Addr.String()`, the
error result being discarded as the callers do: four bytes give the dotted
IPv4 form, sixteen bytes the IPv6 form (an IPv4-mapped address as
`::ffff:a.b.c.d`), and any other length is the zero `Addr`, printed as
`invalid IP`. -/
def AddrFromSliceString (b : List Nat) : String :=
  match b with
  | [a, b, c, d] => string4 a b c d
  | [0, 0, 0, 0, 0, 0, 0, 0, 0, 0, 255, 255, a, b, c, d] => "::ffff:" ++ string4 a b c d
  | bs =>
    if bs.length = 16 then
      let gs := groups bs
      let z := longestZeroRun gs 0 (255, 255)
      string6Aux z.1 z.2 gs 0
    else "invalid IP"

end netip

/-! ## Collections and indices (`pkg/kube/krt`) -/

namespace krt

/-- Modelled from the spec: `krt.Collection` is not part of the sources. A
collection is the list of the objects it currently holds, in the order
`List()` returns them. -/
structure Collection (T : Type) where
  items : List T

/-- The call `c.List()`. -/
def Collection.List {T : Type} (c : Collection T) : List T := c.items

/-- The call `c.GetKey(k)`: the object whose resource name is `k`, if any. -/
def Collection.GetKey {T : Type} (name : T → String) (c : Collection T) (k : String) : Option T :=
  c.items.find? (fun x => name x == k)

/-- Modelled from the spec: `krt.Index` is not part of the sources. An index
answers `Lookup(k)` with the list of objects filed under `k`, in index order. -/
structure Index (K T : Type) where
  Lookup : K → List T

end krt

namespace ptr

/-- The helper `ptr.ToList`: nil gives the nil slice, a pointer the
one-element slice of its target. -/
def ToList {T : Type} : Option T → List T
  | none => []
  | some x => [x]

end ptr

namespace slices

/-- The helper `slices.FilterInPlace`: keeps the elements satisfying `f`, in
order. -/
def FilterInPlace {T : Type} (s : List T) (f : T → Bool) : List T := s.filter f

end slices

/-! ## Package `model`: services, proxies, endpoints -/

namespace model

/-- A `model.ServiceInfo`: it embeds the `workloadapi.Service`. -/
structure ServiceInfo where
  Service : workloadapi.Service
deriving DecidableEq, Repr

/-- The method `ServiceInfo.ResourceName`. -/
def ServiceInfo.ResourceName (i : ServiceInfo) : String := i.Service.ResourceName

/-- The promoted getter `ServiceInfo.GetWaypoint`. -/
def ServiceInfo.GetWaypoint (i : ServiceInfo) : Option workloadapi.GatewayAddress :=
  i.Service.GetWaypoint

/-- The promoted field `ServiceInfo.Hostname`. -/
def ServiceInfo.Hostname (i : ServiceInfo) : String := i.Service.Hostname

/-- The struct `model.ServiceWaypointInfo` of `model/sidecar_interop.go`. -/
structure ServiceWaypointInfo where
  Service : workloadapi.Service
  WaypointHostname : String
deriving DecidableEq, Repr

/-- The node types of a proxy (`model.NodeType`). -/
inductive NodeType where
  | SidecarProxy
  | Router
  | Waypoint
  | Ztunnel
deriving DecidableEq, Repr

/-- A `model.Proxy`, with the fields the modelled code reads. -/
structure Proxy where
  Type_ : NodeType
  ConfigNamespace : String
deriving DecidableEq, Repr

/-- Modelled from the spec: `Proxy.IsWaypointProxy` is not part of the
sources; the proxy class is the node type, and a waypoint-class proxy is one
of type `Waypoint`. -/
def Proxy.IsWaypointProxy (node : Proxy) : Bool := node.Type_ == NodeType.Waypoint

/-- A `model.Port` of a service. -/
structure Port where
  Name : String
  Port : Int
  Protocol : String
deriving DecidableEq, Repr

/-- The `model.ServiceAttributes` read by the modelled code. -/
structure ServiceAttributes where
  Name : String
  Namespace : String
  Labels : labels.Instance
deriving DecidableEq, Repr

/-- A `model.Service`. `DefaultAddress` is the unspecified IP for a service
without a virtual address. -/
structure Service where
  Attributes : ServiceAttributes
  Hostname : String
  Ports : List Port
  DefaultAddress : String
deriving DecidableEq, Repr

/-- A `model.IstioEndpoint`. -/
structure IstioEndpoint where
  Address : String
  EndpointPort : Nat
  ServicePortName : String
  Labels : labels.Instance
deriving DecidableEq, Repr

/-- Modelled from the spec: `model.EndpointIndex` is not part of the sources.
It files the raw endpoints of each service under its hostname and namespace. -/
structure EndpointIndex where
  shardsBySvc : List ((String × String) × List IstioEndpoint)
deriving DecidableEq, Repr

/-- The constant `model.TrafficDirectionOutbound`. -/
def TrafficDirectionOutbound : String := "outbound"

/-- Modelled from the spec: `model.BuildSubsetKey` is not part of the sources.
The cluster name is `direction|port|subset|hostname`. -/
def BuildSubsetKey (direction subsetName hostname : String) (port : Int) : String :=
  direction ++ "|" ++ toString port ++ "|" ++ subsetName ++ "|" ++ hostname

end model

/-! ## Package `ambient`: the index and `ServicesWithWaypoint` -/

namespace ambient

/-- The index key `networkAddress`. -/
structure networkAddress where
  network : String
  ip : String
deriving DecidableEq, Repr

/-- The services of the index: the collection and its by-address index. -/
structure servicesCollection where
  toCollection : krt.Collection model.ServiceInfo
  ByAddress : krt.Index networkAddress model.ServiceInfo

/-- The ambient `index`, with the part `ServicesWithWaypoint` reads. -/
structure index where
  services : servicesCollection

/-- The body of the `for _, s := range svcs` loop of
`index.ServicesWithWaypoint`, with the accumulated result `res`. A waypoint
whose `GetAddress()` is nil makes the field reads `wp.GetAddress().Address`
and `wp.GetAddress().Network` a nil pointer dereference: `none`. -/
def index.servicesWithWaypointLoop (a : index) :
    List model.ServiceInfo → List model.ServiceWaypointInfo → Option (List model.ServiceWaypointInfo)
  | [], res => some res
  | s :: rest, res =>
    match s.GetWaypoint with
    | none => a.servicesWithWaypointLoop rest res
    | some wp =>
      match workloadapi.GatewayAddress.GetAddress (some wp) with
      | none => none
      | some addr =>
        let wpAddr := netip.AddrFromSliceString addr.Address
        let wpNetAddr : networkAddress := ⟨addr.Network, wpAddr⟩
        let waypoints := a.services.ByAddress.Lookup wpNetAddr
        match waypoints with
        | [] => a.servicesWithWaypointLoop rest res
        | w0 :: _ =>
          let wi : model.ServiceWaypointInfo := ⟨s.Service, w0.Hostname⟩
          a.servicesWithWaypointLoop rest (res ++ [wi])

/-- Whether a service contributes no entry to `ServicesWithWaypoint` and
causes no panic: it has no waypoint, or its waypoint is an address at which
the by-address index finds nothing. -/
def index.noEntry (a : index) (s : model.ServiceInfo) : Bool :=
  match s.GetWaypoint with
  | none => true
  | some wp =>
    match workloadapi.GatewayAddress.GetAddress (some wp) with
    | none => false
    | some addr =>
      (a.services.ByAddress.Lookup ⟨addr.Network, netip.AddrFromSliceString addr.Address⟩).isEmpty

/-- The method `index.ServicesWithWaypoint`. It does not read
`features.EnableWaypointInterop`. -/
def index.ServicesWithWaypoint (fl : features.Vars) (a : index) (key : String) :
    Option (List model.ServiceWaypointInfo) :=
  let svcs :=
    if key == "" then a.services.toCollection.List
    else ptr.ToList (a.services.toCollection.GetKey model.ServiceInfo.ResourceName key)
  a.servicesWithWaypointLoop svcs []

end ambient

namespace model

/-- The implementations of the interface `AmbientIndexes` that define
`ServicesWithWaypoint` in the sources: `NoopAmbientIndexes` and the ambient
`index`. -/
inductive AmbientIndexes where
  | NoopAmbientIndexes
  | index (a : ambient.index)

/-- The push context: its ambient index and, for resolving the service of a
cluster, the services it knows. -/
structure PushContext where
  ambientIndex : AmbientIndexes
  ServiceIndex : List Service

/-- The method `NoopAmbientIndexes.ServicesWithWaypoint`: always nil. -/
def NoopAmbientIndexes_ServicesWithWaypoint (key : String) : List ServiceWaypointInfo := []

/-- The method `PushContext.ServicesWithWaypoint`: delegates to the ambient
index. -/
def PushContext.ServicesWithWaypoint (fl : features.Vars) (ps : PushContext) (key : String) :
    Option (List ServiceWaypointInfo) :=
  match ps.ambientIndex with
  | AmbientIndexes.NoopAmbientIndexes => some (NoopAmbientIndexes_ServicesWithWaypoint key)
  | AmbientIndexes.index a => a.ServicesWithWaypoint fl key

end model

/-! ## Package `core`: `findWaypointServices` -/

namespace core

/-- The function `findWaypointServices`: nil (`some none`) when the flag is
off, otherwise the set of hostnames of the entries of
`ServicesWithWaypoint("")`, here the list of hostnames without repetition. -/
def findWaypointServices (fl : features.Vars) (push : model.PushContext) :
    Option (Option (List String)) :=
  if !fl.EnableWaypointInterop then some none
  else
    match push.ServicesWithWaypoint fl "" with
    | none => none
    | some serviceInfos =>
      some (some (serviceInfos.foldl (fun res s => if s.Service.Hostname ∈ res then res else res ++ [s.Service.Hostname]) []))

end core

/-! ## Package `endpoints`: the endpoint builder -/

namespace endpoints

/-- The `EndpointBuilder`, with the fields the modelled code reads. `service`
is nil when the cluster names no known service. -/
structure EndpointBuilder where
  clusterName : String
  proxy : model.Proxy
  push : model.PushContext
  nodeType : model.NodeType
  service : Option model.Service
  hostname : String
  port : Int
  subsetName : String
  subsetLabels : labels.Instance

/-- The functions of the repository that `sidecar_interop.go` calls and that
are not part of the sources at hand. They are parameters of the embedding.
`GetAddressForProxy` is called on a non-nil service only: on a nil receiver
it reads the fields of the service and panics. -/
structure Deps where
  GetAddressForProxy : model.Service → model.Proxy → String
  NewEndpointBuilder : String → model.Proxy → model.PushContext → EndpointBuilder
  servicePort : EndpointBuilder → Int → Option model.Port
  snapshotShards : EndpointBuilder → model.EndpointIndex → List model.IstioEndpoint

/-- The method `EndpointBuilder.snapshotEndpointsForPort`. -/
def EndpointBuilder.snapshotEndpointsForPort (d : Deps) (b : EndpointBuilder)
    (endpointIndex : model.EndpointIndex) : List model.IstioEndpoint × Bool :=
  match d.servicePort b b.port with
  | none => ([], false)
  | some svcPort =>
    let svcEps := d.snapshotShards b endpointIndex
    let svcEps := slices.FilterInPlace svcEps (fun ep =>
      if svcPort.Name != ep.ServicePortName then false
      else if !(b.subsetLabels.SubsetOf ep.Labels) then false
      else true)
    (svcEps, true)

/-- The opt-in label read for gateways. -/
def ingressUseWaypointLabel : String := "istio.io/ingress-use-waypoint"

/-- The method `EndpointBuilder.findServiceWaypoint`. The result is the pair
`(endpoints, redirected)`; `none` is a panic: a nil `b.service` dereferenced
after the waypoint check, or a panic of `ServicesWithWaypoint`. The function
does not read `features.EnableWaypointInterop`. -/
def EndpointBuilder.findServiceWaypoint (fl : features.Vars) (d : Deps) (b : EndpointBuilder)
    (endpointIndex : model.EndpointIndex) : Option (List model.IstioEndpoint × Bool) :=
  if b.proxy.IsWaypointProxy then some ([], false)
  else
    match b.service with
    | none => none
    | some service =>
      if b.nodeType = model.NodeType.Router ∧ service.Attributes.Labels.get ingressUseWaypointLabel ≠ "true" then
        some ([], false)
      else if d.GetAddressForProxy service b.proxy = constants.UnspecifiedIP then
        some ([], false)
      else
        match b.push.ServicesWithWaypoint fl (service.Attributes.Namespace ++ "/" ++ b.hostname) with
        | none => none
        | some [] => some ([], false)
        | some (svc :: _) =>
          let waypointClusterName := model.BuildSubsetKey model.TrafficDirectionOutbound ""
            svc.WaypointHostname (Int.ofNat (workloadapi.GatewayAddress.GetHboneMtlsPort svc.Service.GetWaypoint))
          let endpointBuilder := d.NewEndpointBuilder waypointClusterName b.proxy b.push
          let waypointEndpoints := (endpointBuilder.snapshotEndpointsForPort d endpointIndex).1
          some (waypointEndpoints, true)

end endpoints

/-! ## The absent helpers of the endpoint builder, as the spec describes them

The general theorems below hold for every `endpoints.Deps`. The concrete
scenarios need one implementation; `endpoints.specDeps` is the one the spec
and the test describe. -/

namespace model

/-- Cuts a character list at the first separator: the part before it and
the part after it, `none` when the separator does not occur. -/
def cutChars (sep : Char) : List Char → Option (List Char × List Char)
  | [] => none
  | c :: cs =>
    if c = sep then some ([], cs)
    else
      match cutChars sep cs with
      | none => none
      | some p => some (c :: p.1, p.2)

/-- Decimal value of a non-empty digit string, 0 for anything else. -/
def atoi (cs : List Char) : Int :=
  if cs ≠ [] ∧ cs.all Char.isDigit = true then
    Int.ofNat (cs.foldl (fun n c => 10 * n + (c.toNat - 48)) 0)
  else 0

/-- Modelled from the spec: `model.ParseSubsetKey` is not part of the sources.
It reads a cluster name of the form `direction|port|subset|hostname`, the
form in which the test names clusters (`outbound|80||vip.example.com`), and
returns `(direction, subset, hostname, port)`, with empty values for the
parts that are missing. -/
def ParseSubsetKey (s : String) : String × String × String × Int :=
  match cutChars '|' s.data with
  | none => ("", "", "", 0)
  | some (dir, s1) =>
    match cutChars '|' s1 with
    | none => (String.mk dir, "", "", 0)
    | some (p, s2) =>
      match cutChars '|' s2 with
      | none => (String.mk dir, "", "", atoi p)
      | some (ss, s3) => (String.mk dir, String.mk ss, String.mk s3, atoi p)

/-- Modelled from the spec: `PushContext.ServiceForHostname` is not part of
the sources. The service of the push context with the given hostname. -/
def PushContext.ServiceForHostname (push : PushContext) (proxy : Proxy) (hostname : String) :
    Option Service :=
  push.ServiceIndex.find? (fun s => s.Hostname == hostname)

/-- Modelled from the spec: `Service.GetAddressForProxy` is not part of the
sources. The virtual address of the service; a service without one (a
headless service) has the unspecified IP as its default address. -/
def Service.GetAddressForProxy (s : Service) (node : Proxy) : String := s.DefaultAddress

/-- Modelled from the spec: `EndpointIndex.ShardsForService` and the merge of
the shards are not part of the sources. The raw endpoint set filed under the
hostname and namespace of a service, empty when there is none. -/
def EndpointIndex.endpointsFor (e : EndpointIndex) (hostname ns : String) : List IstioEndpoint :=
  (e.shardsBySvc.lookup (hostname, ns)).getD []

end model

namespace endpoints

/-- Modelled from the spec: `NewEndpointBuilder` is not part of the sources.
The builder of a cluster name: its direction, subset, hostname and port are
parsed from the name, its service is the one the push context has for the
hostname, its node type is the type of the proxy, and the empty subset
requires no label. -/
def NewEndpointBuilder (clusterName : String) (proxy : model.Proxy) (push : model.PushContext) :
    EndpointBuilder :=
  let parsed := model.ParseSubsetKey clusterName
  { clusterName := clusterName
    proxy := proxy
    push := push
    nodeType := proxy.Type_
    service := push.ServiceForHostname proxy parsed.2.2.1
    hostname := parsed.2.2.1
    port := parsed.2.2.2
    subsetName := parsed.2.1
    subsetLabels := [] }

/-- Modelled from the spec: `EndpointBuilder.servicePort` is not part of the
sources. The port of the builder's service with the given number; nothing
when the service is nil or has no such port. -/
def EndpointBuilder.servicePort (b : EndpointBuilder) (port : Int) : Option model.Port :=
  match b.service with
  | none => none
  | some s => s.Ports.find? (fun p => p.Port == port)

/-- Modelled from the spec: `EndpointBuilder.snapshotShards` is not part of
the sources. The raw endpoint set of the builder's service in the endpoint
index. -/
def EndpointBuilder.snapshotShards (b : EndpointBuilder) (endpointIndex : model.EndpointIndex) :
    List model.IstioEndpoint :=
  match b.service with
  | none => []
  | some s => endpointIndex.endpointsFor b.hostname s.Attributes.Namespace

/-- The absent helpers as modelled above. -/
def specDeps : Deps where
  GetAddressForProxy := model.Service.GetAddressForProxy
  NewEndpointBuilder := NewEndpointBuilder
  servicePort := EndpointBuilder.servicePort
  snapshotShards := EndpointBuilder.snapshotShards

/-- Modelled from the spec: the encoding of a redirected endpoint is not part
of the sources. The spec gives it as
`connect_originate;serviceAddr:port;waypointAddr:waypointPort`. -/
def surfaced (serviceAddr : String) (port : Int) (ep : model.IstioEndpoint) : String :=
  "connect_originate;" ++ serviceAddr ++ ":" ++ toString port ++ ";" ++ ep.Address ++ ":" ++
    toString ep.EndpointPort

/-- The surfaced form of the endpoints a builder returns after a redirect:
each endpoint encoded against the address of the builder's service for the
proxy and the builder's port. -/
def EndpointBuilder.surfacedEndpoints (d : Deps) (b : EndpointBuilder)
    (eps : List model.IstioEndpoint) : List String :=
  match b.service with
  | none => []
  | some s => eps.map (surfaced (d.GetAddressForProxy s b.proxy) b.port)

end endpoints

/-! ## The scenario of `TestWaypointSidecarInterop` -/

namespace scenario

/-- The waypoint reference of the service: address 3.0.0.0, tunnel port 15008. -/
def waypointRef : workloadapi.GatewayAddress :=
  ⟨some (workloadapi.GatewayAddress_Destination.Address ⟨"", [3, 0, 0, 0]⟩), 15008⟩

/-- The service `vip.example.com` of namespace `default`, with VIP 1.1.1.1,
using the waypoint. -/
def vipSvc : workloadapi.Service :=
  ⟨"with-vip", "default", "vip.example.com", [⟨"", [1, 1, 1, 1]⟩], some waypointRef⟩

/-- The Service `waypoint` at 3.0.0.0. -/
def waypointSvc : workloadapi.Service :=
  ⟨"waypoint", "default", "waypoint.default.svc.cluster.local", [⟨"", [3, 0, 0, 0]⟩], none⟩

/-- The by-address index over a list of services: the services one of whose
addresses prints as the key. -/
def byAddress (svcs : List model.ServiceInfo) : krt.Index ambient.networkAddress model.ServiceInfo :=
  ⟨fun k => svcs.filter (fun s =>
    s.Service.Addresses.any (fun a => decide ((⟨a.Network, netip.AddrFromSliceString a.Address⟩ : ambient.networkAddress) = k)))⟩

/-- The ambient index over a list of services. -/
def indexOf (svcs : List model.ServiceInfo) : ambient.index :=
  ⟨⟨⟨svcs⟩, byAddress svcs⟩⟩

/-- The ambient index of the scenario. -/
def idx : ambient.index := indexOf [⟨vipSvc⟩, ⟨waypointSvc⟩]

/-- The ports of the service entry. -/
def vipPorts : List model.Port :=
  [⟨"tcp", 70, "TCP"⟩, ⟨"http", 80, "HTTP"⟩, ⟨"auto-http", 8080, ""⟩, ⟨"auto-tcp", 8081, ""⟩,
   ⟨"tls", 443, "TLS"⟩]

/-- The service `vip.example.com` as the push context holds it, with the
given labels and default address. -/
def vipService (lbls : labels.Instance) (addr : String) : model.Service :=
  ⟨⟨"with-vip", "default", lbls⟩, "vip.example.com", vipPorts, addr⟩

/-- The waypoint Service as the push context holds it. -/
def waypointService : model.Service :=
  ⟨⟨"waypoint", "default", [("istio.io/gateway-name", "waypoint")]⟩,
   "waypoint.default.svc.cluster.local", [⟨"mesh", 15008, "HBONE"⟩], "3.0.0.0"⟩

/-- The labels of the service entry in the test. -/
def vipLabels : labels.Instance := [("istio.io/use-waypoint", "waypoint")]

/-- The push context over an ambient index, with the service entry given by
its labels and default address. -/
def pushWith (a : ambient.index) (lbls : labels.Instance) (addr : String) : model.PushContext :=
  ⟨model.AmbientIndexes.index a, [vipService lbls addr, waypointService]⟩

/-- The push context of the scenario. -/
def push : model.PushContext := pushWith idx vipLabels "1.1.1.1"

/-- The two workloads backing the waypoint. -/
def waypointA : model.IstioEndpoint :=
  ⟨"3.0.0.1", 15008, "mesh", [("gateway.networking.k8s.io/gateway-name", "waypoint")]⟩

/-- The second workload backing the waypoint. -/
def waypointB : model.IstioEndpoint :=
  ⟨"3.0.0.2", 15008, "mesh", [("gateway.networking.k8s.io/gateway-name", "waypoint")]⟩

/-- The endpoint index of the scenario: the waypoint has its two workloads,
the service entry has no endpoint of its own. -/
def endpointIndex : model.EndpointIndex :=
  ⟨[(("waypoint.default.svc.cluster.local", "default"), [waypointA, waypointB])]⟩

/-- The sidecar proxy of the test, in namespace `default`. -/
def sidecar : model.Proxy := ⟨model.NodeType.SidecarProxy, "default"⟩

/-- The builder of the cluster `outbound|80||vip.example.com` for the sidecar. -/
def builder : endpoints.EndpointBuilder :=
  endpoints.NewEndpointBuilder "outbound|80||vip.example.com" sidecar push

/-- A waypoint proxy asking for the same cluster. -/
def waypointProxy : model.Proxy := ⟨model.NodeType.Waypoint, "default"⟩

/-- The builder of the same cluster for the waypoint proxy. -/
def waypointBuilder : endpoints.EndpointBuilder :=
  endpoints.NewEndpointBuilder "outbound|80||vip.example.com" waypointProxy push

/-- An ingress gateway. -/
def ingress : model.Proxy := ⟨model.NodeType.Router, "istio-system"⟩

/-- The builder of the same cluster for the ingress gateway, the service
carrying the labels of the test only. -/
def ingressBuilder : endpoints.EndpointBuilder :=
  endpoints.NewEndpointBuilder "outbound|80||vip.example.com" ingress push

/-- The builder for the ingress gateway when the service carries the opt-in
label with the given value. -/
def ingressOptBuilder (value : String) : endpoints.EndpointBuilder :=
  endpoints.NewEndpointBuilder "outbound|80||vip.example.com" ingress
    (pushWith idx (vipLabels ++ [(endpoints.ingressUseWaypointLabel, value)]) "1.1.1.1")

/-- The builder for the sidecar when the service entry is headless: it has
no address, so its default address is the unspecified IP. -/
def headlessBuilder : endpoints.EndpointBuilder :=
  endpoints.NewEndpointBuilder "outbound|80||vip.example.com" sidecar
    (pushWith idx vipLabels constants.UnspecifiedIP)

/-- The service entry without the use-waypoint label: no waypoint. -/
def plainSvc : workloadapi.Service :=
  ⟨"with-vip", "default", "vip.example.com", [⟨"", [1, 1, 1, 1]⟩], none⟩

/-- The builder for the sidecar when the service entry uses no waypoint. -/
def plainBuilder : endpoints.EndpointBuilder :=
  endpoints.NewEndpointBuilder "outbound|80||vip.example.com" sidecar
    (pushWith (indexOf [⟨plainSvc⟩, ⟨waypointSvc⟩]) [] "1.1.1.1")

/-- The waypoint Service when it is itself set to use the waypoint, as the
other services of its namespace are. -/
def selfWaypointSvc : workloadapi.Service :=
  ⟨"waypoint", "default", "waypoint.default.svc.cluster.local", [⟨"", [3, 0, 0, 0]⟩],
   some waypointRef⟩

/-- The builder for the sidecar asking for the tunnel port of the waypoint
Service, in the directory where that Service uses itself as waypoint. -/
def selfBuilder : endpoints.EndpointBuilder :=
  endpoints.NewEndpointBuilder "outbound|15008||waypoint.default.svc.cluster.local" sidecar
    (pushWith (indexOf [⟨vipSvc⟩, ⟨selfWaypointSvc⟩]) vipLabels "1.1.1.1")

end scenario

/-! ## Workloads, projection records and the change notifier -/

namespace workloadapi

/-- The enum `workloadapi.TunnelProtocol`. -/
inductive TunnelProtocol where
  | NONE
  | HBONE
deriving DecidableEq, Repr

/-- A `workloadapi.Workload`, with the fields the modelled code reads.
`Services` maps a service key `namespace/hostname` to the port pairs of the
membership. -/
structure Workload where
  Uid : String
  Name : String
  Namespace : String
  Addresses : List (List Nat)
  TunnelProtocol : TunnelProtocol
  Waypoint : Option GatewayAddress
  Services : List (String × List (Nat × Nat))
deriving DecidableEq, Repr

end workloadapi

namespace kind

/-- The config kinds (`kind.Kind`), by name. -/
abbrev Kind := String

/-- The constant `kind.ServiceEntry`. -/
def ServiceEntry : Kind := "ServiceEntry"

end kind

namespace sets

/-- A `sets.Set`: the list of its elements, without repetition, in the order
of insertion. -/
abbrev Set (α : Type) := List α

/-- The call `sets.New()`: the empty set. -/
def New {α : Type} : Set α := []

/-- The method `Set.Insert`: adds an element unless it is already there. -/
def Insert {α : Type} [DecidableEq α] (s : Set α) (x : α) : Set α :=
  if x ∈ s then s else s ++ [x]

end sets

namespace strings

/-- The function `strings.Cut` for a one-character separator: the text
before the first separator, the text after it, and whether it was found;
the whole string, the empty string and false when it does not occur. -/
def Cut (s : String) (sep : Char) : String × String × Bool :=
  match model.cutChars sep s.data with
  | none => (s, "", false)
  | some p => (String.mk p.1, String.mk p.2, true)

end strings

namespace krt

/-- The kind of change an event reports. -/
inductive EventType where
  | EventAdd
  | EventUpdate
  | EventDelete
deriving DecidableEq, Repr

/-- Modelled from the spec: `krt.Event` is not part of the sources. An event
carries the old object (update, remove) and the new object (add, update). -/
structure Event (T : Type) where
  Old : Option T
  New : Option T
  Event : EventType

/-- The method `Event.Items`: the old object, then the new one, each if
present. -/
def Event.Items {T : Type} (e : krt.Event T) : List T :=
  ptr.ToList e.Old ++ ptr.ToList e.New

end krt

namespace model

/-- A `model.WorkloadInfo`: it embeds the `workloadapi.Workload`. -/
structure WorkloadInfo where
  Workload : workloadapi.Workload
deriving DecidableEq, Repr

/-- The method `WorkloadInfo.ResourceName`: the uid of the workload. -/
def WorkloadInfo.ResourceName (w : WorkloadInfo) : String := w.Workload.Uid

/-- A `model.ConfigKey`. -/
structure ConfigKey where
  Kind : kind.Kind
  Name : String
  Namespace : String
deriving DecidableEq, Repr

/-- The trigger `model.AmbientUpdate`. -/
def AmbientUpdate : String := "ambient"

/-- The call `model.NewReasonStats(reason)`: the reasons of a push, here the
list of the triggers given. -/
def NewReasonStats (reason : String) : List String := [reason]

/-- A `model.PushRequest`, with the fields the notifier sets. -/
structure PushRequest where
  Full : Bool
  ConfigsUpdated : sets.Set ConfigKey
  Reason : List String
deriving DecidableEq, Repr

/-- The `model.XDSUpdater` as seen from the notifier: the requests it has
received through `ConfigUpdate`, in order. -/
structure XDSUpdater where
  calls : List PushRequest
deriving DecidableEq, Repr

/-- The method `XDSUpdater.ConfigUpdate`: one more request received. -/
def XDSUpdater.ConfigUpdate (x : XDSUpdater) (req : PushRequest) : XDSUpdater :=
  ⟨x.calls ++ [req]⟩

end model

namespace ambient

/-- The record `serviceEDS` of the per-Service projection. The slice
`WaypointInstance` is an `Option`: a nil slice is `none`, an empty but
present one is `some []`. -/
structure serviceEDS where
  ServiceKey : String
  WaypointInstance : Option (List workloadapi.Workload)
deriving DecidableEq, Repr

/-- The method `serviceEDS.ResourceName`. -/
def serviceEDS.ResourceName (w : serviceEDS) : String := w.ServiceKey

/-- The record `workloadEDS` of the per-Workload projection. -/
structure workloadEDS where
  WorkloadKey : String
  TunnelProtocol : workloadapi.TunnelProtocol
  WaypointInstance : Option (List workloadapi.Workload)
  ServiceHostnames : List String
deriving DecidableEq, Repr

/-- The method `workloadEDS.ResourceName`. -/
def workloadEDS.ResourceName (w : workloadEDS) : String := w.WorkloadKey

/-- The key extractor `RegisterEdsShim` passes to `PushAllXds` for the
per-Workload projection: one `ServiceEntry` key per service hostname, split
at the first `/` into namespace and name. -/
def workloadEDSUpdates (i : workloadEDS) (updates : sets.Set model.ConfigKey) :
    sets.Set model.ConfigKey :=
  i.ServiceHostnames.foldl (fun u svc =>
    let c := strings.Cut svc '/'
    sets.Insert u ⟨kind.ServiceEntry, c.2.1, c.1⟩) updates

/-- The key extractor `RegisterEdsShim` passes to `PushAllXds` for the
per-Service projection: the `ServiceEntry` key of the service key. -/
def serviceEDSUpdates (svc : serviceEDS) (updates : sets.Set model.ConfigKey) :
    sets.Set model.ConfigKey :=
  let c := strings.Cut svc.ServiceKey '/'
  sets.Insert updates ⟨kind.ServiceEntry, c.2.1, c.1⟩

/-- The set `cu` of `PushAllXds` after its two loops: the extractor `f`
applied to every item of every event, in order, starting from the empty
set. The extractor receives the set and returns it updated. -/
def PushAllXds.accumulate {T : Type}
    (f : T → sets.Set model.ConfigKey → sets.Set model.ConfigKey)
    (events : List (krt.Event T)) : sets.Set model.ConfigKey :=
  events.foldl (fun cu e => e.Items.foldl (fun cu i => f i cu) cu) sets.New

/-- The handler `PushAllXds(xds, f)` applied to a batch `events` with the
flag `initialSync`: the state of the updater after the call. The handler does
not read `initialSync`. -/
def PushAllXds {T : Type} (xds : model.XDSUpdater)
    (f : T → sets.Set model.ConfigKey → sets.Set model.ConfigKey)
    (events : List (krt.Event T)) (initialSync : Bool) : model.XDSUpdater :=
  let cu := PushAllXds.accumulate f events
  if cu.length = 0 then xds
  else xds.ConfigUpdate ⟨false, cu, model.NewReasonStats model.AmbientUpdate⟩

/-- Whether a service declares a waypoint that carries no network address
(its destination is unset or a hostname): the service on which
`ServicesWithWaypoint` dereferences the nil result of `GetAddress()`. -/
def index.addressless (s : model.ServiceInfo) : Bool :=
  match s.GetWaypoint with
  | none => false
  | some wp => (workloadapi.GatewayAddress.GetAddress (some wp)).isNone

/-- The entry a service contributes to `ServicesWithWaypoint`: for a service
whose waypoint address is matched in the by-address index, the service with
the hostname of the first match; nothing otherwise. -/
def index.entryOf (a : index) (s : model.ServiceInfo) : Option model.ServiceWaypointInfo :=
  match workloadapi.GatewayAddress.GetAddress s.GetWaypoint with
  | none => none
  | some addr =>
    match a.services.ByAddress.Lookup ⟨addr.Network, netip.AddrFromSliceString addr.Address⟩ with
    | [] => none
    | w0 :: _ => some ⟨s.Service, w0.Hostname⟩

/-- The services `ServicesWithWaypoint` considers for a key: all services
for the empty key, the service stored under the key otherwise. -/
def index.considered (a : index) (key : String) : List model.ServiceInfo :=
  if key == "" then a.services.toCollection.List
  else ptr.ToList (a.services.toCollection.GetKey model.ServiceInfo.ResourceName key)

end ambient

namespace scenario

/-- A service whose waypoint is given by hostname, not by address. -/
def hostSvc : workloadapi.Service :=
  { Name := "by-hostname", Namespace := "default", Hostname := "host.example.com",
    Addresses := [⟨"", [2, 2, 2, 2]⟩],
    Waypoint := some ⟨some (workloadapi.GatewayAddress_Destination.Hostname
      ⟨"default", "waypoint.default.svc.cluster.local"⟩), 15008⟩ }

/-- The directory of the scenario with the hostname-waypoint service added. -/
def hostIdx : ambient.index := indexOf [⟨vipSvc⟩, ⟨waypointSvc⟩, ⟨hostSvc⟩]

/-- A workload backing the waypoint, at the given address. -/
def waypointWorkload (uid : String) (addr : List Nat) : model.WorkloadInfo :=
  ⟨{ Uid := uid, Name := uid, Namespace := "default", Addresses := [addr],
     TunnelProtocol := workloadapi.TunnelProtocol.HBONE, Waypoint := none,
     Services := [("default/waypoint.default.svc.cluster.local", [(15008, 15008)])] }⟩

/-- The index of workloads by service key in the scenario: the waypoint
Service is backed by the workloads at 3.0.0.1 and 3.0.0.2. -/
def WorkloadsByServiceKey : krt.Index String model.WorkloadInfo :=
  ⟨fun k => if k = "default/waypoint.default.svc.cluster.local" then
    [waypointWorkload "waypoint-a" [3, 0, 0, 1], waypointWorkload "waypoint-b" [3, 0, 0, 2]]
    else []⟩

/-- A second Service registered at the waypoint address 3.0.0.0. -/
def waypointSvc2 : workloadapi.Service :=
  { Name := "waypoint-copy", Namespace := "default",
    Hostname := "waypoint-copy.default.svc.cluster.local",
    Addresses := [⟨"", [3, 0, 0, 0]⟩], Waypoint := none }

/-- The directory in which two Services are registered at 3.0.0.0. -/
def dupIdx : ambient.index := indexOf [⟨vipSvc⟩, ⟨waypointSvc⟩, ⟨waypointSvc2⟩]

/-- The endpoint index in which the waypoint has no backing workload. -/
def emptyEndpointIndex : model.EndpointIndex := ⟨[]⟩

/-- The builder of the cluster `outbound|8080||vip.example.com`, a cluster
of the service entry, and of `outbound|9999||vip.example.com`, a port the
service entry does not have. -/
def portBuilder (port : String) : endpoints.EndpointBuilder :=
  endpoints.NewEndpointBuilder ("outbound|" ++ port ++ "||vip.example.com") sidecar push

/-- The per-Workload record of a workload that belongs to `vip.example.com`. -/
def vipRecord : ambient.workloadEDS :=
  { WorkloadKey := "cluster0//Pod/default/client", TunnelProtocol := workloadapi.TunnelProtocol.HBONE,
    WaypointInstance := none, ServiceHostnames := ["default/vip.example.com"] }

/-- A batch of one event: the record above is added. -/
def addBatch : List (krt.Event ambient.workloadEDS) :=
  [⟨none, some vipRecord, krt.EventType.EventAdd⟩]

/-- A fresh updater: it has received no request. -/
def freshUpdater : model.XDSUpdater := ⟨[]⟩

/-- A service whose waypoint address bytes are not a valid IP. -/
def badBytesSvc : workloadapi.Service :=
  { Name := "bad-bytes", Namespace := "default", Hostname := "bad.example.com",
    Addresses := [⟨"", [4, 4, 4, 4]⟩],
    Waypoint := some ⟨some (workloadapi.GatewayAddress_Destination.Address ⟨"", [1, 2, 3]⟩), 15008⟩ }

/-- The directory of the scenario with the invalid-bytes service added. -/
def badBytesIdx : ambient.index := indexOf [⟨vipSvc⟩, ⟨waypointSvc⟩, ⟨badBytesSvc⟩]

end scenario

/-! ## The projections of `RegisterEdsShim` -/

namespace maps

/-- The helper `maps.Keys` on a map held as an association list: its
distinct keys. Go returns them in no particular order; the only caller
sorts them. -/
def Keys {V : Type} (m : List (String × V)) : List String := (m.map Prod.fst).dedup

end maps

namespace strings

/-- The comparison `a <= b` of Go strings: lexical order of the bytes of the
UTF-8 encoding, which is the lexical order of the code points. -/
def lessEq (a b : String) : Bool := !decide (b.data < a.data)

end strings

namespace slices

/-- The helper `slices.Sort` on strings: the slice in ascending order. -/
def Sort_ (s : List String) : List String :=
  s.insertionSort (fun a b => strings.lessEq a b = true)

/-- The helper `slices.Map`: the slice of the images, never nil. -/
def Map {A B : Type} (s : List A) (f : A → B) : List B := s.map f

end slices

namespace krt

/-- Modelled from the spec: `krt.Fetch` with `krt.FilterIndex` is not part of
the sources. The objects of the collection filed under the key in the index. -/
def Fetch {K T : Type} (idx : Index K T) (k : K) : List T := idx.Lookup k

/-- Modelled from the spec: `krt.FetchOne` with `krt.FilterIndex` is not part
of the sources. The object filed under the key in the index, nil when there
is none; of several, the first in index order, as sections 3 and 4.1 of the
spec say for a lookup of a waypoint by address. -/
def FetchOne {K T : Type} (idx : Index K T) (k : K) : Option T := (idx.Lookup k).head?

end krt

namespace ambient

/-- The helper `mustByteIPToString`: the text of the address made of the
bytes, `invalid IP` when they are no address. -/
def mustByteIPToString (b : List Nat) : String := netip.AddrFromSliceString b

/-- The transformation of the collection `WorkloadEds` in `RegisterEdsShim`,
applied to one workload: `some none` is the nil record, `some (some r)` the
record `r`, and `none` a panic, the read of `wAddress.Network` on the nil
result of `GetAddress()`. The collections `Workloads` and `Services` are
read through their indices only. -/
def WorkloadEds (WorkloadsByServiceKey : krt.Index String model.WorkloadInfo)
    (ServicesByAddress : krt.Index networkAddress model.ServiceInfo)
    (wl : model.WorkloadInfo) : Option (Option workloadEDS) :=
  if wl.Workload.Waypoint = none ∧
      wl.Workload.TunnelProtocol = workloadapi.TunnelProtocol.NONE then some none
  else
    let res : workloadEDS :=
      { WorkloadKey := wl.ResourceName
        TunnelProtocol := wl.Workload.TunnelProtocol
        WaypointInstance := none
        ServiceHostnames := slices.Sort_ (maps.Keys wl.Workload.Services) }
    match wl.Workload.Waypoint with
    | none => some (some res)
    | some wp =>
      match workloadapi.GatewayAddress.GetAddress (some wp) with
      | none => none
      | some wAddress =>
        let serviceKey : networkAddress :=
          ⟨wAddress.Network, mustByteIPToString wAddress.Address⟩
        match krt.FetchOne ServicesByAddress serviceKey with
        | none => some (some res)
        | some svc =>
          let workloads := krt.Fetch WorkloadsByServiceKey svc.ResourceName
          some (some { res with
            WaypointInstance := some (slices.Map workloads (fun e => e.Workload)) })

/-- The transformation of the collection `ServiceEds` in `RegisterEdsShim`,
applied to one service, with the same reading of the result. -/
def ServiceEds (WorkloadsByServiceKey : krt.Index String model.WorkloadInfo)
    (ServicesByAddress : krt.Index networkAddress model.ServiceInfo)
    (svc : model.ServiceInfo) : Option (Option serviceEDS) :=
  match svc.Service.Waypoint with
  | none => some none
  | some wp =>
    match workloadapi.GatewayAddress.GetAddress (some wp) with
    | none => none
    | some wAddress =>
      let serviceKey : networkAddress :=
        ⟨wAddress.Network, mustByteIPToString wAddress.Address⟩
      match krt.FetchOne ServicesByAddress serviceKey with
      | none => some none
      | some waypointSvc =>
        let workloads := krt.Fetch WorkloadsByServiceKey waypointSvc.ResourceName
        some (some
          { ServiceKey := svc.ResourceName
            WaypointInstance := some (slices.Map workloads (fun e => e.Workload)) })

end ambient

namespace scenario

/-- The client workload of the scenario: it supports the tunnel, belongs to
`vip.example.com` and to a second service, and has no waypoint. -/
def clientWorkload : model.WorkloadInfo :=
  ⟨{ Uid := "cluster0//Pod/default/client", Name := "client", Namespace := "default",
     Addresses := [[10, 0, 0, 1]], TunnelProtocol := workloadapi.TunnelProtocol.HBONE,
     Waypoint := none,
     Services := [("default/vip.example.com", [(80, 8080)]),
                  ("default/alpha.example.com", [(80, 8080)])] }⟩

/-- A workload without tunnel capability whose declared waypoint address
9.9.9.9 matches no Service. -/
def strayWorkload : model.WorkloadInfo :=
  ⟨{ Uid := "cluster0//Pod/default/stray", Name := "stray", Namespace := "default",
     Addresses := [[10, 0, 0, 2]], TunnelProtocol := workloadapi.TunnelProtocol.NONE,
     Waypoint := some ⟨some (workloadapi.GatewayAddress_Destination.Address
       ⟨"", [9, 9, 9, 9]⟩), 15008⟩,
     Services := [("default/vip.example.com", [(80, 8080)])] }⟩

/-- A workload captured by the waypoint at 3.0.0.0. -/
def capturedWorkload : model.WorkloadInfo :=
  ⟨{ Uid := "cluster0//Pod/default/captured", Name := "captured", Namespace := "default",
     Addresses := [[10, 0, 0, 3]], TunnelProtocol := workloadapi.TunnelProtocol.NONE,
     Waypoint := some waypointRef,
     Services := [("default/vip.example.com", [(80, 8080)])] }⟩

/-- An index of workloads by service key under which nothing is filed: no
Service has a backing workload. -/
def noWorkloads : krt.Index String model.WorkloadInfo := ⟨fun _ => []⟩

end scenario

/-! ## Package `spire`: the SPIFFE workload client

The client is modelled sequentially: every method runs to its end under its
locks, so the mutexes are not part of the state. A channel made by
`make(chan struct{}, 1)` is the number of events it buffers, 0 or 1. A method
that can block returns `Option`, `none` being the blocked send. The
identifier `uuid.NewString()` draws is a parameter of the subscription. The
cryptographic library is a parameter, `spire.CryptoLib`. -/

namespace codes

/-- The gRPC status codes (`codes.Code`). -/
inductive Code where
  | OK
  | Canceled
  | Unknown
  | InvalidArgument
  | DeadlineExceeded
  | NotFound
  | AlreadyExists
  | PermissionDenied
  | ResourceExhausted
  | FailedPrecondition
  | Aborted
  | OutOfRange
  | Unimplemented
  | Internal
  | Unavailable
  | DataLoss
  | Unauthenticated
deriving DecidableEq, Repr

end codes

namespace status

/-- A Go `error` value as the client sees it: nil, an error made by
`status.Error(code, msg)`, or any other error. -/
inductive GoError where
  | nil
  | status (c : codes.Code) (msg : String)
  | other (msg : String)
deriving DecidableEq, Repr

/-- The function `status.Code`: `OK` for nil, the code of a status error,
`Unknown` for any other error. -/
def Code : GoError → codes.Code
  | GoError.nil => codes.Code.OK
  | GoError.status c _ => c
  | GoError.other _ => codes.Code.Unknown

end status

namespace x509

/-- An `x509.Certificate`: its raw DER bytes. -/
structure Certificate where
  Raw : List Nat
deriving DecidableEq, Repr

end x509

namespace tls

/-- A `tls.Certificate`: the chain of DER certificates and the encoded key. -/
structure Certificate where
  Chain : List (List Nat)
  PrivateKey : List Nat
deriving DecidableEq, Repr

end tls

namespace spiffeid

/-- A `spiffeid.ID`; the zero value has the empty text. -/
structure ID where
  id : String
deriving DecidableEq, Repr

/-- The method `ID.String`. -/
def ID.String (i : ID) : String := i.id

end spiffeid

namespace x509svid

/-- An `x509svid.SVID`. -/
structure SVID where
  ID : spiffeid.ID
  Certificates : List x509.Certificate
  PrivateKey : List Nat
deriving DecidableEq, Repr

end x509svid

namespace workloadapi

/-- The `workloadapi.X509Context` of go-spiffe. -/
structure X509Context where
  SVIDs : List x509svid.SVID
deriving DecidableEq, Repr

/-- The method `X509Context.DefaultSVID`: the first SVID, nil when there is
none. -/
def X509Context.DefaultSVID (x : X509Context) : Option x509svid.SVID := x.SVIDs.head?

end workloadapi

namespace spire

/-- The functions of the Go standard library the client calls. Each returns
its value and its error, nil (`none`) on success, as in Go. -/
structure CryptoLib where
  MarshalPKCS8PrivateKey : List Nat → List Nat × Option String
  pemEncodeToMemory : String → List Nat → List Nat
  X509KeyPair : List Nat → List Nat → tls.Certificate × Option String

/-- The function `encodePKCS8PrivateKey` of `pemutil.go`. -/
def encodePKCS8PrivateKey (lib : CryptoLib) (privateKey : List Nat) :
    List Nat × Option String :=
  match lib.MarshalPKCS8PrivateKey privateKey with
  | (_, some err) => ([], some err)
  | (keyBytes, none) => (lib.pemEncodeToMemory "PRIVATE KEY" keyBytes, none)

/-- The function `encodeCertificate` of `pemutil.go`: the buffer with the
PEM block of the certificate appended. -/
def encodeCertificate (lib : CryptoLib) (buf : List Nat) (cert : x509.Certificate) :
    List Nat :=
  buf ++ lib.pemEncodeToMemory "CERTIFICATE" cert.Raw

/-- The function `encodeCertificates` of `pemutil.go`. -/
def encodeCertificates (lib : CryptoLib) (certs : List x509.Certificate) : List Nat :=
  certs.foldl (encodeCertificate lib) []

/-- The function `certificateFromSVID`: the certificate pointer and the
error. A nil SVID gives nil and no error; a failed `X509KeyPair` gives the
pointer to the certificate it returned together with its error. -/
def certificateFromSVID (lib : CryptoLib) (svid : Option x509svid.SVID) :
    Option tls.Certificate × Option String :=
  match svid with
  | none => (none, none)
  | some svid =>
    let certificates := svid.Certificates
    if certificates.length = 0 then (none, some "no certificates found")
    else
      match encodePKCS8PrivateKey lib svid.PrivateKey with
      | (_, some err) => (none, some err)
      | (keyPEM, none) =>
        let certsPEM := encodeCertificates lib certificates
        let r := lib.X509KeyPair certsPEM keyPEM
        (some r.1, r.2)

/-- A channel made by `make(chan struct{}, 1)`: the number of events in its
buffer, at most its capacity 1. -/
structure Chan where
  len : Fin 2
deriving DecidableEq, Repr

/-- A send on the channel: it blocks (`none`) when the buffer is full. -/
def Chan.send (ch : Chan) : Option Chan :=
  if ch.len = 0 then some ⟨1⟩ else none

/-- A receive from the channel: it blocks (`none`) when the buffer is empty. -/
def Chan.recv (ch : Chan) : Option Chan :=
  if ch.len = 1 then some ⟨0⟩ else none

/-- The `WorkloadClient`. The map `listeners` is an association list from
subscription id to channel. -/
structure WorkloadClient where
  socketPath : String
  workloadx509Cert : Option tls.Certificate
  currentSpiffeID : String
  listeners : List (String × Chan)
deriving DecidableEq, Repr

/-- The function `NewWorkloadClient`. -/
def NewWorkloadClient (socketPath : String) : WorkloadClient :=
  { socketPath := socketPath, workloadx509Cert := none, currentSpiffeID := "",
    listeners := [] }

/-- The map assignment `m[id] = ch`: the binding of `id` is replaced when
there is one, added otherwise. -/
def mapSet (m : List (String × Chan)) (id : String) (ch : Chan) : List (String × Chan) :=
  if m.any (fun p => p.1 == id) then m.map (fun p => if p.1 == id then (id, ch) else p)
  else m ++ [(id, ch)]

/-- The method `SubscribeToIdentityChange`, with the identifier `uuid` drawn
by `uuid.NewString()`: the subscription id and the client, in which the new
empty channel is registered under the id. The channel returned is that one. -/
def WorkloadClient.SubscribeToIdentityChange (c : WorkloadClient) (uuid : String) :
    String × WorkloadClient :=
  let ch : Chan := ⟨0⟩
  let id := uuid
  (id, { c with listeners := mapSet c.listeners id ch })

/-- The method `UnsubscribeFromIdentityChange`. -/
def WorkloadClient.UnsubscribeFromIdentityChange (c : WorkloadClient) (id : String) :
    WorkloadClient :=
  if (c.listeners.lookup id).isNone then c
  else { c with listeners := c.listeners.filter (fun p => !(p.1 == id)) }

/-- The method `GetWorkloadCert`. -/
def WorkloadClient.GetWorkloadCert (c : WorkloadClient) : Option tls.Certificate :=
  c.workloadx509Cert

/-- The loop of `notifyAll` over the listeners: a listener whose channel is
empty is sent one event. -/
def notifyLoop : List (String × Chan) → Option (List (String × Chan))
  | [] => some []
  | (id, lis) :: rest =>
    let sent := if lis.len = 0 then lis.send else some lis
    match sent with
    | none => none
    | some lis1 =>
      match notifyLoop rest with
      | none => none
      | some rest1 => some ((id, lis1) :: rest1)

/-- The method `notifyAll`. -/
def WorkloadClient.notifyAll (c : WorkloadClient) : Option WorkloadClient :=
  match notifyLoop c.listeners with
  | none => none
  | some ls => some { c with listeners := ls }

/-- The method `OnX509ContextUpdate`. -/
def WorkloadClient.OnX509ContextUpdate (lib : CryptoLib) (c : WorkloadClient)
    (certCtx : workloadapi.X509Context) : Option WorkloadClient :=
  match certCtx.DefaultSVID with
  | none => some c
  | some svid =>
    match certificateFromSVID lib (some svid) with
    | (_, some _) => some c
    | (cert, none) =>
      let shouldNotify := c.currentSpiffeID ≠ "" ∧ c.currentSpiffeID ≠ svid.ID.String
      let c1 : WorkloadClient :=
        { c with workloadx509Cert := cert, currentSpiffeID := svid.ID.String }
      if shouldNotify then c1.notifyAll else some c1

/-- The method `OnX509ContextWatchError`. -/
def WorkloadClient.OnX509ContextWatchError (c : WorkloadClient) (err : status.GoError) :
    WorkloadClient :=
  if status.Code err = codes.Code.Canceled then c
  else if status.Code err = codes.Code.PermissionDenied then
    if c.currentSpiffeID ≠ "" then { c with currentSpiffeID := "", workloadx509Cert := none }
    else c
  else c

/-- The calls `notifyAll` repeated `k` times, as in `TestIdentityChangeEvents`. -/
def notifyTimes : Nat → WorkloadClient → Option WorkloadClient
  | 0, c => some c
  | k + 1, c =>
    match c.notifyAll with
    | none => none
    | some c1 => notifyTimes k c1

/-- The subscriptions of `TestIdentityChangeEvents`: one call for each
identifier drawn, in order. -/
def subscribeAll (c : WorkloadClient) (ids : List String) : WorkloadClient :=
  ids.foldl (fun c id => (c.SubscribeToIdentityChange id).2) c

/-- The calls `UnsubscribeFromIdentityChange` for a list of ids, in order. -/
def unsubscribeAll (c : WorkloadClient) (ids : List String) : WorkloadClient :=
  ids.foldl (fun c id => c.UnsubscribeFromIdentityChange id) c

/-- A stand-in for the cryptographic library in the examples: the key and
the certificates are passed through unchanged, and an empty key is
rejected. -/
def exampleLib : CryptoLib where
  MarshalPKCS8PrivateKey := fun k => if k = [] then ([], some "unsupported key") else (k, none)
  pemEncodeToMemory := fun _ b => b
  X509KeyPair := fun certs key => (⟨[certs], key⟩, none)

/-- The SVID of `TestX509Watcher`, with stand-in key and certificate bytes. -/
def testSVID : x509svid.SVID :=
  { ID := ⟨"spiffe://cluster.local/ns/foo/sa/baz"⟩
    Certificates := [⟨[1, 2, 3]⟩, ⟨[4, 5, 6]⟩]
    PrivateKey := [7, 8, 9] }

/-- The X509 context of `TestX509Watcher`. -/
def testContext : workloadapi.X509Context := ⟨[testSVID]⟩

/-- The error `status.Error(codes.PermissionDenied, "no identity issued")`. -/
def noIdentityError : status.GoError :=
  status.GoError.status codes.Code.PermissionDenied "no identity issued"

end spire

/-! ## Further data of the scenario, and the history of a workload client -/

namespace scenario

/-- The service `vip.example.com` of the namespace `other`, using the same
waypoint: it shares its hostname with the service of namespace `default`. -/
def vipSvcOther : workloadapi.Service :=
  ⟨"with-vip", "other", "vip.example.com", [⟨"", [1, 1, 1, 2]⟩], some waypointRef⟩

/-- The directory in which two services of different namespaces share the
hostname `vip.example.com`. -/
def sharedIdx : ambient.index := indexOf [⟨vipSvc⟩, ⟨vipSvcOther⟩, ⟨waypointSvc⟩]

/-- The per-Workload record of the client before an update: the workload
also belonged to `old.example.com`. -/
def oldRecord : ambient.workloadEDS :=
  { WorkloadKey := "cluster0//Pod/default/client", TunnelProtocol := workloadapi.TunnelProtocol.HBONE,
    WaypointInstance := none,
    ServiceHostnames := ["default/old.example.com", "default/vip.example.com"] }

/-- A batch of one event: the record of the client is updated and loses the
service `old.example.com`. -/
def updateBatch : List (krt.Event ambient.workloadEDS) :=
  [⟨some oldRecord, some vipRecord, krt.EventType.EventUpdate⟩]

/-- A second index of workloads by service key: it agrees with
`WorkloadsByServiceKey` on the key of the waypoint Service and files the
client under the key of `vip.example.com`. -/
def otherWorkloads : krt.Index String model.WorkloadInfo :=
  ⟨fun k => if k = "default/waypoint.default.svc.cluster.local" then
    [waypointWorkload "waypoint-a" [3, 0, 0, 1], waypointWorkload "waypoint-b" [3, 0, 0, 2]]
    else if k = "default/vip.example.com" then [clientWorkload] else []⟩

end scenario

namespace spire

/-- A call the SPIRE watcher makes on the client: a context update or a
watch error. -/
inductive Call where
  | OnX509ContextUpdate (certCtx : workloadapi.X509Context)
  | OnX509ContextWatchError (err : status.GoError)

/-- Whether the SVID a call delivers, the default SVID of its context, has a
non-empty SPIFFE ID; a call that delivers no SVID qualifies. -/
def Call.identified : Call → Bool
  | Call.OnX509ContextUpdate certCtx =>
    match certCtx.DefaultSVID with
    | none => true
    | some svid => decide (svid.ID.String ≠ "")
  | Call.OnX509ContextWatchError _ => true

/-- The client after one call of the watcher. -/
def WorkloadClient.call (lib : CryptoLib) (c : WorkloadClient) : Call → Option WorkloadClient
  | Call.OnX509ContextUpdate certCtx => c.OnX509ContextUpdate lib certCtx
  | Call.OnX509ContextWatchError err => some (c.OnX509ContextWatchError err)

/-- The client after a sequence of calls of the watcher, in order. -/
def WorkloadClient.calls (lib : CryptoLib) (c : WorkloadClient) : List Call → Option WorkloadClient
  | [] => some c
  | k :: rest =>
    match c.call lib k with
    | none => none
    | some c1 => c1.calls lib rest

/-- An SVID without certificates. -/
def emptySVID : x509svid.SVID :=
  { ID := ⟨"spiffe://cluster.local/ns/foo/sa/other"⟩, Certificates := [], PrivateKey := [7, 8, 9] }

/-- A second SVID, of another identity. -/
def otherSVID : x509svid.SVID :=
  { ID := ⟨"spiffe://cluster.local/ns/foo/sa/other"⟩
    Certificates := [⟨[1, 2, 3]⟩]
    PrivateKey := [7, 8, 9] }

end spire

namespace scenario

/-- The directory in which two Services are registered at 3.0.0.0 and one
more service declares its waypoint by hostname. -/
def dupHostIdx : ambient.index :=
  indexOf [⟨vipSvc⟩, ⟨waypointSvc⟩, ⟨waypointSvc2⟩, ⟨hostSvc⟩]

end scenario

/-! ## The redirect decision of `findServiceWaypoint` -/

namespace endpoints

/-- Past its three guards, `findServiceWaypoint` is decided by the result of
`ServicesWithWaypoint` on the key `namespace/hostname`. -/
theorem findServiceWaypoint_unfold (fl : features.Vars) (d : Deps) (b : EndpointBuilder)
    (endpointIndex : model.EndpointIndex) (s : model.Service) (hs : b.service = some s)
    (hw : b.proxy.IsWaypointProxy = false)
    (hr : ¬ (b.nodeType = model.NodeType.Router ∧
      s.Attributes.Labels.get ingressUseWaypointLabel ≠ "true"))
    (ha : d.GetAddressForProxy s b.proxy ≠ constants.UnspecifiedIP) :
    b.findServiceWaypoint fl d endpointIndex =
      match b.push.ServicesWithWaypoint fl (s.Attributes.Namespace ++ "/" ++ b.hostname) with
      | none => none
      | some [] => some ([], false)
      | some (svc :: _) =>
        some (((d.NewEndpointBuilder
          (model.BuildSubsetKey model.TrafficDirectionOutbound "" svc.WaypointHostname
            (Int.ofNat (workloadapi.GatewayAddress.GetHboneMtlsPort svc.Service.GetWaypoint)))
          b.proxy b.push).snapshotEndpointsForPort d endpointIndex).1, true) := by
  unfold EndpointBuilder.findServiceWaypoint
  simp only [hw, hs, Bool.false_eq_true, if_false, if_neg hr, if_neg ha]

/-- The waypoint guard: a waypoint proxy returns at the first guard. -/
theorem findServiceWaypoint_waypoint_guard (fl : features.Vars) (d : Deps) (b : EndpointBuilder)
    (endpointIndex : model.EndpointIndex) (h : b.proxy.IsWaypointProxy = true) :
    b.findServiceWaypoint fl d endpointIndex = some ([], false) := by
  unfold EndpointBuilder.findServiceWaypoint
  simp only [h, if_true]

/-- The Router guard: a Router builder whose service lacks the opt-in label
with value `true` returns at the guard. -/
theorem findServiceWaypoint_router_guard (fl : features.Vars) (d : Deps) (b : EndpointBuilder)
    (endpointIndex : model.EndpointIndex) (s : model.Service) (hs : b.service = some s)
    (hn : b.nodeType = model.NodeType.Router)
    (hl : s.Attributes.Labels.get ingressUseWaypointLabel ≠ "true") :
    b.findServiceWaypoint fl d endpointIndex = some ([], false) := by
  unfold EndpointBuilder.findServiceWaypoint
  cases hw : b.proxy.IsWaypointProxy
  · simp only [hs, Bool.false_eq_true, if_false, if_pos (And.intro hn hl)]
  · simp only [if_true]

/-- The address guard: a builder whose service has the unspecified IP as its
address for the proxy returns at the guard at the latest. -/
theorem findServiceWaypoint_address_guard (fl : features.Vars) (d : Deps) (b : EndpointBuilder)
    (endpointIndex : model.EndpointIndex) (s : model.Service) (hs : b.service = some s)
    (ha : d.GetAddressForProxy s b.proxy = constants.UnspecifiedIP) :
    b.findServiceWaypoint fl d endpointIndex = some ([], false) := by
  unfold EndpointBuilder.findServiceWaypoint
  cases hw : b.proxy.IsWaypointProxy
  · simp only [hs, Bool.false_eq_true, if_false, if_pos ha, ite_self]
  · simp only [if_true]

/-- C1: a builder whose proxy is a waypoint proxy gets no endpoints and
`redirected = false`, for every target service (also a nil one), port, push
context and endpoint index. -/
theorem findServiceWaypoint_waypoint_proxy (fl : features.Vars) (d : Deps) (b : EndpointBuilder)
    (endpointIndex : model.EndpointIndex) (h : b.proxy.IsWaypointProxy = true) :
    b.findServiceWaypoint fl d endpointIndex = some ([], false) :=
  findServiceWaypoint_waypoint_guard fl d b endpointIndex h

/-- Witness of C1: the waypoint proxy of the scenario asking for
`vip.example.com`, a service with a VIP and a resolvable waypoint. -/
theorem findServiceWaypoint_waypoint_proxy_witness :
    scenario.waypointBuilder.proxy.IsWaypointProxy = true ∧
    scenario.waypointBuilder.findServiceWaypoint ⟨true⟩ specDeps scenario.endpointIndex
      = some ([], false) :=
  ⟨by decide,
   findServiceWaypoint_waypoint_proxy ⟨true⟩ specDeps scenario.waypointBuilder
     scenario.endpointIndex (by decide)⟩

/-- C2: a Router builder whose target service does not carry the opt-in label
`istio.io/ingress-use-waypoint` with the value `true` (in particular one that
does not carry the label at all, for which the map read gives the empty
string) gets no endpoints and `redirected = false`, whatever waypoint the
service has. -/
theorem findServiceWaypoint_router_without_label (fl : features.Vars) (d : Deps)
    (b : EndpointBuilder) (endpointIndex : model.EndpointIndex) (s : model.Service)
    (hs : b.service = some s) (hn : b.nodeType = model.NodeType.Router)
    (hl : s.Attributes.Labels.get ingressUseWaypointLabel ≠ "true") :
    b.findServiceWaypoint fl d endpointIndex = some ([], false) :=
  findServiceWaypoint_router_guard fl d b endpointIndex s hs hn hl

/-- Witness of C2: the ingress gateway of the scenario asking for
`vip.example.com`, which has a waypoint but not the opt-in label. -/
theorem findServiceWaypoint_router_without_label_witness :
    scenario.ingressBuilder.service = some (scenario.vipService scenario.vipLabels "1.1.1.1") ∧
    scenario.ingressBuilder.nodeType = model.NodeType.Router ∧
    (scenario.vipService scenario.vipLabels "1.1.1.1").Attributes.Labels.lookup
      ingressUseWaypointLabel = none ∧
    scenario.ingressBuilder.findServiceWaypoint ⟨true⟩ specDeps scenario.endpointIndex
      = some ([], false) :=
  ⟨by decide, by decide, by decide,
   findServiceWaypoint_router_without_label ⟨true⟩ specDeps scenario.ingressBuilder
     scenario.endpointIndex (scenario.vipService scenario.vipLabels "1.1.1.1")
     (by decide) (by decide) (by decide)⟩

/-- Counterexample of C3: the ingress gateway asks for `vip.example.com`, a
service with VIP 1.1.1.1 and a resolvable waypoint that carries the opt-in
label with the value `false`. The label is present, the proxy is not a
waypoint, yet the result is `redirected = false`. -/
theorem findServiceWaypoint_router_label_present_counterexample :
    (scenario.ingressOptBuilder "false").nodeType = model.NodeType.Router ∧
    (scenario.ingressOptBuilder "false").proxy.IsWaypointProxy = false ∧
    (∃ s, (scenario.ingressOptBuilder "false").service = some s ∧
      s.Attributes.Labels.lookup ingressUseWaypointLabel = some "false" ∧
      specDeps.GetAddressForProxy s (scenario.ingressOptBuilder "false").proxy
        ≠ constants.UnspecifiedIP ∧
      (∃ svc rest, (scenario.ingressOptBuilder "false").push.ServicesWithWaypoint ⟨true⟩
        (s.Attributes.Namespace ++ "/" ++ (scenario.ingressOptBuilder "false").hostname)
          = some (svc :: rest))) ∧
    (scenario.ingressOptBuilder "false").findServiceWaypoint ⟨true⟩ specDeps
      scenario.endpointIndex = some ([], false) :=
  ⟨by decide, by decide,
   ⟨scenario.vipService (scenario.vipLabels ++ [(ingressUseWaypointLabel, "false")]) "1.1.1.1",
    by decide, by decide, by decide,
    ⟨⟨scenario.vipSvc, "waypoint.default.svc.cluster.local"⟩, [], by decide⟩⟩,
   by decide⟩

/-- C3, amended: for a Router builder whose proxy is not a waypoint, when the
target service carries the opt-in label `istio.io/ingress-use-waypoint` with
the value `true`, has a usable address for the proxy, and
`ServicesWithWaypoint` resolves a waypoint for it, `findServiceWaypoint`
returns `redirected = true`. -/
theorem findServiceWaypoint_router_opt_in (fl : features.Vars) (d : Deps) (b : EndpointBuilder)
    (endpointIndex : model.EndpointIndex) (s : model.Service)
    (svc : model.ServiceWaypointInfo) (rest : List model.ServiceWaypointInfo)
    (hn : b.nodeType = model.NodeType.Router) (hw : b.proxy.IsWaypointProxy = false)
    (hs : b.service = some s)
    (hl : s.Attributes.Labels.get ingressUseWaypointLabel = "true")
    (ha : d.GetAddressForProxy s b.proxy ≠ constants.UnspecifiedIP)
    (hsvcs : b.push.ServicesWithWaypoint fl (s.Attributes.Namespace ++ "/" ++ b.hostname)
      = some (svc :: rest)) :
    ∃ eps, b.findServiceWaypoint fl d endpointIndex = some (eps, true) := by
  have hr : ¬ (b.nodeType = model.NodeType.Router ∧
      s.Attributes.Labels.get ingressUseWaypointLabel ≠ "true") := fun h => h.2 hl
  rw [findServiceWaypoint_unfold fl d b endpointIndex s hs hw hr ha, hsvcs]
  exact ⟨_, rfl⟩

/-- Witness of C3, amended: the ingress gateway asking for `vip.example.com`
when the service carries the opt-in label with the value `true`. -/
theorem findServiceWaypoint_router_opt_in_witness :
    (scenario.ingressOptBuilder "true").nodeType = model.NodeType.Router ∧
    (scenario.ingressOptBuilder "true").proxy.IsWaypointProxy = false ∧
    ∃ eps, (scenario.ingressOptBuilder "true").findServiceWaypoint ⟨true⟩ specDeps
      scenario.endpointIndex = some (eps, true) :=
  ⟨by decide, by decide,
   findServiceWaypoint_router_opt_in ⟨true⟩ specDeps (scenario.ingressOptBuilder "true")
     scenario.endpointIndex
     (scenario.vipService (scenario.vipLabels ++ [(ingressUseWaypointLabel, "true")]) "1.1.1.1")
     ⟨scenario.vipSvc, "waypoint.default.svc.cluster.local"⟩ []
     (by decide) (by decide) (by decide) (by decide) (by decide) (by decide)⟩

/-- C4: for a builder whose proxy is neither a waypoint nor a Router, if the
address of the target service for the proxy is not the unspecified IP and
`ServicesWithWaypoint(namespace + "/" + hostname)` is non-empty,
`findServiceWaypoint` returns `redirected = true`. -/
theorem findServiceWaypoint_sidecar_redirects (fl : features.Vars) (d : Deps)
    (b : EndpointBuilder) (endpointIndex : model.EndpointIndex) (s : model.Service)
    (svcs : List model.ServiceWaypointInfo)
    (hw : b.proxy.IsWaypointProxy = false) (hn : b.nodeType ≠ model.NodeType.Router)
    (hs : b.service = some s)
    (ha : d.GetAddressForProxy s b.proxy ≠ constants.UnspecifiedIP)
    (hsvcs : b.push.ServicesWithWaypoint fl (s.Attributes.Namespace ++ "/" ++ b.hostname)
      = some svcs)
    (hne : svcs ≠ []) :
    ∃ eps, b.findServiceWaypoint fl d endpointIndex = some (eps, true) := by
  have hr : ¬ (b.nodeType = model.NodeType.Router ∧
      s.Attributes.Labels.get ingressUseWaypointLabel ≠ "true") := fun h => hn h.1
  rw [findServiceWaypoint_unfold fl d b endpointIndex s hs hw hr ha, hsvcs]
  cases svcs with
  | nil => exact absurd rfl hne
  | cons svc rest => exact ⟨_, rfl⟩

/-- Witness of C4: the sidecar of the scenario asking for `vip.example.com`. -/
theorem findServiceWaypoint_sidecar_redirects_witness :
    scenario.builder.proxy.IsWaypointProxy = false ∧
    scenario.builder.nodeType ≠ model.NodeType.Router ∧
    ∃ eps, scenario.builder.findServiceWaypoint ⟨true⟩ specDeps scenario.endpointIndex
      = some (eps, true) :=
  ⟨by decide, by decide,
   findServiceWaypoint_sidecar_redirects ⟨true⟩ specDeps scenario.builder
     scenario.endpointIndex (scenario.vipService scenario.vipLabels "1.1.1.1")
     [⟨scenario.vipSvc, "waypoint.default.svc.cluster.local"⟩]
     (by decide) (by decide) (by decide) (by decide) (by decide) (by decide)⟩

/-- C5: a builder whose target service has the unspecified IP as its address
for the proxy (no usable virtual address) gets no endpoints and
`redirected = false`, whatever `ServicesWithWaypoint` would resolve. -/
theorem findServiceWaypoint_no_address (fl : features.Vars) (d : Deps) (b : EndpointBuilder)
    (endpointIndex : model.EndpointIndex) (s : model.Service) (hs : b.service = some s)
    (ha : d.GetAddressForProxy s b.proxy = constants.UnspecifiedIP) :
    b.findServiceWaypoint fl d endpointIndex = some ([], false) :=
  findServiceWaypoint_address_guard fl d b endpointIndex s hs ha

/-- Witness of C5: the sidecar asking for the headless `vip.example.com`,
whose waypoint still resolves. -/
theorem findServiceWaypoint_no_address_witness :
    (∃ svc rest, scenario.headlessBuilder.push.ServicesWithWaypoint ⟨true⟩
      "default/vip.example.com" = some (svc :: rest)) ∧
    scenario.headlessBuilder.findServiceWaypoint ⟨true⟩ specDeps scenario.endpointIndex
      = some ([], false) :=
  ⟨⟨⟨scenario.vipSvc, "waypoint.default.svc.cluster.local"⟩, [], by decide⟩,
   findServiceWaypoint_no_address ⟨true⟩ specDeps scenario.headlessBuilder
     scenario.endpointIndex (scenario.vipService scenario.vipLabels constants.UnspecifiedIP)
     (by decide) (by decide)⟩

/-- C6: a builder for which `ServicesWithWaypoint(namespace + "/" + hostname)`
returns no entry gets no endpoints and `redirected = false`. -/
theorem findServiceWaypoint_not_captured (fl : features.Vars) (d : Deps) (b : EndpointBuilder)
    (endpointIndex : model.EndpointIndex) (s : model.Service) (hs : b.service = some s)
    (hsvcs : b.push.ServicesWithWaypoint fl (s.Attributes.Namespace ++ "/" ++ b.hostname)
      = some []) :
    b.findServiceWaypoint fl d endpointIndex = some ([], false) := by
  unfold EndpointBuilder.findServiceWaypoint
  cases hw : b.proxy.IsWaypointProxy
  · simp only [hs, Bool.false_eq_true, if_false, hsvcs, ite_self]
  · simp only [if_true]

/-- Witness of C6: the sidecar asking for `vip.example.com` when the service
entry uses no waypoint. -/
theorem findServiceWaypoint_not_captured_witness :
    scenario.plainBuilder.push.ServicesWithWaypoint ⟨true⟩ "default/vip.example.com" = some [] ∧
    scenario.plainBuilder.findServiceWaypoint ⟨true⟩ specDeps scenario.endpointIndex
      = some ([], false) :=
  ⟨by decide,
   findServiceWaypoint_not_captured ⟨true⟩ specDeps scenario.plainBuilder
     scenario.endpointIndex (scenario.vipService [] "1.1.1.1") (by decide) (by decide)⟩

end endpoints

/-! ## The feature flag -/

namespace ambient

/-- The loop returns the empty list exactly when it started from the empty
list and no service contributed an entry. -/
theorem servicesWithWaypointLoop_eq_nil (a : index) (svcs : List model.ServiceInfo)
    (res : List model.ServiceWaypointInfo) :
    a.servicesWithWaypointLoop svcs res = some [] ↔
      res = [] ∧ ∀ s ∈ svcs, a.noEntry s = true := by
  induction svcs generalizing res with
  | nil => simp [index.servicesWithWaypointLoop]
  | cons s rest ih =>
    unfold index.servicesWithWaypointLoop
    cases hwp : s.GetWaypoint with
    | none => simp [ih, index.noEntry, hwp]
    | some wp =>
      cases hga : workloadapi.GatewayAddress.GetAddress (some wp) with
      | none => simp [index.noEntry, hwp, hga]
      | some addr =>
        cases hl : a.services.ByAddress.Lookup
            ⟨addr.Network, netip.AddrFromSliceString addr.Address⟩ with
        | nil => simp [ih, index.noEntry, hwp, hga, hl]
        | cons w0 ws => simp [ih, index.noEntry, hwp, hga, hl]

/-- Counterexample of C8: with the flag off, in the directory of the
scenario, `ServicesWithWaypoint` returns the entry of `vip.example.com`, both
for its key and for the empty key, at the index and through the push
context. -/
theorem ServicesWithWaypoint_flag_off_counterexample :
    scenario.idx.ServicesWithWaypoint ⟨false⟩ "default/vip.example.com"
      = some [⟨scenario.vipSvc, "waypoint.default.svc.cluster.local"⟩] ∧
    scenario.idx.ServicesWithWaypoint ⟨false⟩ ""
      = some [⟨scenario.vipSvc, "waypoint.default.svc.cluster.local"⟩] ∧
    scenario.push.ServicesWithWaypoint ⟨false⟩ "default/vip.example.com"
      = some [⟨scenario.vipSvc, "waypoint.default.svc.cluster.local"⟩] ∧
    scenario.push.ServicesWithWaypoint ⟨false⟩ ""
      = some [⟨scenario.vipSvc, "waypoint.default.svc.cluster.local"⟩] :=
  ⟨by decide, by decide, by decide, by decide⟩

end ambient

namespace endpoints

/-- Counterexample of C7: with the flag off, the sidecar of the scenario
asking for `vip.example.com` (VIP 1.1.1.1, resolvable waypoint) is
redirected to the two waypoint workloads. -/
theorem findServiceWaypoint_flag_off_counterexample :
    scenario.builder.findServiceWaypoint ⟨false⟩ specDeps scenario.endpointIndex
      = some ([scenario.waypointA, scenario.waypointB], true) := by
  decide

/-- C7, amended: `findServiceWaypoint` does not read the waypoint-interop
flag. With the flag off it returns what it returns with the flag on, and for
a builder with a target service it returns `redirected = false` exactly when
the proxy is a waypoint, or the builder is a Router and the service lacks the
opt-in label with value `true`, or the service has the unspecified IP as its
address for the proxy, or `ServicesWithWaypoint` returns no entry for the
service; a sidecar targeting a service with a VIP and a resolvable waypoint
is redirected. -/
theorem findServiceWaypoint_flag_off (fl : features.Vars) (d : Deps) (b : EndpointBuilder)
    (endpointIndex : model.EndpointIndex) (s : model.Service)
    (hfl : fl.EnableWaypointInterop = false) (hs : b.service = some s) :
    b.findServiceWaypoint fl d endpointIndex = b.findServiceWaypoint ⟨true⟩ d endpointIndex ∧
    ((∃ eps, b.findServiceWaypoint fl d endpointIndex = some (eps, false)) ↔
      (b.proxy.IsWaypointProxy = true ∨
       (b.nodeType = model.NodeType.Router ∧
         s.Attributes.Labels.get ingressUseWaypointLabel ≠ "true") ∨
       d.GetAddressForProxy s b.proxy = constants.UnspecifiedIP ∨
       b.push.ServicesWithWaypoint fl (s.Attributes.Namespace ++ "/" ++ b.hostname)
         = some [])) := by
  refine ⟨rfl, ?_⟩
  cases hw : b.proxy.IsWaypointProxy with
  | true =>
    simp [EndpointBuilder.findServiceWaypoint, hw]
  | false =>
    by_cases hr : b.nodeType = model.NodeType.Router ∧
        s.Attributes.Labels.get ingressUseWaypointLabel ≠ "true"
    · have h := findServiceWaypoint_router_guard fl d b endpointIndex s hs hr.1 hr.2
      simp [h, hr]
    · by_cases ha : d.GetAddressForProxy s b.proxy = constants.UnspecifiedIP
      · have h := findServiceWaypoint_address_guard fl d b endpointIndex s hs ha
        simp [h, ha]
      · rw [findServiceWaypoint_unfold fl d b endpointIndex s hs hw hr ha]
        cases hsv : b.push.ServicesWithWaypoint fl
            (s.Attributes.Namespace ++ "/" ++ b.hostname) with
        | none => simp [hr, ha]
        | some l =>
          cases l with
          | nil => simp [hr, ha]
          | cons svc rest => simp [hr, ha]

/-- Witness of C7, amended: the sidecar of the scenario asking for the
headless `vip.example.com`, flag off. -/
theorem findServiceWaypoint_flag_off_witness :
    ∃ eps, scenario.headlessBuilder.findServiceWaypoint ⟨false⟩ specDeps scenario.endpointIndex
      = some (eps, false) :=
  ((findServiceWaypoint_flag_off ⟨false⟩ specDeps scenario.headlessBuilder
    scenario.endpointIndex (scenario.vipService scenario.vipLabels constants.UnspecifiedIP)
    rfl (by decide)).2).mpr (Or.inr (Or.inr (Or.inl (by decide))))

end endpoints

/-! ## The endpoints of a redirect -/

namespace endpoints

/-- The filter of `snapshotEndpointsForPort` only removes endpoints: what it
returns is part of the raw endpoint set of the builder. -/
theorem snapshotEndpointsForPort_subset (d : Deps) (b : EndpointBuilder)
    (endpointIndex : model.EndpointIndex) (ep : model.IstioEndpoint)
    (h : ep ∈ (b.snapshotEndpointsForPort d endpointIndex).1) :
    ep ∈ d.snapshotShards b endpointIndex := by
  unfold EndpointBuilder.snapshotEndpointsForPort at h
  cases hp : d.servicePort b b.port with
  | none => simp [hp] at h
  | some svcPort =>
    simp only [hp, slices.FilterInPlace] at h
    exact (List.mem_filter.mp h).1

/-- Counterexample of C9: in the directory where the Service `waypoint` at
3.0.0.0 names 3.0.0.0 as its own waypoint, the sidecar asking for that
Service on port 15008 is redirected, and the endpoints returned are the two
endpoints of the target service itself. -/
theorem findServiceWaypoint_own_endpoints_counterexample :
    scenario.selfBuilder.findServiceWaypoint ⟨true⟩ specDeps scenario.endpointIndex
      = some ([scenario.waypointA, scenario.waypointB], true) ∧
    specDeps.snapshotShards scenario.selfBuilder scenario.endpointIndex
      = [scenario.waypointA, scenario.waypointB] ∧
    scenario.selfBuilder.snapshotEndpointsForPort specDeps scenario.endpointIndex
      = ([scenario.waypointA, scenario.waypointB], true) :=
  ⟨by decide, by decide, by decide⟩

/-- C9, amended: whenever `findServiceWaypoint` redirects, the builder has a
target service, `ServicesWithWaypoint` has a first entry for it, and the
endpoints returned are exactly those `snapshotEndpointsForPort` yields, on
the same proxy, push context and endpoint index, for the builder of the
outbound cluster with empty subset, hostname the `WaypointHostname` of that
entry and port the HBONE mTLS port of the waypoint of that entry's service.
Every returned endpoint belongs to the raw endpoint set of that waypoint
builder, so an endpoint of the target service is returned only if the raw
endpoint set of the waypoint builder contains it. -/
theorem findServiceWaypoint_redirect_endpoints (fl : features.Vars) (d : Deps)
    (b : EndpointBuilder) (endpointIndex : model.EndpointIndex)
    (eps : List model.IstioEndpoint)
    (h : b.findServiceWaypoint fl d endpointIndex = some (eps, true)) :
    ∃ s svc rest, b.service = some s ∧
      b.push.ServicesWithWaypoint fl (s.Attributes.Namespace ++ "/" ++ b.hostname)
        = some (svc :: rest) ∧
      eps = ((d.NewEndpointBuilder
        (model.BuildSubsetKey model.TrafficDirectionOutbound "" svc.WaypointHostname
          (Int.ofNat (workloadapi.GatewayAddress.GetHboneMtlsPort svc.Service.GetWaypoint)))
        b.proxy b.push).snapshotEndpointsForPort d endpointIndex).1 ∧
      (∀ ep ∈ eps, ep ∈ d.snapshotShards (d.NewEndpointBuilder
        (model.BuildSubsetKey model.TrafficDirectionOutbound "" svc.WaypointHostname
          (Int.ofNat (workloadapi.GatewayAddress.GetHboneMtlsPort svc.Service.GetWaypoint)))
        b.proxy b.push) endpointIndex) ∧
      (∀ ep ∈ d.snapshotShards b endpointIndex,
        ep ∉ d.snapshotShards (d.NewEndpointBuilder
          (model.BuildSubsetKey model.TrafficDirectionOutbound "" svc.WaypointHostname
            (Int.ofNat (workloadapi.GatewayAddress.GetHboneMtlsPort svc.Service.GetWaypoint)))
          b.proxy b.push) endpointIndex → ep ∉ eps) := by
  cases hw : b.proxy.IsWaypointProxy with
  | true =>
    rw [findServiceWaypoint_waypoint_guard fl d b endpointIndex hw] at h
    simp at h
  | false =>
    cases hs : b.service with
    | none =>
      simp [EndpointBuilder.findServiceWaypoint, hw, hs] at h
    | some s =>
      by_cases hr : b.nodeType = model.NodeType.Router ∧
          s.Attributes.Labels.get ingressUseWaypointLabel ≠ "true"
      · rw [findServiceWaypoint_router_guard fl d b endpointIndex s hs hr.1 hr.2] at h
        simp at h
      · by_cases ha : d.GetAddressForProxy s b.proxy = constants.UnspecifiedIP
        · rw [findServiceWaypoint_address_guard fl d b endpointIndex s hs ha] at h
          simp at h
        · rw [findServiceWaypoint_unfold fl d b endpointIndex s hs hw hr ha] at h
          cases hsv : b.push.ServicesWithWaypoint fl
              (s.Attributes.Namespace ++ "/" ++ b.hostname) with
          | none => simp [hsv] at h
          | some l =>
            cases l with
            | nil => simp [hsv] at h
            | cons svc rest =>
              simp only [hsv, Option.some.injEq, Prod.mk.injEq, and_true] at h
              refine ⟨s, svc, rest, rfl, hsv, h.symm, ?_, ?_⟩
              · intro ep hep
                rw [← h] at hep
                exact snapshotEndpointsForPort_subset d _ endpointIndex ep hep
              · intro ep _ hnot hep
                rw [← h] at hep
                exact hnot (snapshotEndpointsForPort_subset d _ endpointIndex ep hep)

/-- Witness of C9, amended: the sidecar of the scenario asking for
`vip.example.com`. -/
theorem findServiceWaypoint_redirect_endpoints_witness :
    scenario.builder.findServiceWaypoint ⟨true⟩ specDeps scenario.endpointIndex
      = some ([scenario.waypointA, scenario.waypointB], true) ∧
    ∃ s svc rest, scenario.builder.service = some s ∧
      scenario.builder.push.ServicesWithWaypoint ⟨true⟩
        (s.Attributes.Namespace ++ "/" ++ scenario.builder.hostname) = some (svc :: rest) ∧
      [scenario.waypointA, scenario.waypointB] = ((specDeps.NewEndpointBuilder
        (model.BuildSubsetKey model.TrafficDirectionOutbound "" svc.WaypointHostname
          (Int.ofNat (workloadapi.GatewayAddress.GetHboneMtlsPort svc.Service.GetWaypoint)))
        scenario.builder.proxy scenario.builder.push).snapshotEndpointsForPort specDeps
          scenario.endpointIndex).1 ∧
      (∀ ep ∈ [scenario.waypointA, scenario.waypointB], ep ∈ specDeps.snapshotShards
        (specDeps.NewEndpointBuilder
        (model.BuildSubsetKey model.TrafficDirectionOutbound "" svc.WaypointHostname
          (Int.ofNat (workloadapi.GatewayAddress.GetHboneMtlsPort svc.Service.GetWaypoint)))
        scenario.builder.proxy scenario.builder.push) scenario.endpointIndex) ∧
      (∀ ep ∈ specDeps.snapshotShards scenario.builder scenario.endpointIndex,
        ep ∉ specDeps.snapshotShards (specDeps.NewEndpointBuilder
          (model.BuildSubsetKey model.TrafficDirectionOutbound "" svc.WaypointHostname
            (Int.ofNat (workloadapi.GatewayAddress.GetHboneMtlsPort svc.Service.GetWaypoint)))
          scenario.builder.proxy scenario.builder.push) scenario.endpointIndex →
        ep ∉ [scenario.waypointA, scenario.waypointB]) :=
  ⟨by decide,
   findServiceWaypoint_redirect_endpoints ⟨true⟩ specDeps scenario.builder
     scenario.endpointIndex [scenario.waypointA, scenario.waypointB] (by decide)⟩

/-- C10: in the scenario of `TestWaypointSidecarInterop` (service
`vip.example.com` of namespace `default` with VIP 1.1.1.1, using the waypoint
Service `waypoint` at 3.0.0.0 with tunnel port 15008 backed by the workloads
3.0.0.1 and 3.0.0.2; a sidecar asks for port 80), `findServiceWaypoint`
returns `redirected = true` and exactly the two waypoint workloads
3.0.0.1:15008 and 3.0.0.2:15008, surfaced as
`connect_originate;1.1.1.1:80;3.0.0.1:15008` and
`connect_originate;1.1.1.1:80;3.0.0.2:15008`, and nothing else: the service
has no endpoint of its own in the endpoint index. -/
theorem findServiceWaypoint_test_scenario :
    scenario.builder.findServiceWaypoint ⟨true⟩ specDeps scenario.endpointIndex
      = some ([⟨"3.0.0.1", 15008, "mesh", [("gateway.networking.k8s.io/gateway-name", "waypoint")]⟩,
               ⟨"3.0.0.2", 15008, "mesh", [("gateway.networking.k8s.io/gateway-name", "waypoint")]⟩],
              true) ∧
    scenario.builder.surfacedEndpoints specDeps
        [⟨"3.0.0.1", 15008, "mesh", [("gateway.networking.k8s.io/gateway-name", "waypoint")]⟩,
         ⟨"3.0.0.2", 15008, "mesh", [("gateway.networking.k8s.io/gateway-name", "waypoint")]⟩]
      = ["connect_originate;1.1.1.1:80;3.0.0.1:15008",
         "connect_originate;1.1.1.1:80;3.0.0.2:15008"] ∧
    specDeps.snapshotShards scenario.builder scenario.endpointIndex = [] :=
  ⟨by decide, by decide, by decide⟩

end endpoints

/-! ## The result of `ServicesWithWaypoint` -/

namespace ambient

/-- The loop of `ServicesWithWaypoint` panics exactly when one of the
services it walks declares a waypoint without a network address; otherwise
it appends, in order, the entry of every service whose waypoint address is
matched. -/
theorem servicesWithWaypointLoop_eq (a : index) (svcs : List model.ServiceInfo)
    (res : List model.ServiceWaypointInfo) :
    a.servicesWithWaypointLoop svcs res =
      if svcs.any index.addressless = true then none
      else some (res ++ svcs.filterMap a.entryOf) := by
  induction svcs generalizing res with
  | nil => simp [index.servicesWithWaypointLoop]
  | cons s rest ih =>
    unfold index.servicesWithWaypointLoop
    cases hwp : s.GetWaypoint with
    | none =>
      simp [ih, index.addressless, index.entryOf, hwp, workloadapi.GatewayAddress.GetAddress]
    | some wp =>
      cases hga : workloadapi.GatewayAddress.GetAddress (some wp) with
      | none => simp [index.addressless, hwp, hga]
      | some addr =>
        cases hl : a.services.ByAddress.Lookup
            ⟨addr.Network, netip.AddrFromSliceString addr.Address⟩ with
        | nil => simp [ih, index.addressless, index.entryOf, hwp, hga, hl]
        | cons w0 ws => simp [ih, index.addressless, index.entryOf, hwp, hga, hl]

/-- The method `ServicesWithWaypoint` in closed form over the services it
considers. -/
theorem ServicesWithWaypoint_eq (fl : features.Vars) (a : index) (key : String) :
    a.ServicesWithWaypoint fl key =
      if (a.considered key).any index.addressless = true then none
      else some ((a.considered key).filterMap a.entryOf) := by
  unfold index.ServicesWithWaypoint
  simp only [servicesWithWaypointLoop_eq, List.nil_append, index.considered]

/-- The services considered for a key are services of the collection. -/
theorem considered_subset (a : index) (key : String) (s : model.ServiceInfo)
    (h : s ∈ a.considered key) : s ∈ a.services.toCollection.List := by
  unfold index.considered at h
  by_cases hk : (key == "") = true
  · simpa [hk] using h
  · simp only [hk, krt.Collection.GetKey] at h
    cases hf : List.find? (fun x => x.ResourceName == key) a.services.toCollection.items with
    | none => simp [hf, ptr.ToList] at h
    | some t =>
      simp only [hf, ptr.ToList, List.mem_singleton, Bool.false_eq_true, if_false] at h
      subst h
      exact List.mem_of_find?_eq_some hf

/-- For a non-empty key the considered services are the one stored under the
key, if any; that service has the key as its resource name. -/
theorem considered_keyed (a : index) (key : String) (hkey : key ≠ "") :
    a.considered key
      = ptr.ToList (a.services.toCollection.GetKey model.ServiceInfo.ResourceName key) ∧
    ∀ s, a.services.toCollection.GetKey model.ServiceInfo.ResourceName key = some s →
      s.ResourceName = key := by
  constructor
  · unfold index.considered
    have hk : (key == "") = false := by simpa using hkey
    simp [hk]
  · intro s hs
    unfold krt.Collection.GetKey at hs
    have := List.find?_some hs
    simpa using this

/-- The entry of a service, spelled out. -/
theorem entryOf_eq_some (a : index) (s : model.ServiceInfo) (e : model.ServiceWaypointInfo) :
    a.entryOf s = some e ↔
      ∃ addr w0 ws, workloadapi.GatewayAddress.GetAddress s.GetWaypoint = some addr ∧
        a.services.ByAddress.Lookup ⟨addr.Network, netip.AddrFromSliceString addr.Address⟩
          = w0 :: ws ∧
        e = ⟨s.Service, w0.Hostname⟩ := by
  unfold index.entryOf
  cases hga : workloadapi.GatewayAddress.GetAddress s.GetWaypoint with
  | none => simp
  | some addr =>
    cases hl : a.services.ByAddress.Lookup
        ⟨addr.Network, netip.AddrFromSliceString addr.Address⟩ with
    | nil => simp [hl]
    | cons w0 ws =>
      simp only [Option.some.injEq, hl]
      constructor
      · intro h
        exact ⟨addr, w0, ws, rfl, by simp [hl], h.symm⟩
      · rintro ⟨addr1, w1, ws1, h1, h2, h3⟩
        cases h1
        rw [hl] at h2
        cases h2
        exact h3.symm

/-- A service that contributes no entry has no entry. -/
theorem entryOf_of_noEntry (a : index) (s : model.ServiceInfo) (h : a.noEntry s = true) :
    a.entryOf s = none := by
  unfold index.noEntry at h
  unfold index.entryOf
  cases hwp : s.GetWaypoint with
  | none => simp [workloadapi.GatewayAddress.GetAddress]
  | some wp =>
    rw [hwp] at h
    cases hga : workloadapi.GatewayAddress.GetAddress (some wp) with
    | none => simp
    | some addr =>
      simp only [hga] at h
      cases hl : a.services.ByAddress.Lookup
          ⟨addr.Network, netip.AddrFromSliceString addr.Address⟩ with
      | nil => simp [hl]
      | cons w0 ws => simp [hl] at h

/-- When no service of the collection declares a waypoint without a network
address, the call for the empty key returns, and in a collection that lists
each service once the result holds exactly one entry for a service whose
waypoint address is matched: the service with the hostname of the first
match. -/
theorem ServicesWithWaypoint_all_one_entry (fl : features.Vars) (a : index)
    (s : model.ServiceInfo) (addr : workloadapi.NetworkAddress) (w0 : model.ServiceInfo)
    (ws : List model.ServiceInfo)
    (hnd : a.services.toCollection.List.Nodup) (hs : s ∈ a.services.toCollection.List)
    (haddr : workloadapi.GatewayAddress.GetAddress s.GetWaypoint = some addr)
    (hl : a.services.ByAddress.Lookup ⟨addr.Network, netip.AddrFromSliceString addr.Address⟩
      = w0 :: ws)
    (hwf : ∀ t ∈ a.services.toCollection.List, index.addressless t = false) :
    ∃ res, a.ServicesWithWaypoint fl "" = some res ∧
      res.filter (fun e => decide (e.Service = s.Service)) = [⟨s.Service, w0.Hostname⟩] := by
  have hcons : a.considered "" = a.services.toCollection.List := by
    simp [index.considered]
  have hany : ¬ ((a.considered "").any index.addressless = true) := by
    rw [hcons]
    simp only [List.any_eq_true, not_exists, not_and, Bool.not_eq_true]
    exact hwf
  refine ⟨_, by rw [ServicesWithWaypoint_eq, if_neg hany], ?_⟩
  rw [hcons]
  have hes : a.entryOf s = some ⟨s.Service, w0.Hostname⟩ :=
    (entryOf_eq_some a s _).mpr ⟨addr, w0, ws, haddr, hl, rfl⟩
  generalize a.services.toCollection.List = l at hnd hs
  induction l with
  | nil => simp at hs
  | cons t rest ih =>
    have hnd2 := List.nodup_cons.mp hnd
    by_cases hts : t = s
    · subst hts
      have hrest : List.filter (fun e => decide (e.Service = t.Service))
          (rest.filterMap a.entryOf) = [] := by
        rw [List.filter_eq_nil_iff]
        intro e he
        rcases List.mem_filterMap.mp he with ⟨u, hu, hue⟩
        rcases (entryOf_eq_some a u e).mp hue with ⟨_, _, _, _, _, rfl⟩
        simp only [decide_eq_true_eq]
        intro heq
        have : u = t := by
          cases u; cases t; simp only at heq; rw [heq]
        exact hnd2.1 (this ▸ hu)
      simp [List.filterMap_cons, hes, hrest]
    · have hs2 : s ∈ rest := by
        rcases List.mem_cons.mp hs with h | h
        · exact absurd h.symm hts
        · exact h
      have hne : t.Service ≠ s.Service := by
        intro heq
        apply hts
        cases t; cases s; simp only at heq; rw [heq]
      cases het : a.entryOf t with
      | none => simpa [List.filterMap_cons, het] using ih hnd2.2 hs2
      | some e =>
        rcases (entryOf_eq_some a t e).mp het with ⟨_, _, _, _, _, rfl⟩
        simpa [List.filterMap_cons, het, hne] using ih hnd2.2 hs2

/-- C12, at the failing input: in the directory of the scenario with one more
service whose waypoint is given by hostname, the collection lists each
service once, `vip.example.com` has the waypoint address 3.0.0.0 at which the
by-address index finds the Service `waypoint`, which has two backing
workloads, and `ServicesWithWaypoint("")` panics instead of returning the
entry of `vip.example.com`. -/
theorem ServicesWithWaypoint_all_panics_with_hostname_waypoint :
    scenario.hostIdx.services.toCollection.List.Nodup ∧
    (⟨scenario.vipSvc⟩ : model.ServiceInfo) ∈ scenario.hostIdx.services.toCollection.List ∧
    workloadapi.GatewayAddress.GetAddress scenario.vipSvc.GetWaypoint
      = some ⟨"", [3, 0, 0, 0]⟩ ∧
    scenario.hostIdx.services.ByAddress.Lookup ⟨"", "3.0.0.0"⟩ = [⟨scenario.waypointSvc⟩] ∧
    (scenario.WorkloadsByServiceKey.Lookup
      (model.ServiceInfo.ResourceName ⟨scenario.waypointSvc⟩)).length = 2 ∧
    scenario.hostIdx.ServicesWithWaypoint ⟨true⟩ "" = none := by
  refine ⟨by decide, by decide, by decide, by decide, by decide, by decide⟩

/-- Several Services at the waypoint address of a subject: the iteration of
`ServicesWithWaypoint` for the subject does not fail and appends the entry
of the subject with the hostname of the first Service returned; the call for
the key of the subject returns exactly that entry; and whenever a call that
considers the subject returns, which it does when no considered service
declares a waypoint without a network address, the result holds that entry.
A call that considers a service whose waypoint carries no network address
does not return. -/
theorem ServicesWithWaypoint_multiple_matches (fl : features.Vars) (a : index) (key : String)
    (s : model.ServiceInfo) (addr : workloadapi.NetworkAddress) (w0 w1 : model.ServiceInfo)
    (ws : List model.ServiceInfo)
    (hs : s ∈ a.considered key)
    (haddr : workloadapi.GatewayAddress.GetAddress s.GetWaypoint = some addr)
    (hl : a.services.ByAddress.Lookup ⟨addr.Network, netip.AddrFromSliceString addr.Address⟩
      = w0 :: w1 :: ws) :
    (∀ rest res, a.servicesWithWaypointLoop (s :: rest) res
      = a.servicesWithWaypointLoop rest (res ++ [⟨s.Service, w0.Hostname⟩])) ∧
    (key ≠ "" → a.ServicesWithWaypoint fl key = some [⟨s.Service, w0.Hostname⟩]) ∧
    (∀ res, a.ServicesWithWaypoint fl key = some res →
      (⟨s.Service, w0.Hostname⟩ : model.ServiceWaypointInfo) ∈ res) ∧
    ((∀ t ∈ a.considered key, index.addressless t = false) →
      ∃ res, a.ServicesWithWaypoint fl key = some res ∧
        (⟨s.Service, w0.Hostname⟩ : model.ServiceWaypointInfo) ∈ res) := by
  have hes : a.entryOf s = some ⟨s.Service, w0.Hostname⟩ :=
    (entryOf_eq_some a s _).mpr ⟨addr, w0, w1 :: ws, haddr, hl, rfl⟩
  have hna : index.addressless s = false := by
    unfold index.addressless
    cases hwp : s.GetWaypoint with
    | none => rfl
    | some wp => rw [hwp] at haddr; simp [haddr]
  have hmem : (⟨s.Service, w0.Hostname⟩ : model.ServiceWaypointInfo)
      ∈ (a.considered key).filterMap a.entryOf :=
    List.mem_filterMap.mpr ⟨s, hs, hes⟩
  refine ⟨?_, ?_, ?_, ?_⟩
  · intro rest res
    simp only [servicesWithWaypointLoop_eq, List.any_cons, hna, Bool.false_or,
      List.filterMap_cons, hes, List.append_assoc, List.singleton_append]
  · intro hkey
    have hc := (considered_keyed a key hkey).1
    cases hg : a.services.toCollection.GetKey model.ServiceInfo.ResourceName key with
    | none => rw [hc, hg] at hs; simp [ptr.ToList] at hs
    | some t =>
      rw [hc, hg] at hs
      simp only [ptr.ToList, List.mem_singleton] at hs
      subst hs
      rw [ServicesWithWaypoint_eq, hc, hg]
      simp [ptr.ToList, hna, hes]
  · intro res hres
    rw [ServicesWithWaypoint_eq] at hres
    by_cases hany : (a.considered key).any index.addressless = true
    · simp [hany] at hres
    · rw [if_neg hany, Option.some.injEq] at hres
      exact hres ▸ hmem
  · intro hwf
    have hany : ¬ ((a.considered key).any index.addressless = true) := by
      simp only [List.any_eq_true, not_exists, not_and, Bool.not_eq_true]
      exact hwf
    exact ⟨_, by rw [ServicesWithWaypoint_eq, if_neg hany], hmem⟩

/-- Example: in the directory where `waypoint` and `waypoint-copy` are both
registered at 3.0.0.0, the call for the key of `vip.example.com` returns its
entry with the hostname of `waypoint`, the first of the two. -/
theorem ServicesWithWaypoint_multiple_matches_witness :
    scenario.dupIdx.services.ByAddress.Lookup ⟨"", "3.0.0.0"⟩
      = [⟨scenario.waypointSvc⟩, ⟨scenario.waypointSvc2⟩] ∧
    scenario.dupIdx.ServicesWithWaypoint ⟨true⟩ "default/vip.example.com"
      = some [⟨scenario.vipSvc, "waypoint.default.svc.cluster.local"⟩] :=
  ⟨by decide,
   (ServicesWithWaypoint_multiple_matches ⟨true⟩ scenario.dupIdx "default/vip.example.com"
     ⟨scenario.vipSvc⟩ ⟨"", [3, 0, 0, 0]⟩ ⟨scenario.waypointSvc⟩ ⟨scenario.waypointSvc2⟩ []
     (by decide) (by decide) (by decide)).2.1 (by decide)⟩

/-- C14: every entry `ServicesWithWaypoint` returns has as its Service a
service of the directory that declares a waypoint whose address matches at
least one Service in the by-address index, and carries the hostname of the
first match; a service with no waypoint, or whose waypoint address matches
nothing, has no entry in the result. -/
theorem ServicesWithWaypoint_entries_resolved (fl : features.Vars) (a : index) (key : String)
    (res : List model.ServiceWaypointInfo) (h : a.ServicesWithWaypoint fl key = some res) :
    (∀ e ∈ res, ∃ s ∈ a.services.toCollection.List, e.Service = s.Service ∧
      ∃ addr w0 ws, workloadapi.GatewayAddress.GetAddress s.GetWaypoint = some addr ∧
        a.services.ByAddress.Lookup ⟨addr.Network, netip.AddrFromSliceString addr.Address⟩
          = w0 :: ws ∧
        e.WaypointHostname = w0.Hostname) ∧
    (∀ s : model.ServiceInfo, a.noEntry s = true → ∀ e ∈ res, e.Service ≠ s.Service) := by
  rw [ServicesWithWaypoint_eq] at h
  by_cases hany : (a.considered key).any index.addressless = true
  · simp [hany] at h
  · rw [if_neg hany, Option.some.injEq] at h
    subst h
    have key1 : ∀ e ∈ (a.considered key).filterMap a.entryOf,
        ∃ s ∈ a.services.toCollection.List, a.entryOf s = some e := by
      intro e he
      rcases List.mem_filterMap.mp he with ⟨s, hs, hse⟩
      exact ⟨s, considered_subset a key s hs, hse⟩
    constructor
    · intro e he
      rcases key1 e he with ⟨s, hs, hse⟩
      rcases (entryOf_eq_some a s e).mp hse with ⟨addr, w0, ws, h1, h2, rfl⟩
      exact ⟨s, hs, rfl, addr, w0, ws, h1, h2, rfl⟩
    · intro s hno e he heq
      rcases key1 e he with ⟨t, _, hte⟩
      rcases (entryOf_eq_some a t e).mp hte with ⟨_, _, _, _, _, rfl⟩
      have hts : t = s := by
        cases t; cases s; simp only at heq; rw [heq]
      rw [hts, entryOf_of_noEntry a s hno] at hte
      simp at hte

/-- Witness of C14: the call for the empty key in the directory of the
scenario. -/
theorem ServicesWithWaypoint_entries_resolved_witness :
    scenario.idx.ServicesWithWaypoint ⟨true⟩ ""
      = some [⟨scenario.vipSvc, "waypoint.default.svc.cluster.local"⟩] ∧
    (∀ e ∈ [(⟨scenario.vipSvc, "waypoint.default.svc.cluster.local"⟩ :
        model.ServiceWaypointInfo)],
      ∃ s ∈ scenario.idx.services.toCollection.List, e.Service = s.Service ∧
      ∃ addr w0 ws, workloadapi.GatewayAddress.GetAddress s.GetWaypoint = some addr ∧
        scenario.idx.services.ByAddress.Lookup
          ⟨addr.Network, netip.AddrFromSliceString addr.Address⟩ = w0 :: ws ∧
        e.WaypointHostname = w0.Hostname) ∧
    (∀ s : model.ServiceInfo, scenario.idx.noEntry s = true →
      ∀ e ∈ [(⟨scenario.vipSvc, "waypoint.default.svc.cluster.local"⟩ :
        model.ServiceWaypointInfo)], e.Service ≠ s.Service) :=
  ⟨by decide,
   ServicesWithWaypoint_entries_resolved ⟨true⟩ scenario.idx ""
     [⟨scenario.vipSvc, "waypoint.default.svc.cluster.local"⟩] (by decide)⟩

end ambient

namespace ambient

/-- C15: for every non-empty key, `ServicesWithWaypoint(key)` returns the
empty list when no service is stored under the key, and whatever it returns
has at most one entry, whose Service is the service stored under exactly
that key; when the stored service declares no waypoint without a network
address the call returns the entry of that service, if it has one, and
nothing else. For the empty key every service of the directory is
considered: the considered services are the whole collection, and every
service of it with a matched waypoint address has its entry in the result. -/
theorem ServicesWithWaypoint_keyed (fl : features.Vars) (a : index) (key : String)
    (hkey : key ≠ "") :
    (a.services.toCollection.GetKey model.ServiceInfo.ResourceName key = none →
      a.ServicesWithWaypoint fl key = some []) ∧
    (∀ res, a.ServicesWithWaypoint fl key = some res →
      res.length ≤ 1 ∧
      ∀ e ∈ res, ∃ s, a.services.toCollection.GetKey model.ServiceInfo.ResourceName key = some s ∧
        s.ResourceName = key ∧ e.Service = s.Service) ∧
    (∀ s, a.services.toCollection.GetKey model.ServiceInfo.ResourceName key = some s →
      index.addressless s = false →
      a.ServicesWithWaypoint fl key = some (ptr.ToList (a.entryOf s))) ∧
    (a.considered "" = a.services.toCollection.List ∧
      ∀ res, a.ServicesWithWaypoint fl "" = some res →
        ∀ s ∈ a.services.toCollection.List, ∀ e, a.entryOf s = some e → e ∈ res) := by
  have hc := (considered_keyed a key hkey).1
  have hname := (considered_keyed a key hkey).2
  refine ⟨?_, ?_, ?_, ?_, ?_⟩
  · intro hg
    rw [ServicesWithWaypoint_eq, hc, hg]
    simp [ptr.ToList]
  · intro res hres
    rw [ServicesWithWaypoint_eq, hc] at hres
    cases hg : a.services.toCollection.GetKey model.ServiceInfo.ResourceName key with
    | none =>
      rw [hg] at hres
      simp only [ptr.ToList, List.any_nil, Bool.false_eq_true, if_false, List.filterMap_nil,
        Option.some.injEq] at hres
      subst hres
      simp
    | some s =>
      rw [hg] at hres
      by_cases hany : ([s].any index.addressless) = true
      · simp [ptr.ToList, hany] at hres
      · simp only [ptr.ToList] at hres
        rw [if_neg hany, Option.some.injEq] at hres
        subst hres
        cases he : a.entryOf s with
        | none => simp [List.filterMap_cons, he]
        | some e =>
          rcases (entryOf_eq_some a s e).mp he with ⟨_, _, _, _, _, rfl⟩
          simp [List.filterMap_cons, he, hname s hg]
  · intro s hg hna
    rw [ServicesWithWaypoint_eq, hc, hg]
    cases he : a.entryOf s with
    | none => simp [ptr.ToList, hna, he]
    | some e => simp [ptr.ToList, hna, he]
  · simp [index.considered]
  · intro res hres s hs e he
    have hcons : a.considered "" = a.services.toCollection.List := by
      simp [index.considered]
    rw [ServicesWithWaypoint_eq, hcons] at hres
    by_cases hany : (a.services.toCollection.List.any index.addressless) = true
    · simp [hany] at hres
    · rw [if_neg hany, Option.some.injEq] at hres
      subst hres
      exact List.mem_filterMap.mpr ⟨s, hs, he⟩

/-- Witness of C15: the key `default/vip.example.com` in the directory of the
scenario. -/
theorem ServicesWithWaypoint_keyed_witness :
    scenario.idx.services.toCollection.GetKey model.ServiceInfo.ResourceName
      "default/vip.example.com" = some ⟨scenario.vipSvc⟩ ∧
    scenario.idx.ServicesWithWaypoint ⟨true⟩ "default/vip.example.com"
      = some (ptr.ToList (scenario.idx.entryOf ⟨scenario.vipSvc⟩)) ∧
    scenario.idx.ServicesWithWaypoint ⟨true⟩ "default/none.example.com" = some [] :=
  ⟨by decide,
   (ServicesWithWaypoint_keyed ⟨true⟩ scenario.idx "default/vip.example.com"
     (by decide)).2.2.1 ⟨scenario.vipSvc⟩ (by decide) (by decide),
   by decide⟩

/-- C16, at the failing input: in the directory of the scenario with one more
service whose waypoint is given by hostname, `GetAddress()` of that waypoint
is nil and `ServicesWithWaypoint` panics on the field read, for the empty key
and for the key of that service, at the index and through the push context.
A service whose waypoint address bytes are not a valid IP is looked up under
the text `invalid IP` and is absent from the result when nothing is filed
there. -/
theorem ServicesWithWaypoint_panics_on_hostname_waypoint :
    workloadapi.GatewayAddress.GetAddress scenario.hostSvc.GetWaypoint = none ∧
    scenario.hostIdx.ServicesWithWaypoint ⟨true⟩ "" = none ∧
    scenario.hostIdx.ServicesWithWaypoint ⟨true⟩ "default/host.example.com" = none ∧
    (scenario.pushWith scenario.hostIdx scenario.vipLabels "1.1.1.1").ServicesWithWaypoint
      ⟨true⟩ "" = none ∧
    netip.AddrFromSliceString [1, 2, 3] = "invalid IP" ∧
    scenario.badBytesIdx.ServicesWithWaypoint ⟨true⟩ "default/bad.example.com" = some [] ∧
    scenario.badBytesIdx.ServicesWithWaypoint ⟨true⟩ ""
      = some [⟨scenario.vipSvc, "waypoint.default.svc.cluster.local"⟩] := by
  refine ⟨by decide, by decide, by decide, by decide, by decide, by decide, by decide⟩

end ambient

/-! ## The endpoint snapshot -/

namespace endpoints

/-- C17: when `servicePort` finds no port of the service for the builder's
port, `snapshotEndpointsForPort` returns no endpoints and false, and it does
so without reading the endpoint shards: the result is the same for every
implementation of `snapshotShards` and every endpoint index. -/
theorem snapshotEndpointsForPort_no_port (d : Deps) (b : EndpointBuilder)
    (endpointIndex : model.EndpointIndex) (h : d.servicePort b b.port = none) :
    b.snapshotEndpointsForPort d endpointIndex = ([], false) ∧
    ∀ (shards : EndpointBuilder → model.EndpointIndex → List model.IstioEndpoint)
      (other : model.EndpointIndex),
      b.snapshotEndpointsForPort { d with snapshotShards := shards } other = ([], false) := by
  constructor
  · unfold EndpointBuilder.snapshotEndpointsForPort
    simp only [h]
  · intro shards other
    unfold EndpointBuilder.snapshotEndpointsForPort
    simp only [h]

/-- Witness of C17: the cluster `outbound|9999||vip.example.com`, a port the
service entry does not have. -/
theorem snapshotEndpointsForPort_no_port_witness :
    (scenario.portBuilder "9999").service
      = some (scenario.vipService scenario.vipLabels "1.1.1.1") ∧
    specDeps.servicePort (scenario.portBuilder "9999") (scenario.portBuilder "9999").port
      = none ∧
    (scenario.portBuilder "9999").snapshotEndpointsForPort specDeps scenario.endpointIndex
      = ([], false) :=
  ⟨by decide, by decide,
   (snapshotEndpointsForPort_no_port specDeps (scenario.portBuilder "9999")
     scenario.endpointIndex (by decide)).1⟩

/-- C18: when the service port is found, `snapshotEndpointsForPort` returns
true together with the raw endpoint set of the builder filtered, in order,
by two tests: the `ServicePortName` of the endpoint equals the name of the
service port, and the labels of the endpoint bind every required subset
label to the same value. An endpoint is returned exactly when it is in the
raw set and passes both tests. -/
theorem snapshotEndpointsForPort_filter (d : Deps) (b : EndpointBuilder)
    (endpointIndex : model.EndpointIndex) (svcPort : model.Port)
    (h : d.servicePort b b.port = some svcPort) :
    (b.snapshotEndpointsForPort d endpointIndex).2 = true ∧
    (b.snapshotEndpointsForPort d endpointIndex).1
      = (d.snapshotShards b endpointIndex).filter (fun ep =>
          ep.ServicePortName == svcPort.Name &&
          b.subsetLabels.all (fun kv => ep.Labels.lookup kv.1 == some kv.2)) ∧
    ∀ ep, ep ∈ (b.snapshotEndpointsForPort d endpointIndex).1 ↔
      (ep ∈ d.snapshotShards b endpointIndex ∧ ep.ServicePortName = svcPort.Name ∧
        ∀ kv ∈ b.subsetLabels, ep.Labels.lookup kv.1 = some kv.2) := by
  have hfun : (fun ep : model.IstioEndpoint =>
      if (svcPort.Name != ep.ServicePortName) = true then false
      else if (!(b.subsetLabels.SubsetOf ep.Labels)) = true then false
      else true)
      = (fun ep => ep.ServicePortName == svcPort.Name &&
          b.subsetLabels.all (fun kv => ep.Labels.lookup kv.1 == some kv.2)) := by
    funext ep
    unfold labels.Instance.SubsetOf
    by_cases h1 : svcPort.Name = ep.ServicePortName
    · cases h2 : List.all b.subsetLabels (fun kv => ep.Labels.lookup kv.1 == some kv.2) <;>
        simp [h1, h2]
    · have h1' : ¬ ep.ServicePortName = svcPort.Name := fun h => h1 h.symm
      simp [h1, h1']
  have heq : b.snapshotEndpointsForPort d endpointIndex
      = ((d.snapshotShards b endpointIndex).filter (fun ep =>
          ep.ServicePortName == svcPort.Name &&
          b.subsetLabels.all (fun kv => ep.Labels.lookup kv.1 == some kv.2)), true) := by
    unfold EndpointBuilder.snapshotEndpointsForPort
    simp only [h, slices.FilterInPlace, hfun]
  refine ⟨by rw [heq], by rw [heq], ?_⟩
  intro ep
  rw [heq]
  simp only [List.mem_filter, Bool.and_eq_true, beq_iff_eq, List.all_eq_true]

/-- Witness of C18: the builder of the waypoint cluster in the scenario. -/
theorem snapshotEndpointsForPort_filter_witness :
    specDeps.servicePort
      (NewEndpointBuilder "outbound|15008||waypoint.default.svc.cluster.local"
        scenario.sidecar scenario.push) 15008 = some ⟨"mesh", 15008, "HBONE"⟩ ∧
    ((NewEndpointBuilder "outbound|15008||waypoint.default.svc.cluster.local"
        scenario.sidecar scenario.push).snapshotEndpointsForPort specDeps
        scenario.endpointIndex).2 = true :=
  ⟨by decide,
   (snapshotEndpointsForPort_filter specDeps
     (NewEndpointBuilder "outbound|15008||waypoint.default.svc.cluster.local"
        scenario.sidecar scenario.push) scenario.endpointIndex ⟨"mesh", 15008, "HBONE"⟩
     (by decide)).1⟩

end endpoints

/-! ## The change notifier -/

namespace ambient

/-- C19: for every batch of events, whatever its events and items and
whatever the flag `initialSync`, the handler built by `PushAllXds` leaves the
requests already received in place and adds exactly one request when the set
of keys accumulated from the batch is non-empty, none when it is empty; the
request added is marked `Full = false` and carries the accumulated set. -/
theorem PushAllXds_calls {T : Type} (xds : model.XDSUpdater)
    (f : T → sets.Set model.ConfigKey → sets.Set model.ConfigKey)
    (events : List (krt.Event T)) (initialSync : Bool) :
    ∃ added, (PushAllXds xds f events initialSync).calls = xds.calls ++ added ∧
      added.length = (if PushAllXds.accumulate f events = [] then 0 else 1) ∧
      ∀ req ∈ added, req.Full = false ∧
        req.ConfigsUpdated = PushAllXds.accumulate f events ∧
        req.Reason = model.NewReasonStats model.AmbientUpdate := by
  unfold PushAllXds
  by_cases h : PushAllXds.accumulate f events = []
  · exact ⟨[], by simp [h], by simp [h], by simp⟩
  · have hlen : ¬ (PushAllXds.accumulate f events).length = 0 := by
      simpa [List.length_eq_zero] using h
    refine ⟨[⟨false, PushAllXds.accumulate f events, model.NewReasonStats model.AmbientUpdate⟩],
      ?_, by simp [h], by simp⟩
    simp only [hlen, if_false, model.XDSUpdater.ConfigUpdate]

/-- Counterexample of C20: the handler of the per-Workload projection
receives, with `initialSync = true`, a batch of one added record that belongs
to `default/vip.example.com`, and calls `ConfigUpdate` once with the key of
that service. -/
theorem PushAllXds_initialSync_counterexample :
    PushAllXds scenario.freshUpdater workloadEDSUpdates scenario.addBatch true
      = ⟨[⟨false, [⟨kind.ServiceEntry, "vip.example.com", "default"⟩],
           model.NewReasonStats model.AmbientUpdate⟩]⟩ := by
  decide

/-- C20, amended: the handler built by `PushAllXds` does not read
`initialSync`. A batch delivered with `initialSync = true` is handled as the
same batch delivered with `initialSync = false`: no `ConfigUpdate` is
emitted exactly when the set of keys accumulated from the batch is empty,
and one is emitted otherwise. -/
theorem PushAllXds_initialSync {T : Type} (xds : model.XDSUpdater)
    (f : T → sets.Set model.ConfigKey → sets.Set model.ConfigKey)
    (events : List (krt.Event T)) (initialSync : Bool) (h : initialSync = true) :
    PushAllXds xds f events initialSync = PushAllXds xds f events false ∧
    ((PushAllXds xds f events initialSync).calls = xds.calls ↔
      PushAllXds.accumulate f events = []) ∧
    (PushAllXds.accumulate f events ≠ [] →
      (PushAllXds xds f events initialSync).calls
        = xds.calls ++ [⟨false, PushAllXds.accumulate f events,
            model.NewReasonStats model.AmbientUpdate⟩]) := by
  refine ⟨rfl, ?_, ?_⟩
  · unfold PushAllXds
    by_cases hacc : PushAllXds.accumulate f events = []
    · simp [hacc]
    · have hlen : ¬ (PushAllXds.accumulate f events).length = 0 := by
        simpa [List.length_eq_zero] using hacc
      simp [hlen, hacc, model.XDSUpdater.ConfigUpdate]
  · intro hacc
    have hlen : ¬ (PushAllXds.accumulate f events).length = 0 := by
      simpa [List.length_eq_zero] using hacc
    unfold PushAllXds
    simp only [hlen, if_false, model.XDSUpdater.ConfigUpdate]

/-- Witness of C20, amended: the batch of the counterexample, delivered with
`initialSync = true`, and the empty batch. -/
theorem PushAllXds_initialSync_witness :
    PushAllXds scenario.freshUpdater workloadEDSUpdates scenario.addBatch true
      = PushAllXds scenario.freshUpdater workloadEDSUpdates scenario.addBatch false ∧
    (PushAllXds scenario.freshUpdater workloadEDSUpdates [] true).calls = [] :=
  ⟨(PushAllXds_initialSync scenario.freshUpdater workloadEDSUpdates scenario.addBatch true
     rfl).1,
   ((PushAllXds_initialSync scenario.freshUpdater workloadEDSUpdates [] true rfl).2.1).mpr
     (by decide)⟩

end ambient

/-! ## A waypoint without backing workload -/

namespace endpoints

/-- Counterexample of C11: in the scenario, with an endpoint index in which
the waypoint Service has no backing workload, the endpoint snapshot of the
waypoint builder is empty and the sidecar asking for `vip.example.com` is
still redirected, with no endpoints. -/
theorem findServiceWaypoint_no_backing_workload_counterexample :
    (NewEndpointBuilder "outbound|15008||waypoint.default.svc.cluster.local"
      scenario.sidecar scenario.push).snapshotEndpointsForPort specDeps
      scenario.emptyEndpointIndex = ([], true) ∧
    scenario.builder.findServiceWaypoint ⟨true⟩ specDeps scenario.emptyEndpointIndex
      = some ([], true) :=
  ⟨by decide, by decide⟩

/-- C11, amended: if the waypoint Service resolved for the target service has
no backing workload (the endpoint snapshot of the waypoint builder is empty),
`findServiceWaypoint` still returns `redirected = true`, with an empty list
of endpoints: past the guards on the proxy, the opt-in label and the address,
`redirected` is true as soon as `ServicesWithWaypoint` has an entry for the
service. -/
theorem findServiceWaypoint_no_backing_workload (fl : features.Vars) (d : Deps)
    (b : EndpointBuilder) (endpointIndex : model.EndpointIndex) (s : model.Service)
    (svc : model.ServiceWaypointInfo) (rest : List model.ServiceWaypointInfo)
    (hw : b.proxy.IsWaypointProxy = false)
    (hr : ¬ (b.nodeType = model.NodeType.Router ∧
      s.Attributes.Labels.get ingressUseWaypointLabel ≠ "true"))
    (hs : b.service = some s)
    (ha : d.GetAddressForProxy s b.proxy ≠ constants.UnspecifiedIP)
    (hsvcs : b.push.ServicesWithWaypoint fl (s.Attributes.Namespace ++ "/" ++ b.hostname)
      = some (svc :: rest))
    (hempty : ((d.NewEndpointBuilder
      (model.BuildSubsetKey model.TrafficDirectionOutbound "" svc.WaypointHostname
        (Int.ofNat (workloadapi.GatewayAddress.GetHboneMtlsPort svc.Service.GetWaypoint)))
      b.proxy b.push).snapshotEndpointsForPort d endpointIndex).1 = []) :
    b.findServiceWaypoint fl d endpointIndex = some ([], true) := by
  rw [findServiceWaypoint_unfold fl d b endpointIndex s hs hw hr ha, hsvcs]
  simp only [hempty]

/-- Witness of C11, amended: the sidecar of the scenario with the endpoint
index in which the waypoint has no backing workload. -/
theorem findServiceWaypoint_no_backing_workload_witness :
    scenario.builder.push.ServicesWithWaypoint ⟨true⟩ "default/vip.example.com"
      = some [⟨scenario.vipSvc, "waypoint.default.svc.cluster.local"⟩] ∧
    scenario.builder.findServiceWaypoint ⟨true⟩ specDeps scenario.emptyEndpointIndex
      = some ([], true) :=
  ⟨by decide,
   findServiceWaypoint_no_backing_workload ⟨true⟩ specDeps scenario.builder
     scenario.emptyEndpointIndex (scenario.vipService scenario.vipLabels "1.1.1.1")
     ⟨scenario.vipSvc, "waypoint.default.svc.cluster.local"⟩ []
     (by decide) (by decide) (by decide) (by decide) (by decide) (by decide)⟩

end endpoints

/-! ## The keys of an update -/

namespace sets

/-- Inserting keeps a set without repetition. -/
theorem Insert_nodup {α : Type} [DecidableEq α] (s : Set α) (x : α) (h : s.Nodup) :
    (Insert s x).Nodup := by
  unfold Insert
  by_cases hx : x ∈ s
  · simp [hx, h]
  · simp only [hx, if_false]
    exact List.Nodup.append h (List.nodup_singleton x) (by simpa using hx)

/-- The elements after an insertion. -/
theorem mem_Insert {α : Type} [DecidableEq α] (s : Set α) (x k : α) :
    k ∈ Insert s x ↔ k ∈ s ∨ k = x := by
  unfold Insert
  by_cases hx : x ∈ s
  · simp only [hx, if_true]
    constructor
    · exact Or.inl
    · rintro (h | h)
      · exact h
      · exact h ▸ hx
  · simp [hx]

/-- Inserting a list of keys one after the other: no repetition, and the
elements are the old ones and the keys. -/
theorem foldl_Insert {α : Type} [DecidableEq α] (ks : List α) (s : Set α) (h : s.Nodup) :
    (ks.foldl Insert s).Nodup ∧ ∀ k, k ∈ ks.foldl Insert s ↔ k ∈ s ∨ k ∈ ks := by
  induction ks generalizing s with
  | nil => simp [h]
  | cons x rest ih =>
    have h1 := ih (Insert s x) (Insert_nodup s x h)
    refine ⟨h1.1, ?_⟩
    intro k
    simp only [List.foldl_cons, h1.2, mem_Insert, List.mem_cons]
    tauto

end sets

namespace ambient

/-- The set accumulated over a list of items by an extractor that inserts
the keys `keys i` of each item `i`. -/
theorem foldl_items_keys {T : Type}
    (f : T → sets.Set model.ConfigKey → sets.Set model.ConfigKey)
    (keys : T → List model.ConfigKey)
    (hf : ∀ i cu, f i cu = (keys i).foldl sets.Insert cu)
    (items : List T) (s : sets.Set model.ConfigKey) (h : s.Nodup) :
    (items.foldl (fun cu i => f i cu) s).Nodup ∧
    ∀ k, k ∈ items.foldl (fun cu i => f i cu) s ↔ k ∈ s ∨ ∃ i ∈ items, k ∈ keys i := by
  induction items generalizing s with
  | nil => simp [h]
  | cons i rest ih =>
    have h0 := sets.foldl_Insert (keys i) s h
    have h1 := ih (f i s) (by rw [hf]; exact h0.1)
    refine ⟨h1.1, ?_⟩
    intro k
    rw [List.foldl_cons, h1.2 k, hf i s, h0.2 k]
    constructor
    · rintro ((h2 | h2) | ⟨j, hj, hk⟩)
      · exact Or.inl h2
      · exact Or.inr ⟨i, List.mem_cons_self _ _, h2⟩
      · exact Or.inr ⟨j, List.mem_cons_of_mem _ hj, hk⟩
    · rintro (h2 | ⟨j, hj, hk⟩)
      · exact Or.inl (Or.inl h2)
      · rcases List.mem_cons.mp hj with rfl | hj
        · exact Or.inl (Or.inr hk)
        · exact Or.inr ⟨j, hj, hk⟩

/-- The set accumulated over a batch by such an extractor, from any set. -/
theorem foldl_events_keys {T : Type}
    (f : T → sets.Set model.ConfigKey → sets.Set model.ConfigKey)
    (keys : T → List model.ConfigKey)
    (hf : ∀ i cu, f i cu = (keys i).foldl sets.Insert cu)
    (events : List (krt.Event T)) (s : sets.Set model.ConfigKey) (h : s.Nodup) :
    (events.foldl (fun cu e => e.Items.foldl (fun cu i => f i cu) cu) s).Nodup ∧
    ∀ k, k ∈ events.foldl (fun cu e => e.Items.foldl (fun cu i => f i cu) cu) s ↔
      k ∈ s ∨ ∃ e ∈ events, ∃ i ∈ e.Items, k ∈ keys i := by
  induction events generalizing s with
  | nil => simp [h]
  | cons e rest ih =>
    have h0 := foldl_items_keys f keys hf e.Items s h
    have h1 := ih (e.Items.foldl (fun cu i => f i cu) s) h0.1
    refine ⟨h1.1, ?_⟩
    intro k
    rw [List.foldl_cons, h1.2 k, h0.2 k]
    constructor
    · rintro ((h2 | ⟨i, hi, hk⟩) | ⟨e1, he1, i, hi, hk⟩)
      · exact Or.inl h2
      · exact Or.inr ⟨e, List.mem_cons_self _ _, i, hi, hk⟩
      · exact Or.inr ⟨e1, List.mem_cons_of_mem _ he1, i, hi, hk⟩
    · rintro (h2 | ⟨e1, he1, i, hi, hk⟩)
      · exact Or.inl (Or.inl h2)
      · rcases List.mem_cons.mp he1 with rfl | he1
        · exact Or.inl (Or.inr ⟨i, hi, hk⟩)
        · exact Or.inr ⟨e1, he1, i, hi, hk⟩

/-- The extractor of the per-Workload projection inserts, for a record, the
key of each of its service hostnames. -/
theorem workloadEDSUpdates_eq (i : workloadEDS) (cu : sets.Set model.ConfigKey) :
    workloadEDSUpdates i cu
      = (i.ServiceHostnames.map (fun svc =>
          (⟨kind.ServiceEntry, (strings.Cut svc '/').2.1, (strings.Cut svc '/').1⟩ :
            model.ConfigKey))).foldl sets.Insert cu := by
  unfold workloadEDSUpdates
  rw [List.foldl_map]

/-- C21: for an extractor that inserts the keys `keys i` of each item `i`
into the set it is given, the set `ConfigsUpdated` of the request the
`PushAllXds` handler emits has no repetition and holds exactly the keys of
the items of the events of the batch: a key is in it if and only if some
item of some event names it. The handler emits nothing else: it either
leaves the updater as it is or adds the one request carrying that set. -/
theorem PushAllXds_keys {T : Type} (xds : model.XDSUpdater)
    (f : T → sets.Set model.ConfigKey → sets.Set model.ConfigKey)
    (keys : T → List model.ConfigKey) (events : List (krt.Event T)) (initialSync : Bool)
    (hf : ∀ i cu, f i cu = (keys i).foldl sets.Insert cu) :
    (PushAllXds.accumulate f events).Nodup ∧
    (∀ k, k ∈ PushAllXds.accumulate f events ↔ ∃ e ∈ events, ∃ i ∈ e.Items, k ∈ keys i) ∧
    ((PushAllXds xds f events initialSync).calls = xds.calls ∨
      (PushAllXds xds f events initialSync).calls
        = xds.calls ++ [⟨false, PushAllXds.accumulate f events,
            model.NewReasonStats model.AmbientUpdate⟩]) := by
  have h := foldl_events_keys f keys hf events sets.New List.nodup_nil
  refine ⟨h.1, ?_, ?_⟩
  · intro k
    have hk := h.2 k
    simp only [sets.New, List.not_mem_nil, false_or] at hk
    exact hk
  · unfold PushAllXds
    by_cases hlen : (PushAllXds.accumulate f events).length = 0
    · exact Or.inl (by simp only [hlen, if_true])
    · exact Or.inr (by simp only [hlen, if_false, model.XDSUpdater.ConfigUpdate])

/-- Witness of C21: the handler of the per-Workload projection on a batch in
which the same record is added and then updated: the key of its service
appears once. -/
theorem PushAllXds_keys_witness :
    PushAllXds.accumulate workloadEDSUpdates
      [⟨none, some scenario.vipRecord, krt.EventType.EventAdd⟩,
       ⟨some scenario.vipRecord, some scenario.vipRecord, krt.EventType.EventUpdate⟩]
      = [⟨kind.ServiceEntry, "vip.example.com", "default"⟩] ∧
    (PushAllXds.accumulate workloadEDSUpdates
      [⟨none, some scenario.vipRecord, krt.EventType.EventAdd⟩,
       ⟨some scenario.vipRecord, some scenario.vipRecord, krt.EventType.EventUpdate⟩]).Nodup :=
  ⟨by decide,
   (PushAllXds_keys scenario.freshUpdater workloadEDSUpdates
     (fun i => i.ServiceHostnames.map (fun svc =>
       (⟨kind.ServiceEntry, (strings.Cut svc '/').2.1, (strings.Cut svc '/').1⟩ :
         model.ConfigKey)))
     [⟨none, some scenario.vipRecord, krt.EventType.EventAdd⟩,
      ⟨some scenario.vipRecord, some scenario.vipRecord, krt.EventType.EventUpdate⟩]
     false workloadEDSUpdates_eq).1⟩

end ambient

/-! ## The projections -/

namespace slices

/-- The order `strings.lessEq` is the order of strings. -/
theorem lessEq_iff (a b : String) : strings.lessEq a b = true ↔ a ≤ b := by
  unfold strings.lessEq
  rw [← not_lt, String.lt_iff_toList_lt]
  simp

/-- The result of `Sort_` is the insertion sort for the order of strings. -/
theorem Sort_eq (s : List String) : Sort_ s = s.insertionSort (· ≤ ·) := by
  unfold Sort_
  induction s with
  | nil => rfl
  | cons a rest ih =>
    simp only [List.insertionSort]
    rw [ih]
    generalize List.insertionSort (fun x1 x2 => x1 ≤ x2) rest = l
    induction l with
    | nil => rfl
    | cons b l ihl =>
      simp only [List.orderedInsert, lessEq_iff, ihl]

/-- The result of `Sort_` is in ascending order. -/
theorem Sort_sorted (s : List String) : (Sort_ s).Sorted (· ≤ ·) := by
  rw [Sort_eq]
  exact List.sorted_insertionSort _ s

/-- The result of `Sort_` has the elements of its argument. -/
theorem Sort_perm (s : List String) : (Sort_ s).Perm s := by
  rw [Sort_eq]
  exact List.perm_insertionSort _ s

end slices

namespace ambient

/-- The fields every record of the per-Workload projection takes from the
workload itself. -/
theorem WorkloadEds_own_fields (W : krt.Index String model.WorkloadInfo)
    (S : krt.Index networkAddress model.ServiceInfo) (wl : model.WorkloadInfo)
    (r : workloadEDS) (h : WorkloadEds W S wl = some (some r)) :
    r.WorkloadKey = wl.ResourceName ∧ r.TunnelProtocol = wl.Workload.TunnelProtocol ∧
    r.ServiceHostnames = slices.Sort_ (maps.Keys wl.Workload.Services) := by
  unfold WorkloadEds at h
  split at h
  · simp at h
  · cases hwp : wl.Workload.Waypoint with
    | none =>
      simp only [hwp, Option.some.injEq] at h
      subst h
      exact ⟨rfl, rfl, rfl⟩
    | some wp =>
      simp only [hwp] at h
      cases hga : workloadapi.GatewayAddress.GetAddress (some wp) with
      | none => simp [hga] at h
      | some addr =>
        simp only [hga] at h
        cases hf : krt.FetchOne S ⟨addr.Network, mustByteIPToString addr.Address⟩ with
        | none =>
          simp only [hf, Option.some.injEq] at h
          subst h
          exact ⟨rfl, rfl, rfl⟩
        | some svc =>
          simp only [hf, Option.some.injEq] at h
          subst h
          exact ⟨rfl, rfl, rfl⟩

/-- The per-Workload projection on a workload that declares no waypoint. -/
theorem WorkloadEds_no_waypoint (W : krt.Index String model.WorkloadInfo)
    (S : krt.Index networkAddress model.ServiceInfo) (wl : model.WorkloadInfo)
    (hwp : wl.Workload.Waypoint = none) :
    WorkloadEds W S wl =
      if wl.Workload.TunnelProtocol = workloadapi.TunnelProtocol.NONE then some none
      else some (some ⟨wl.ResourceName, wl.Workload.TunnelProtocol, none,
        slices.Sort_ (maps.Keys wl.Workload.Services)⟩) := by
  unfold WorkloadEds
  by_cases ht : wl.Workload.TunnelProtocol = workloadapi.TunnelProtocol.NONE
  · simp [hwp, ht]
  · simp [hwp, ht]

/-- The per-Workload projection on a workload whose declared waypoint
carries a network address. -/
theorem WorkloadEds_waypoint (W : krt.Index String model.WorkloadInfo)
    (S : krt.Index networkAddress model.ServiceInfo) (wl : model.WorkloadInfo)
    (addr : workloadapi.NetworkAddress)
    (haddr : workloadapi.GatewayAddress.GetAddress wl.Workload.Waypoint = some addr) :
    WorkloadEds W S wl = some (some ⟨wl.ResourceName, wl.Workload.TunnelProtocol,
      (match krt.FetchOne S ⟨addr.Network, mustByteIPToString addr.Address⟩ with
        | none => none
        | some svc => some (slices.Map (krt.Fetch W svc.ResourceName) (fun e => e.Workload))),
      slices.Sort_ (maps.Keys wl.Workload.Services)⟩) := by
  unfold WorkloadEds
  cases hwp : wl.Workload.Waypoint with
  | none => rw [hwp] at haddr; simp [workloadapi.GatewayAddress.GetAddress] at haddr
  | some wp =>
    rw [hwp] at haddr
    simp only [haddr, reduceCtorEq, false_and, if_false]
    cases hf : krt.FetchOne S ⟨addr.Network, mustByteIPToString addr.Address⟩ <;> rfl

/-- Counterexample of C22: a workload without tunnel capability whose
declared waypoint address 9.9.9.9 matches no Service gets a record. -/
theorem WorkloadEds_unresolved_waypoint_counterexample :
    scenario.strayWorkload.Workload.TunnelProtocol = workloadapi.TunnelProtocol.NONE ∧
    workloadapi.GatewayAddress.GetAddress scenario.strayWorkload.Workload.Waypoint
      = some ⟨"", [9, 9, 9, 9]⟩ ∧
    scenario.idx.services.ByAddress.Lookup ⟨"", "9.9.9.9"⟩ = [] ∧
    WorkloadEds scenario.WorkloadsByServiceKey scenario.idx.services.ByAddress
      scenario.strayWorkload
      = some (some ⟨"cluster0//Pod/default/stray", workloadapi.TunnelProtocol.NONE, none,
          ["default/vip.example.com"]⟩) :=
  ⟨by decide, by decide, by decide, by decide⟩

/-- C22, amended: for a workload whose declared waypoint, if any, carries a
network address, the per-Workload projection returns, and it emits a record
if and only if the workload has tunnel capability (tunnel protocol other
than NONE) or declares a waypoint, whether or not the waypoint address
matches a Service; a workload without tunnel capability whose declared
waypoint address matches no Service gets a record whose `WaypointInstance`
is absent. -/
theorem WorkloadEds_emits_iff (W : krt.Index String model.WorkloadInfo)
    (S : krt.Index networkAddress model.ServiceInfo) (wl : model.WorkloadInfo)
    (hwf : wl.Workload.Waypoint = none ∨
      ∃ addr, workloadapi.GatewayAddress.GetAddress wl.Workload.Waypoint = some addr) :
    (∃ o, WorkloadEds W S wl = some o) ∧
    ((∃ r, WorkloadEds W S wl = some (some r)) ↔
      (wl.Workload.TunnelProtocol ≠ workloadapi.TunnelProtocol.NONE ∨
        wl.Workload.Waypoint ≠ none)) ∧
    (∀ addr, workloadapi.GatewayAddress.GetAddress wl.Workload.Waypoint = some addr →
      krt.FetchOne S ⟨addr.Network, mustByteIPToString addr.Address⟩ = none →
      ∃ r, WorkloadEds W S wl = some (some r) ∧ r.WaypointInstance = none) := by
  rcases hwf with hwp | ⟨addr, haddr⟩
  · have h := WorkloadEds_no_waypoint W S wl hwp
    by_cases ht : wl.Workload.TunnelProtocol = workloadapi.TunnelProtocol.NONE
    · rw [if_pos ht] at h
      refine ⟨⟨_, h⟩, ?_, ?_⟩
      · simp [h, ht, hwp]
      · intro addr haddr
        rw [hwp] at haddr
        simp [workloadapi.GatewayAddress.GetAddress] at haddr
    · rw [if_neg ht] at h
      refine ⟨⟨_, h⟩, ?_, ?_⟩
      · simp [h, ht]
      · intro addr haddr
        rw [hwp] at haddr
        simp [workloadapi.GatewayAddress.GetAddress] at haddr
  · have h := WorkloadEds_waypoint W S wl addr haddr
    have hne : wl.Workload.Waypoint ≠ none := by
      intro hn
      rw [hn] at haddr
      simp [workloadapi.GatewayAddress.GetAddress] at haddr
    refine ⟨⟨_, h⟩, ?_, ?_⟩
    · simp [h, hne]
    · intro addr1 haddr1 hf
      rw [haddr] at haddr1
      cases haddr1
      exact ⟨_, h, by simp [hf]⟩

/-- Witness of C22, amended: the workload of the counterexample. -/
theorem WorkloadEds_emits_iff_witness :
    (∃ r, WorkloadEds scenario.WorkloadsByServiceKey scenario.idx.services.ByAddress
      scenario.strayWorkload = some (some r)) ↔
      (scenario.strayWorkload.Workload.TunnelProtocol ≠ workloadapi.TunnelProtocol.NONE ∨
        scenario.strayWorkload.Workload.Waypoint ≠ none) :=
  (WorkloadEds_emits_iff scenario.WorkloadsByServiceKey scenario.idx.services.ByAddress
    scenario.strayWorkload (Or.inr ⟨⟨"", [9, 9, 9, 9]⟩, by decide⟩)).2.1

/-- Counterexample of C23: `vip.example.com` has the waypoint address
3.0.0.0, which resolves to the Service `waypoint`; with no workload filed
under the key of that Service, the per-Service projection emits a record
whose waypoint-instance list is present and empty. -/
theorem ServiceEds_no_backing_workload_counterexample :
    krt.FetchOne scenario.idx.services.ByAddress ⟨"", "3.0.0.0"⟩
      = some ⟨scenario.waypointSvc⟩ ∧
    krt.Fetch scenario.noWorkloads
      (model.ServiceInfo.ResourceName ⟨scenario.waypointSvc⟩) = [] ∧
    ServiceEds scenario.noWorkloads scenario.idx.services.ByAddress ⟨scenario.vipSvc⟩
      = some (some ⟨"default/vip.example.com", some []⟩) :=
  ⟨by decide, by decide, by decide⟩

/-- C23, amended: for a service whose waypoint address resolves to a Service
that has no backing Workload, the per-Service projection emits a record: its
`ServiceKey` is the resource name of the service and its waypoint-instance
list is present and empty. -/
theorem ServiceEds_no_backing_workload (W : krt.Index String model.WorkloadInfo)
    (S : krt.Index networkAddress model.ServiceInfo) (svc waypointSvc : model.ServiceInfo)
    (addr : workloadapi.NetworkAddress)
    (haddr : workloadapi.GatewayAddress.GetAddress svc.Service.Waypoint = some addr)
    (hf : krt.FetchOne S ⟨addr.Network, mustByteIPToString addr.Address⟩ = some waypointSvc)
    (hw : krt.Fetch W waypointSvc.ResourceName = []) :
    ServiceEds W S svc = some (some ⟨svc.ResourceName, some []⟩) := by
  unfold ServiceEds
  cases hwp : svc.Service.Waypoint with
  | none => rw [hwp] at haddr; simp [workloadapi.GatewayAddress.GetAddress] at haddr
  | some wp =>
    rw [hwp] at haddr
    simp only [haddr, hf, hw, slices.Map, List.map_nil]

/-- Witness of C23, amended: the service and the indices of the
counterexample. -/
theorem ServiceEds_no_backing_workload_witness :
    ServiceEds scenario.noWorkloads scenario.idx.services.ByAddress ⟨scenario.vipSvc⟩
      = some (some ⟨model.ServiceInfo.ResourceName ⟨scenario.vipSvc⟩, some []⟩) :=
  ServiceEds_no_backing_workload scenario.noWorkloads scenario.idx.services.ByAddress
    ⟨scenario.vipSvc⟩ ⟨scenario.waypointSvc⟩ ⟨"", [3, 0, 0, 0]⟩
    (by decide) (by decide) (by decide)

/-- The cases in which the per-Service projection returns: it emits nothing
for a service with no waypoint, and nothing when the waypoint carries a
network address that matches no Service; when that address matches a Service
it emits a record whose `ServiceKey` is the resource name of the service
itself and whose `WaypointInstance` lists the Workload objects of the
workloads indexed under the key of the waypoint Service, in index order. A
waypoint that carries no network address is in none of these cases. -/
theorem ServiceEds_cases (W : krt.Index String model.WorkloadInfo)
    (S : krt.Index networkAddress model.ServiceInfo) (svc : model.ServiceInfo) :
    (svc.Service.Waypoint = none → ServiceEds W S svc = some none) ∧
    (∀ addr, workloadapi.GatewayAddress.GetAddress svc.Service.Waypoint = some addr →
      S.Lookup ⟨addr.Network, mustByteIPToString addr.Address⟩ = [] →
      ServiceEds W S svc = some none) ∧
    (∀ addr waypointSvc,
      workloadapi.GatewayAddress.GetAddress svc.Service.Waypoint = some addr →
      krt.FetchOne S ⟨addr.Network, mustByteIPToString addr.Address⟩ = some waypointSvc →
      ServiceEds W S svc = some (some ⟨svc.ResourceName,
        some ((W.Lookup waypointSvc.ResourceName).map (fun e => e.Workload))⟩)) := by
  refine ⟨?_, ?_, ?_⟩
  · intro hwp
    unfold ServiceEds
    simp only [hwp]
  · intro addr haddr hl
    unfold ServiceEds
    cases hwp : svc.Service.Waypoint with
    | none => rfl
    | some wp =>
      rw [hwp] at haddr
      simp only [haddr, krt.FetchOne, hl, List.head?_nil]
  · intro addr waypointSvc haddr hf
    unfold ServiceEds
    cases hwp : svc.Service.Waypoint with
    | none => rw [hwp] at haddr; simp [workloadapi.GatewayAddress.GetAddress] at haddr
    | some wp =>
      rw [hwp] at haddr
      simp only [haddr, hf, slices.Map, krt.Fetch]

/-- C25: in every record the per-Workload projection emits, the list
`ServiceHostnames` is in strictly ascending lexical order, hence without
duplicates, and holds exactly the keys of the service-membership map of the
workload; `WorkloadKey` and `TunnelProtocol` are those of the workload. -/
theorem WorkloadEds_hostnames (W : krt.Index String model.WorkloadInfo)
    (S : krt.Index networkAddress model.ServiceInfo) (wl : model.WorkloadInfo)
    (r : workloadEDS) (h : WorkloadEds W S wl = some (some r)) :
    r.ServiceHostnames.Sorted (· < ·) ∧ r.ServiceHostnames.Nodup ∧
    (∀ k, k ∈ r.ServiceHostnames ↔ ∃ v, (k, v) ∈ wl.Workload.Services) ∧
    r.WorkloadKey = wl.ResourceName ∧
    r.TunnelProtocol = wl.Workload.TunnelProtocol := by
  obtain ⟨h1, h2, h3⟩ := WorkloadEds_own_fields W S wl r h
  have hnd : r.ServiceHostnames.Nodup := by
    rw [h3]
    exact (slices.Sort_perm _).nodup_iff.mpr (List.nodup_dedup _)
  refine ⟨?_, hnd, ?_, h1, h2⟩
  · have hs : r.ServiceHostnames.Sorted (· ≤ ·) := by
      rw [h3]
      exact slices.Sort_sorted _
    exact hs.lt_of_le hnd
  · intro k
    rw [h3, (slices.Sort_perm _).mem_iff]
    simp [maps.Keys]

/-- Witness of C25: the client workload of the scenario, whose map names
`default/vip.example.com` before `default/alpha.example.com`. -/
theorem WorkloadEds_hostnames_witness :
    WorkloadEds scenario.WorkloadsByServiceKey scenario.idx.services.ByAddress
      scenario.clientWorkload
      = some (some ⟨"cluster0//Pod/default/client", workloadapi.TunnelProtocol.HBONE, none,
          ["default/alpha.example.com", "default/vip.example.com"]⟩) ∧
    List.Sorted (· < ·) ["default/alpha.example.com", "default/vip.example.com"] :=
  ⟨by decide,
   (WorkloadEds_hostnames scenario.WorkloadsByServiceKey scenario.idx.services.ByAddress
     scenario.clientWorkload
     ⟨"cluster0//Pod/default/client", workloadapi.TunnelProtocol.HBONE, none,
      ["default/alpha.example.com", "default/vip.example.com"]⟩ (by decide)).1⟩

/-- C26: in every record the per-Workload projection emits, if the waypoint
address of the workload resolves to a Service, `WaypointInstance` is the
list of the Workload objects of the workloads indexed under the key of that
Service, present and empty when there are none; if the workload has no
waypoint or the address resolves to no Service, `WaypointInstance` is
absent. -/
theorem WorkloadEds_waypoint_instance (W : krt.Index String model.WorkloadInfo)
    (S : krt.Index networkAddress model.ServiceInfo) (wl : model.WorkloadInfo)
    (r : workloadEDS) (h : WorkloadEds W S wl = some (some r)) :
    (wl.Workload.Waypoint = none → r.WaypointInstance = none) ∧
    (∀ addr, workloadapi.GatewayAddress.GetAddress wl.Workload.Waypoint = some addr →
      krt.FetchOne S ⟨addr.Network, mustByteIPToString addr.Address⟩ = none →
      r.WaypointInstance = none) ∧
    (∀ addr svc, workloadapi.GatewayAddress.GetAddress wl.Workload.Waypoint = some addr →
      krt.FetchOne S ⟨addr.Network, mustByteIPToString addr.Address⟩ = some svc →
      r.WaypointInstance = some ((W.Lookup svc.ResourceName).map (fun e => e.Workload)) ∧
      (W.Lookup svc.ResourceName = [] → r.WaypointInstance = some [])) := by
  refine ⟨?_, ?_, ?_⟩
  · intro hwp
    rw [WorkloadEds_no_waypoint W S wl hwp] at h
    split at h
    · simp at h
    · simp only [Option.some.injEq] at h
      rw [← h]
  · intro addr haddr hf
    rw [WorkloadEds_waypoint W S wl addr haddr, hf] at h
    simp only [Option.some.injEq] at h
    rw [← h]
  · intro addr svc haddr hf
    rw [WorkloadEds_waypoint W S wl addr haddr, hf] at h
    simp only [Option.some.injEq] at h
    rw [← h]
    refine ⟨rfl, ?_⟩
    intro hl
    simp [slices.Map, krt.Fetch, hl]

/-- Witness of C26: the workload captured by the waypoint at 3.0.0.0, with
the two workloads of the scenario behind the waypoint and with none. -/
theorem WorkloadEds_waypoint_instance_witness :
    (∃ r, WorkloadEds scenario.WorkloadsByServiceKey scenario.idx.services.ByAddress
      scenario.capturedWorkload = some (some r) ∧
      r.WaypointInstance = some
        [(scenario.waypointWorkload "waypoint-a" [3, 0, 0, 1]).Workload,
         (scenario.waypointWorkload "waypoint-b" [3, 0, 0, 2]).Workload]) ∧
    (∃ r, WorkloadEds scenario.noWorkloads scenario.idx.services.ByAddress
      scenario.capturedWorkload = some (some r) ∧ r.WaypointInstance = some []) :=
  ⟨⟨⟨"cluster0//Pod/default/captured", workloadapi.TunnelProtocol.NONE,
       some [(scenario.waypointWorkload "waypoint-a" [3, 0, 0, 1]).Workload,
             (scenario.waypointWorkload "waypoint-b" [3, 0, 0, 2]).Workload],
       ["default/vip.example.com"]⟩, by decide,
    ((WorkloadEds_waypoint_instance scenario.WorkloadsByServiceKey
      scenario.idx.services.ByAddress scenario.capturedWorkload
      ⟨"cluster0//Pod/default/captured", workloadapi.TunnelProtocol.NONE,
       some [(scenario.waypointWorkload "waypoint-a" [3, 0, 0, 1]).Workload,
             (scenario.waypointWorkload "waypoint-b" [3, 0, 0, 2]).Workload],
       ["default/vip.example.com"]⟩ (by decide)).2.2 ⟨"", [3, 0, 0, 0]⟩
        ⟨scenario.waypointSvc⟩ (by decide) (by decide)).1⟩,
   ⟨⟨"cluster0//Pod/default/captured", workloadapi.TunnelProtocol.NONE, some [],
     ["default/vip.example.com"]⟩, by decide, rfl⟩⟩

end ambient

/-! ## The SPIFFE workload client -/

namespace spire

/-- The loop of `notifyAll` never blocks and leaves every channel with one
buffered event. -/
theorem notifyLoop_eq (ls : List (String × Chan)) :
    notifyLoop ls = some (ls.map (fun p => (p.1, (⟨1⟩ : Chan)))) := by
  induction ls with
  | nil => rfl
  | cons p rest ih =>
    obtain ⟨id, ⟨len⟩⟩ := p
    unfold notifyLoop
    rw [ih]
    fin_cases len <;> simp [Chan.send]

/-- The method `notifyAll` never blocks: it returns the client with one
event buffered in the channel of every listener. -/
theorem notifyAll_eq (c : WorkloadClient) :
    c.notifyAll = some { c with listeners := c.listeners.map (fun p => (p.1, (⟨1⟩ : Chan))) } := by
  unfold WorkloadClient.notifyAll
  rw [notifyLoop_eq]

/-- One or more calls of `notifyAll` in a row have the effect of one. -/
theorem notifyTimes_eq (k : Nat) (c : WorkloadClient) :
    notifyTimes (k + 1) c
      = some { c with listeners := c.listeners.map (fun p => (p.1, (⟨1⟩ : Chan))) } := by
  induction k generalizing c with
  | zero => simp [notifyTimes, notifyAll_eq]
  | succ n ih =>
    rw [notifyTimes, notifyAll_eq]
    simp only
    rw [ih]
    simp [List.map_map, Function.comp]

/-- C27: for every client, whatever listeners are registered, and every
k ≥ 1, k consecutive calls of `notifyAll` with no receive in between never
block and leave the client with the same listeners, each holding exactly one
pending event in its channel; one receive then empties the channel. The
certificate and the SPIFFE ID are untouched. -/
theorem notifyAll_coalesces (c : WorkloadClient) (k : Nat) (hk : 1 ≤ k) :
    ∃ c1, notifyTimes k c = some c1 ∧
      c1.listeners.map Prod.fst = c.listeners.map Prod.fst ∧
      (∀ p ∈ c1.listeners, p.2.len = 1 ∧ p.2.recv = some ⟨0⟩) ∧
      c1.workloadx509Cert = c.workloadx509Cert ∧ c1.currentSpiffeID = c.currentSpiffeID := by
  obtain ⟨n, rfl⟩ : ∃ n, k = n + 1 := ⟨k - 1, by omega⟩
  refine ⟨_, notifyTimes_eq n c, ?_, ?_, rfl, rfl⟩
  · simp [List.map_map, Function.comp]
  · intro p hp
    simp only [List.mem_map] at hp
    obtain ⟨q, _, rfl⟩ := hp
    exact ⟨rfl, rfl⟩

/-- Witness of C27: ten listeners and fifteen calls, as in
`TestIdentityChangeEvents`, here with three listeners. -/
theorem notifyAll_coalesces_witness :
    ∃ c1, notifyTimes 15 (subscribeAll (NewWorkloadClient "") ["a", "b", "c"]) = some c1 ∧
      c1.listeners.map Prod.fst
        = (subscribeAll (NewWorkloadClient "") ["a", "b", "c"]).listeners.map Prod.fst ∧
      (∀ p ∈ c1.listeners, p.2.len = 1 ∧ p.2.recv = some ⟨0⟩) ∧
      c1.workloadx509Cert
        = (subscribeAll (NewWorkloadClient "") ["a", "b", "c"]).workloadx509Cert ∧
      c1.currentSpiffeID
        = (subscribeAll (NewWorkloadClient "") ["a", "b", "c"]).currentSpiffeID :=
  notifyAll_coalesces (subscribeAll (NewWorkloadClient "") ["a", "b", "c"]) 15 (by decide)

/-- Assigning a channel under an id the map does not hold adds the binding. -/
theorem mapSet_fresh (m : List (String × Chan)) (id : String) (ch : Chan)
    (h : id ∉ m.map Prod.fst) : mapSet m id ch = m ++ [(id, ch)] := by
  unfold mapSet
  have : m.any (fun p => p.1 == id) = false := by
    rw [Bool.eq_false_iff]
    intro hany
    simp only [List.any_eq_true, beq_iff_eq] at hany
    obtain ⟨p, hp, rfl⟩ := hany
    exact h (List.mem_map_of_mem _ hp)
  simp [this]

/-- Subscribing with identifiers that are distinct and not yet registered
adds one listener with an empty channel for each, in order. -/
theorem subscribeAll_listeners (c : WorkloadClient) (ids : List String) (hnd : ids.Nodup)
    (hfresh : ∀ id ∈ ids, id ∉ c.listeners.map Prod.fst) :
    (subscribeAll c ids).listeners = c.listeners ++ ids.map (fun id => (id, (⟨0⟩ : Chan))) := by
  induction ids generalizing c with
  | nil => simp [subscribeAll]
  | cons id rest ih =>
    have hnd2 := List.nodup_cons.mp hnd
    have h1 : ((c.SubscribeToIdentityChange id).2).listeners = c.listeners ++ [(id, ⟨0⟩)] := by
      simp only [WorkloadClient.SubscribeToIdentityChange]
      exact mapSet_fresh _ _ _ (hfresh id (List.mem_cons_self _ _))
    have h2 := ih (c.SubscribeToIdentityChange id).2 hnd2.2 (by
      intro x hx
      rw [h1]
      simp only [List.map_append, List.map_cons, List.map_nil, List.mem_append,
        List.mem_singleton, not_or]
      refine ⟨hfresh x (List.mem_cons_of_mem _ hx), ?_⟩
      intro hxe
      exact hnd2.1 (hxe ▸ hx))
    simp only [subscribeAll, List.foldl_cons] at h2 ⊢
    rw [h2, h1]
    simp

/-- The method `UnsubscribeFromIdentityChange` drops the bindings of the id
and keeps every other listener, whether or not the id was registered. -/
theorem Unsubscribe_listeners (c : WorkloadClient) (id : String) :
    (c.UnsubscribeFromIdentityChange id).listeners
      = c.listeners.filter (fun p => decide (p.1 ≠ id)) := by
  unfold WorkloadClient.UnsubscribeFromIdentityChange
  have hfun : (fun p : String × Chan => !(p.1 == id)) = (fun p => decide (p.1 ≠ id)) := by
    funext p
    by_cases h : p.1 = id <;> simp [h]
  by_cases hl : (c.listeners.lookup id).isNone = true
  · simp only [hl, if_true]
    symm
    rw [List.filter_eq_self]
    intro p hp
    simp only [decide_eq_true_eq]
    intro hpe
    have hnone : List.lookup id c.listeners = none := by simpa using hl
    rw [List.lookup_eq_none_iff] at hnone
    have hcontra := hnone p hp
    simp [hpe] at hcontra
  · simp only [hl, hfun]
    rfl

/-- Unsubscribing a list of ids leaves the listeners registered under none
of them. -/
theorem unsubscribeAll_listeners (c : WorkloadClient) (order : List String) :
    (unsubscribeAll c order).listeners
      = c.listeners.filter (fun p => decide (p.1 ∉ order)) := by
  induction order generalizing c with
  | nil => simp [unsubscribeAll]
  | cons id rest ih =>
    have h := ih (c.UnsubscribeFromIdentityChange id)
    simp only [unsubscribeAll, List.foldl_cons] at h ⊢
    rw [h, Unsubscribe_listeners, List.filter_filter]
    congr 1
    funext p
    by_cases h1 : p.1 = id <;> by_cases h2 : p.1 ∈ rest <;> simp [h1, h2]

/-- C28: starting from a new client, n calls of `SubscribeToIdentityChange`
that return the distinct ids `ids` leave exactly n registered listeners,
those ids; `UnsubscribeFromIdentityChange` of a returned id removes that
listener and keeps every other, leaving n - 1; and after unsubscribing every
returned id, in any order, no listener is left. -/
theorem subscribe_then_unsubscribe (socketPath : String) (ids : List String)
    (hnd : ids.Nodup) :
    (subscribeAll (NewWorkloadClient socketPath) ids).listeners.length = ids.length ∧
    (subscribeAll (NewWorkloadClient socketPath) ids).listeners.map Prod.fst = ids ∧
    (∀ id ∈ ids,
      ((subscribeAll (NewWorkloadClient socketPath) ids).UnsubscribeFromIdentityChange
        id).listeners
        = (subscribeAll (NewWorkloadClient socketPath) ids).listeners.filter
            (fun p => decide (p.1 ≠ id)) ∧
      (((subscribeAll (NewWorkloadClient socketPath) ids).UnsubscribeFromIdentityChange
        id).listeners.map Prod.fst) = ids.filter (fun x => decide (x ≠ id)) ∧
      ((subscribeAll (NewWorkloadClient socketPath) ids).UnsubscribeFromIdentityChange
        id).listeners.length = ids.length - 1) ∧
    (∀ order : List String, order.Perm ids →
      (unsubscribeAll (subscribeAll (NewWorkloadClient socketPath) ids) order).listeners
        = []) := by
  have hl : (subscribeAll (NewWorkloadClient socketPath) ids).listeners
      = ids.map (fun id => (id, (⟨0⟩ : Chan))) := by
    rw [subscribeAll_listeners _ ids hnd (by simp [NewWorkloadClient])]
    simp [NewWorkloadClient]
  have hfst : (Prod.fst ∘ fun id : String => (id, (⟨0⟩ : Chan))) = fun x => x := rfl
  refine ⟨by simp [hl], by rw [hl, List.map_map, hfst, List.map_id'], ?_, ?_⟩
  · intro id hid
    have hkeys : ((subscribeAll (NewWorkloadClient socketPath)
        ids).UnsubscribeFromIdentityChange id).listeners.map Prod.fst
        = ids.filter (fun x => decide (x ≠ id)) := by
      rw [Unsubscribe_listeners, hl, List.filter_map, List.map_map, hfst, List.map_id']
      rfl
    refine ⟨Unsubscribe_listeners _ id, hkeys, ?_⟩
    have hlen := congrArg List.length hkeys
    rw [List.length_map] at hlen
    rw [hlen]
    have hfilt : (fun x : String => decide (x ≠ id)) = (fun x => x != id) := by
      funext x
      by_cases h : x = id <;> simp [h]
    rw [hfilt, ← hnd.erase_eq_filter id, List.length_erase_of_mem hid]
  · intro order hperm
    rw [unsubscribeAll_listeners, hl, List.filter_eq_nil_iff]
    intro p hp
    simp only [List.mem_map] at hp
    obtain ⟨x, hx, rfl⟩ := hp
    simp only [decide_not, Bool.not_eq_true', decide_eq_false_iff_not, not_not]
    exact hperm.mem_iff.mpr hx

/-- Witness of C28: three subscriptions, then the three ids unsubscribed in
another order. -/
theorem subscribe_then_unsubscribe_witness :
    (subscribeAll (NewWorkloadClient "") ["a", "b", "c"]).listeners.length = 3 ∧
    (unsubscribeAll (subscribeAll (NewWorkloadClient "") ["a", "b", "c"])
      ["c", "a", "b"]).listeners = [] :=
  ⟨(subscribe_then_unsubscribe "" ["a", "b", "c"] (by decide)).1,
   (subscribe_then_unsubscribe "" ["a", "b", "c"] (by decide)).2.2.2 ["c", "a", "b"]
     (by decide)⟩

/-- A successful conversion stores the certificate and the SPIFFE ID of the
SVID, whether or not the listeners are notified. -/
theorem OnX509ContextUpdate_ok (lib : CryptoLib) (c : WorkloadClient)
    (certCtx : workloadapi.X509Context) (svid : x509svid.SVID)
    (hs : certCtx.DefaultSVID = some svid)
    (hc : (certificateFromSVID lib (some svid)).2 = none) :
    ∃ c1, c.OnX509ContextUpdate lib certCtx = some c1 ∧
      c1.currentSpiffeID = svid.ID.String ∧
      c1.workloadx509Cert = (certificateFromSVID lib (some svid)).1 ∧
      c1.socketPath = c.socketPath ∧
      c1.listeners.map Prod.fst = c.listeners.map Prod.fst := by
  unfold WorkloadClient.OnX509ContextUpdate
  rw [hs]
  rcases hcert : certificateFromSVID lib (some svid) with ⟨cert, err⟩
  rw [hcert] at hc
  simp only at hc
  subst hc
  simp only [hcert]
  by_cases hn : c.currentSpiffeID ≠ "" ∧ c.currentSpiffeID ≠ svid.ID.String
  · rw [if_pos hn, notifyAll_eq]
    exact ⟨_, rfl, rfl, rfl, rfl, by simp [List.map_map, Function.comp]⟩
  · rw [if_neg hn]
    exact ⟨_, rfl, rfl, rfl, rfl, rfl⟩

/-- A conversion without error returns a certificate. -/
theorem certificateFromSVID_isSome (lib : CryptoLib) (svid : x509svid.SVID)
    (hc : (certificateFromSVID lib (some svid)).2 = none) :
    (certificateFromSVID lib (some svid)).1.isSome = true := by
  unfold certificateFromSVID at hc ⊢
  by_cases hlen : svid.Certificates.length = 0
  · simp [hlen] at hc
  · simp only [hlen, if_false] at hc ⊢
    rcases hk : encodePKCS8PrivateKey lib svid.PrivateKey with ⟨keyPEM, kerr⟩
    rw [hk] at hc
    cases kerr with
    | some e => simp at hc
    | none => simp

/-- C29: for every client state and every X509 context whose default SVID
converts to a TLS certificate without error, `OnX509ContextUpdate` returns,
and afterwards the `currentSpiffeID` of the client is the ID of that SVID
and `GetWorkloadCert` returns the certificate of the conversion, which is
not nil. -/
theorem OnX509ContextUpdate_sets_identity (lib : CryptoLib) (c : WorkloadClient)
    (certCtx : workloadapi.X509Context) (svid : x509svid.SVID)
    (hs : certCtx.DefaultSVID = some svid)
    (hc : (certificateFromSVID lib (some svid)).2 = none) :
    ∃ c1, c.OnX509ContextUpdate lib certCtx = some c1 ∧
      c1.currentSpiffeID = svid.ID.String ∧
      c1.GetWorkloadCert = (certificateFromSVID lib (some svid)).1 ∧
      c1.GetWorkloadCert.isSome = true := by
  obtain ⟨c1, h1, h2, h3, _, _⟩ := OnX509ContextUpdate_ok lib c certCtx svid hs hc
  refine ⟨c1, h1, h2, h3, ?_⟩
  unfold WorkloadClient.GetWorkloadCert
  rw [h3]
  exact certificateFromSVID_isSome lib svid hc

/-- Witness of C29: the first update of `TestX509Watcher`. -/
theorem OnX509ContextUpdate_sets_identity_witness :
    ∃ c1, (NewWorkloadClient "").OnX509ContextUpdate exampleLib testContext = some c1 ∧
      c1.currentSpiffeID = testSVID.ID.String ∧
      c1.GetWorkloadCert = (certificateFromSVID exampleLib (some testSVID)).1 ∧
      c1.GetWorkloadCert.isSome = true :=
  OnX509ContextUpdate_sets_identity exampleLib (NewWorkloadClient "") testContext testSVID
    (by decide) (by decide)

/-- C30: for every client holding a non-empty SPIFFE ID,
`OnX509ContextWatchError` with a PermissionDenied error leaves
`currentSpiffeID` empty and `GetWorkloadCert` returning nil, and a following
`OnX509ContextUpdate` whose SVID converts without error returns and restores
the ID of the SVID and a certificate that is not nil. -/
theorem OnX509ContextWatchError_revokes (lib : CryptoLib) (c : WorkloadClient)
    (err : status.GoError) (hid : c.currentSpiffeID ≠ "")
    (herr : status.Code err = codes.Code.PermissionDenied) :
    (c.OnX509ContextWatchError err).currentSpiffeID = "" ∧
    (c.OnX509ContextWatchError err).GetWorkloadCert = none ∧
    ∀ (certCtx : workloadapi.X509Context) (svid : x509svid.SVID),
      certCtx.DefaultSVID = some svid →
      (certificateFromSVID lib (some svid)).2 = none →
      ∃ c2, (c.OnX509ContextWatchError err).OnX509ContextUpdate lib certCtx = some c2 ∧
        c2.currentSpiffeID = svid.ID.String ∧
        c2.GetWorkloadCert = (certificateFromSVID lib (some svid)).1 ∧
        c2.GetWorkloadCert.isSome = true := by
  have h : c.OnX509ContextWatchError err
      = { c with currentSpiffeID := "", workloadx509Cert := none } := by
    unfold WorkloadClient.OnX509ContextWatchError
    simp [herr, hid]
  refine ⟨by rw [h], by rw [h]; rfl, ?_⟩
  intro certCtx svid hs hc
  obtain ⟨c2, h1, h2, h3, _, _⟩ :=
    OnX509ContextUpdate_ok lib (c.OnX509ContextWatchError err) certCtx svid hs hc
  refine ⟨c2, h1, h2, h3, ?_⟩
  unfold WorkloadClient.GetWorkloadCert
  rw [h3]
  exact certificateFromSVID_isSome lib svid hc

/-- Witness of C30: the sequence of `TestX509Watcher`: the identity is
issued, revoked by the error `no identity issued`, and issued again. -/
theorem OnX509ContextWatchError_revokes_witness :
    (∃ c1, (NewWorkloadClient "").OnX509ContextUpdate exampleLib testContext = some c1 ∧
      c1.currentSpiffeID ≠ "" ∧
      (c1.OnX509ContextWatchError noIdentityError).currentSpiffeID = "" ∧
      (c1.OnX509ContextWatchError noIdentityError).GetWorkloadCert = none ∧
      ∃ c2, (c1.OnX509ContextWatchError noIdentityError).OnX509ContextUpdate exampleLib
          testContext = some c2 ∧
        c2.currentSpiffeID = "spiffe://cluster.local/ns/foo/sa/baz" ∧
        c2.GetWorkloadCert.isSome = true) :=
  ⟨⟨"", some ⟨[[1, 2, 3, 4, 5, 6]], [7, 8, 9]⟩, "spiffe://cluster.local/ns/foo/sa/baz", []⟩,
   by decide, by decide,
   (OnX509ContextWatchError_revokes exampleLib
     ⟨"", some ⟨[[1, 2, 3, 4, 5, 6]], [7, 8, 9]⟩, "spiffe://cluster.local/ns/foo/sa/baz", []⟩
     noIdentityError (by decide) (by decide)).1,
   (OnX509ContextWatchError_revokes exampleLib
     ⟨"", some ⟨[[1, 2, 3, 4, 5, 6]], [7, 8, 9]⟩, "spiffe://cluster.local/ns/foo/sa/baz", []⟩
     noIdentityError (by decide) (by decide)).2.1,
   by decide⟩

end spire

/-! ## The keys of the change notifier and the hostnames of `findWaypointServices` -/

namespace model

/-- Cutting at the first separator a list in which the separator first
occurs right after the prefix `l`. -/
theorem cutChars_append (sep : Char) (l r : List Char) (h : sep ∉ l) :
    cutChars sep (l ++ sep :: r) = some (l, r) := by
  induction l with
  | nil => simp [cutChars]
  | cons c cs ih =>
    have hc : c ≠ sep := fun e => h (e ▸ List.mem_cons_self _ _)
    have hcs : sep ∉ cs := fun e => h (List.mem_cons_of_mem _ e)
    simp [cutChars, hc, ih hcs]

end model

namespace strings

/-- Cutting `ns/host` at the first `/` when `ns` holds no `/`. -/
theorem Cut_join (ns host : String) (h : '/' ∉ ns.data) :
    Cut (ns ++ "/" ++ host) '/' = (ns, host, true) := by
  unfold Cut
  have hd : (ns ++ "/" ++ host).data = ns.data ++ '/' :: host.data := by
    simp [String.data_append]
  rw [hd, model.cutChars_append '/' ns.data host.data h]

end strings

namespace sets

/-- The elements after inserting a list of keys one after the other. -/
theorem mem_foldl_Insert {α : Type} [DecidableEq α] (ks : List α) (s : Set α) (k : α) :
    k ∈ ks.foldl Insert s ↔ k ∈ s ∨ k ∈ ks := by
  induction ks generalizing s with
  | nil => simp
  | cons x rest ih =>
    simp only [List.foldl_cons, ih, mem_Insert, List.mem_cons]
    tauto

/-- An insertion adds at most one element. -/
theorem length_Insert_le {α : Type} [DecidableEq α] (s : Set α) (x : α) :
    (Insert s x).length ≤ s.length + 1 := by
  unfold Insert
  by_cases hx : x ∈ s
  · simp [hx]
  · simp [hx]

end sets

namespace ambient

/-- The extractor of the per-Service projection adds at most one key for
each item of a list, and so for each item of each event of a batch. -/
theorem serviceEDS_accumulate_length (events : List (krt.Event serviceEDS))
    (s : sets.Set model.ConfigKey) :
    (events.foldl (fun cu e => e.Items.foldl (fun cu i => serviceEDSUpdates i cu) cu) s).length
      ≤ s.length + (events.map (fun e => e.Items.length)).sum := by
  have hitems : ∀ (items : List serviceEDS) (s : sets.Set model.ConfigKey),
      (items.foldl (fun cu i => serviceEDSUpdates i cu) s).length ≤ s.length + items.length := by
    intro items
    induction items with
    | nil => intro s; simp
    | cons i rest ih =>
      intro s
      have h1 := ih (serviceEDSUpdates i s)
      have h2 : (serviceEDSUpdates i s).length ≤ s.length + 1 := sets.length_Insert_le _ _
      simp only [List.foldl_cons, List.length_cons]
      omega
  induction events generalizing s with
  | nil => simp
  | cons e rest ih =>
    have h1 := ih (e.Items.foldl (fun cu i => serviceEDSUpdates i cu) s)
    have h2 := hitems e.Items s
    simp only [List.foldl_cons, List.map_cons, List.sum_cons]
    omega

end ambient

namespace ambient

/-- C34: the extractor of the per-Workload projection inserts, for each
service hostname string of a record, the `ServiceEntry` key whose namespace
is the text before the first `/` and whose name is the text after it: for a
string `ns/host` with no `/` in `ns`, the key with namespace `ns` and name
`host`. The extractor of the per-Service projection inserts the single key
made in the same way of `ServiceKey`, so a batch of per-Service events
yields at most one key for each record of the batch. -/
theorem EdsShim_extractor_keys (i : workloadEDS) (svc : serviceEDS)
    (u : sets.Set model.ConfigKey) (events : List (krt.Event serviceEDS)) :
    (∀ k, k ∈ workloadEDSUpdates i u ↔
      k ∈ u ∨ ∃ h ∈ i.ServiceHostnames,
        k = ⟨kind.ServiceEntry, (strings.Cut h '/').2.1, (strings.Cut h '/').1⟩) ∧
    (∀ ns host : String, '/' ∉ ns.data → ns ++ "/" ++ host ∈ i.ServiceHostnames →
      (⟨kind.ServiceEntry, host, ns⟩ : model.ConfigKey) ∈ workloadEDSUpdates i u) ∧
    serviceEDSUpdates svc u = sets.Insert u
      ⟨kind.ServiceEntry, (strings.Cut svc.ServiceKey '/').2.1, (strings.Cut svc.ServiceKey '/').1⟩ ∧
    (∀ ns host : String, '/' ∉ ns.data → svc.ServiceKey = ns ++ "/" ++ host →
      serviceEDSUpdates svc u = sets.Insert u ⟨kind.ServiceEntry, host, ns⟩) ∧
    (PushAllXds.accumulate serviceEDSUpdates events).length
      ≤ (events.map (fun e => e.Items.length)).sum := by
  have hmem : ∀ k, k ∈ workloadEDSUpdates i u ↔
      k ∈ u ∨ ∃ h ∈ i.ServiceHostnames,
        k = ⟨kind.ServiceEntry, (strings.Cut h '/').2.1, (strings.Cut h '/').1⟩ := by
    intro k
    rw [workloadEDSUpdates_eq, sets.mem_foldl_Insert, List.mem_map]
    constructor
    · rintro (h | ⟨h, hh, rfl⟩)
      · exact Or.inl h
      · exact Or.inr ⟨h, hh, rfl⟩
    · rintro (h | ⟨h, hh, rfl⟩)
      · exact Or.inl h
      · exact Or.inr ⟨h, hh, rfl⟩
  refine ⟨hmem, ?_, rfl, ?_, ?_⟩
  · intro ns host hns hin
    refine (hmem _).mpr (Or.inr ⟨ns ++ "/" ++ host, hin, ?_⟩)
    rw [strings.Cut_join ns host hns]
  · intro ns host hns hkey
    unfold serviceEDSUpdates
    rw [hkey, strings.Cut_join ns host hns]
  · have h := serviceEDS_accumulate_length events sets.New
    simpa [PushAllXds.accumulate, sets.New] using h

/-- Witness of C34: the record of the client of the scenario, whose only
service hostname is `default/vip.example.com`, gives the key of
`vip.example.com` in namespace `default`. -/
theorem EdsShim_extractor_keys_witness :
    '/' ∉ "default".data ∧
    (⟨kind.ServiceEntry, "vip.example.com", "default"⟩ : model.ConfigKey)
      ∈ workloadEDSUpdates scenario.vipRecord sets.New ∧
    workloadEDSUpdates scenario.vipRecord sets.New
      = [⟨kind.ServiceEntry, "vip.example.com", "default"⟩] :=
  ⟨by decide,
   (EdsShim_extractor_keys scenario.vipRecord ⟨"default/vip.example.com", none⟩ sets.New []).2.1
     "default" "vip.example.com" (by decide) (by decide),
   by decide⟩

/-- C37: for an update event, whose items are the old and the new record,
the set the `PushAllXds` handler accumulates is the extractor applied to the
old record and then to the new one; with the extractor of the per-Workload
projection the key of every service hostname of the old record is in the set
of the one request the handler emits, whether the new record still has that
hostname or not. -/
theorem PushAllXds_update_event {T : Type}
    (f : T → sets.Set model.ConfigKey → sets.Set model.ConfigKey) (old new : T)
    (xds : model.XDSUpdater) (initialSync : Bool) :
    (krt.Event.Items (⟨some old, some new, krt.EventType.EventUpdate⟩ : krt.Event T)
      = [old, new]) ∧
    PushAllXds.accumulate f [⟨some old, some new, krt.EventType.EventUpdate⟩]
      = f new (f old sets.New) ∧
    (∀ (o n : workloadEDS) (h : String), h ∈ o.ServiceHostnames →
      (⟨kind.ServiceEntry, (strings.Cut h '/').2.1, (strings.Cut h '/').1⟩ : model.ConfigKey)
        ∈ PushAllXds.accumulate workloadEDSUpdates
            [⟨some o, some n, krt.EventType.EventUpdate⟩] ∧
      (PushAllXds xds workloadEDSUpdates [⟨some o, some n, krt.EventType.EventUpdate⟩]
          initialSync).calls
        = xds.calls ++ [⟨false, PushAllXds.accumulate workloadEDSUpdates
            [⟨some o, some n, krt.EventType.EventUpdate⟩],
            model.NewReasonStats model.AmbientUpdate⟩]) := by
  refine ⟨rfl, rfl, ?_⟩
  intro o n h hmem
  have hin : (⟨kind.ServiceEntry, (strings.Cut h '/').2.1, (strings.Cut h '/').1⟩ :
      model.ConfigKey) ∈ PushAllXds.accumulate workloadEDSUpdates
        [⟨some o, some n, krt.EventType.EventUpdate⟩] := by
    have hacc : PushAllXds.accumulate workloadEDSUpdates
        [⟨some o, some n, krt.EventType.EventUpdate⟩]
        = workloadEDSUpdates n (workloadEDSUpdates o sets.New) := rfl
    rw [hacc, workloadEDSUpdates_eq n, sets.mem_foldl_Insert, workloadEDSUpdates_eq o,
      sets.mem_foldl_Insert]
    exact Or.inl (Or.inr (List.mem_map.mpr ⟨h, hmem, rfl⟩))
  refine ⟨hin, ?_⟩
  unfold PushAllXds
  have hlen : (PushAllXds.accumulate workloadEDSUpdates
      [⟨some o, some n, krt.EventType.EventUpdate⟩]).length ≠ 0 := by
    intro h0
    rw [List.length_eq_zero.mp h0] at hin
    exact List.not_mem_nil _ hin
  simp only [hlen, if_false, model.XDSUpdater.ConfigUpdate]

/-- Witness of C37: the record of the client is updated and loses the
service `old.example.com`; the request emitted names `old.example.com`. -/
theorem PushAllXds_update_event_witness :
    "default/old.example.com" ∈ scenario.oldRecord.ServiceHostnames ∧
    "default/old.example.com" ∉ scenario.vipRecord.ServiceHostnames ∧
    (⟨kind.ServiceEntry, "old.example.com", "default"⟩ : model.ConfigKey)
      ∈ PushAllXds.accumulate workloadEDSUpdates scenario.updateBatch ∧
    (PushAllXds scenario.freshUpdater workloadEDSUpdates scenario.updateBatch false).calls
      = [⟨false, [⟨kind.ServiceEntry, "old.example.com", "default"⟩,
                  ⟨kind.ServiceEntry, "vip.example.com", "default"⟩], ["ambient"]⟩] :=
  ⟨by decide, by decide,
   ((PushAllXds_update_event workloadEDSUpdates scenario.oldRecord scenario.vipRecord
     scenario.freshUpdater false).2.2 scenario.oldRecord scenario.vipRecord
     "default/old.example.com" (by decide)).1,
   by decide⟩

end ambient

namespace strings

/-- C38: for every namespace that holds no `/` and every hostname, the
lookup key `namespace + "/" + hostname`, which `findServiceWaypoint` builds
and which is the resource name of a service, cut at the first `/` the way
the extractors of the change notifier cut a service key, gives back the
namespace and the hostname: the key the notifier derives from the resource
name of a service is that of its namespace and hostname. -/
theorem Cut_lookup_key (ns hostname : String) (h : '/' ∉ ns.data) :
    Cut (ns ++ "/" ++ hostname) '/' = (ns, hostname, true) ∧
    (∀ s : model.ServiceInfo, s.Service.Namespace = ns → s.Service.Hostname = hostname →
      Cut s.ResourceName '/' = (ns, hostname, true) ∧
      ∀ (w : Option (List workloadapi.Workload)) (u : sets.Set model.ConfigKey),
        ambient.serviceEDSUpdates ⟨s.ResourceName, w⟩ u
          = sets.Insert u ⟨kind.ServiceEntry, hostname, ns⟩) := by
  refine ⟨Cut_join ns hostname h, ?_⟩
  intro s hns hhost
  have hname : s.ResourceName = ns ++ "/" ++ hostname := by
    simp only [model.ServiceInfo.ResourceName, workloadapi.Service.ResourceName, hns, hhost]
  refine ⟨by rw [hname]; exact Cut_join ns hostname h, ?_⟩
  intro w u
  unfold ambient.serviceEDSUpdates
  simp only [hname, Cut_join ns hostname h]

/-- Witness of C38: the key of `vip.example.com` in namespace `default`. -/
theorem Cut_lookup_key_witness :
    '/' ∉ "default".data ∧
    Cut ("default" ++ "/" ++ "vip.example.com") '/' = ("default", "vip.example.com", true) :=
  ⟨by decide, (Cut_lookup_key "default" "vip.example.com" (by decide)).1⟩

end strings

namespace core

/-- The set built by inserting the hostnames of a list of entries one after
the other: the insertions of `sets.Insert` over the hostnames. -/
theorem hostnames_foldl (infos : List model.ServiceWaypointInfo) (s : List String) :
    infos.foldl (fun res e => if e.Service.Hostname ∈ res then res
        else res ++ [e.Service.Hostname]) s
      = (infos.map (fun e => e.Service.Hostname)).foldl sets.Insert s := by
  rw [List.foldl_map]
  rfl

/-- C35: `findWaypointServices` returns nil, no set at all, when the flag
`EnableWaypointInterop` is off. When the flag is on and
`ServicesWithWaypoint("")` returns its entries, it returns a set, without
repetition, that holds exactly the hostnames of the services of those
entries: a hostname is in it if and only if the service of some entry has
that hostname, so services that share a hostname give one element. -/
theorem findWaypointServices_hostnames (fl : features.Vars) (push : model.PushContext) :
    (fl.EnableWaypointInterop = false → findWaypointServices fl push = some none) ∧
    (fl.EnableWaypointInterop = true → ∀ infos, push.ServicesWithWaypoint fl "" = some infos →
      ∃ res, findWaypointServices fl push = some (some res) ∧ res.Nodup ∧
        ∀ h, h ∈ res ↔ ∃ e ∈ infos, e.Service.Hostname = h) := by
  constructor
  · intro hoff
    unfold findWaypointServices
    simp [hoff]
  · intro hon infos hinfos
    refine ⟨(infos.map (fun e => e.Service.Hostname)).foldl sets.Insert [], ?_, ?_, ?_⟩
    · unfold findWaypointServices
      simp only [hon, Bool.not_true, Bool.false_eq_true, if_false, hinfos, hostnames_foldl]
    · exact (sets.foldl_Insert _ [] List.nodup_nil).1
    · intro h
      rw [sets.mem_foldl_Insert, List.mem_map]
      constructor
      · rintro (h0 | ⟨e, he, rfl⟩)
        · exact absurd h0 (List.not_mem_nil _)
        · exact ⟨e, he, rfl⟩
      · rintro ⟨e, he, rfl⟩
        exact Or.inr ⟨e, he, rfl⟩

/-- Witness of C35: in the directory in which `vip.example.com` exists in
the namespaces `default` and `other`, both behind the waypoint, the two
entries of `ServicesWithWaypoint("")` give the one hostname; with the flag
off the result is nil. -/
theorem findWaypointServices_hostnames_witness :
    (scenario.pushWith scenario.sharedIdx scenario.vipLabels "1.1.1.1").ServicesWithWaypoint
        ⟨true⟩ ""
      = some [⟨scenario.vipSvc, "waypoint.default.svc.cluster.local"⟩,
              ⟨scenario.vipSvcOther, "waypoint.default.svc.cluster.local"⟩] ∧
    findWaypointServices ⟨true⟩ (scenario.pushWith scenario.sharedIdx scenario.vipLabels "1.1.1.1")
      = some (some ["vip.example.com"]) ∧
    findWaypointServices ⟨false⟩ (scenario.pushWith scenario.sharedIdx scenario.vipLabels "1.1.1.1")
      = some none :=
  ⟨by decide, by decide,
   (findWaypointServices_hostnames ⟨false⟩
     (scenario.pushWith scenario.sharedIdx scenario.vipLabels "1.1.1.1")).1 rfl⟩

end core

/-! ## The projections as functions of two lookups -/

namespace workloadapi

/-- The resource name of a service is never the empty string. -/
theorem Service.ResourceName_ne_empty (s : Service) : s.ResourceName ≠ "" := by
  intro h
  have hd : s.ResourceName.data = s.Namespace.data ++ '/' :: s.Hostname.data := by
    simp [Service.ResourceName, String.data_append]
  rw [h] at hd
  simp at hd

end workloadapi

namespace ambient

/-- The per-Workload projection on a workload whose declared waypoint
carries no network address: the nil dereference. -/
theorem WorkloadEds_addressless (W : krt.Index String model.WorkloadInfo)
    (S : krt.Index networkAddress model.ServiceInfo) (wl : model.WorkloadInfo)
    (wp : workloadapi.GatewayAddress) (hwp : wl.Workload.Waypoint = some wp)
    (hga : workloadapi.GatewayAddress.GetAddress (some wp) = none) :
    WorkloadEds W S wl = none := by
  unfold WorkloadEds
  simp only [hwp, hga, reduceCtorEq, false_and, if_false]

/-- The per-Service projection on a service whose declared waypoint carries
a network address. -/
theorem ServiceEds_waypoint (W : krt.Index String model.WorkloadInfo)
    (S : krt.Index networkAddress model.ServiceInfo) (svc : model.ServiceInfo)
    (addr : workloadapi.NetworkAddress)
    (haddr : workloadapi.GatewayAddress.GetAddress svc.Service.Waypoint = some addr) :
    ServiceEds W S svc =
      match S.Lookup ⟨addr.Network, mustByteIPToString addr.Address⟩ with
      | [] => some none
      | w0 :: _ => some (some ⟨svc.ResourceName,
          some ((W.Lookup w0.ResourceName).map (fun e => e.Workload))⟩) := by
  unfold ServiceEds
  cases hwp : svc.Service.Waypoint with
  | none => rw [hwp] at haddr; simp [workloadapi.GatewayAddress.GetAddress] at haddr
  | some wp =>
    rw [hwp] at haddr
    simp only [haddr, krt.FetchOne]
    cases hl : S.Lookup ⟨addr.Network, mustByteIPToString addr.Address⟩ <;> rfl

/-- The per-Service projection on a service whose declared waypoint carries
no network address: the nil dereference. -/
theorem ServiceEds_addressless (W : krt.Index String model.WorkloadInfo)
    (S : krt.Index networkAddress model.ServiceInfo) (svc : model.ServiceInfo)
    (wp : workloadapi.GatewayAddress) (hwp : svc.Service.Waypoint = some wp)
    (hga : workloadapi.GatewayAddress.GetAddress (some wp) = none) :
    ServiceEds W S svc = none := by
  unfold ServiceEds
  simp only [hwp, hga]

/-- C31: the result of the per-Workload projection for a workload, record,
absence or failure, is the same in two directory states whose address
indices hold the same Services at the waypoint address of the workload and
whose workload indices hold the same workloads under the key of each of
those Services; the result of the per-Service projection for a service is
the same in two states that agree in this way at the waypoint address of the
service. Nothing else of the directory enters the result. -/
theorem Eds_determined_by_lookups (W1 W2 : krt.Index String model.WorkloadInfo)
    (S1 S2 : krt.Index networkAddress model.ServiceInfo) :
    (∀ wl : model.WorkloadInfo,
      (∀ addr, workloadapi.GatewayAddress.GetAddress wl.Workload.Waypoint = some addr →
        S1.Lookup ⟨addr.Network, mustByteIPToString addr.Address⟩
          = S2.Lookup ⟨addr.Network, mustByteIPToString addr.Address⟩) →
      (∀ addr svc, workloadapi.GatewayAddress.GetAddress wl.Workload.Waypoint = some addr →
        svc ∈ S1.Lookup ⟨addr.Network, mustByteIPToString addr.Address⟩ →
        W1.Lookup svc.ResourceName = W2.Lookup svc.ResourceName) →
      WorkloadEds W1 S1 wl = WorkloadEds W2 S2 wl) ∧
    (∀ s : model.ServiceInfo,
      (∀ addr, workloadapi.GatewayAddress.GetAddress s.Service.Waypoint = some addr →
        S1.Lookup ⟨addr.Network, mustByteIPToString addr.Address⟩
          = S2.Lookup ⟨addr.Network, mustByteIPToString addr.Address⟩) →
      (∀ addr svc, workloadapi.GatewayAddress.GetAddress s.Service.Waypoint = some addr →
        svc ∈ S1.Lookup ⟨addr.Network, mustByteIPToString addr.Address⟩ →
        W1.Lookup svc.ResourceName = W2.Lookup svc.ResourceName) →
      ServiceEds W1 S1 s = ServiceEds W2 S2 s) := by
  constructor
  · intro wl hS hW
    cases hwp : wl.Workload.Waypoint with
    | none => rw [WorkloadEds_no_waypoint W1 S1 wl hwp, WorkloadEds_no_waypoint W2 S2 wl hwp]
    | some wp =>
      cases hga : workloadapi.GatewayAddress.GetAddress (some wp) with
      | none =>
        rw [WorkloadEds_addressless W1 S1 wl wp hwp hga,
          WorkloadEds_addressless W2 S2 wl wp hwp hga]
      | some addr =>
        have haddr : workloadapi.GatewayAddress.GetAddress wl.Workload.Waypoint = some addr := by
          rw [hwp]; exact hga
        rw [WorkloadEds_waypoint W1 S1 wl addr haddr, WorkloadEds_waypoint W2 S2 wl addr haddr]
        have hS1 := hS addr haddr
        have hW1 := hW addr
        simp only [krt.FetchOne, krt.Fetch, ← hS1]
        cases hl : S1.Lookup ⟨addr.Network, mustByteIPToString addr.Address⟩ with
        | nil => rfl
        | cons w0 ws =>
          have hw0 := hW1 w0 haddr (by rw [hl]; exact List.mem_cons_self _ _)
          simp only [List.head?_cons, hw0]
  · intro s hS hW
    cases hwp : s.Service.Waypoint with
    | none =>
      unfold ServiceEds
      simp only [hwp]
    | some wp =>
      cases hga : workloadapi.GatewayAddress.GetAddress (some wp) with
      | none =>
        rw [ServiceEds_addressless W1 S1 s wp hwp hga, ServiceEds_addressless W2 S2 s wp hwp hga]
      | some addr =>
        have haddr : workloadapi.GatewayAddress.GetAddress s.Service.Waypoint = some addr := by
          rw [hwp]; exact hga
        rw [ServiceEds_waypoint W1 S1 s addr haddr, ServiceEds_waypoint W2 S2 s addr haddr]
        have hS1 := hS addr haddr
        have hW1 := hW addr
        rw [← hS1]
        cases hl : S1.Lookup ⟨addr.Network, mustByteIPToString addr.Address⟩ with
        | nil => rfl
        | cons w0 ws =>
          have hw0 := hW1 w0 haddr (by rw [hl]; exact List.mem_cons_self _ _)
          simp only [hw0]

end ambient

namespace ambient

/-- Witness of C31: two directory states that differ in the Services at
4.4.4.4 and in the workloads of `vip.example.com`, but agree at the waypoint
address 3.0.0.0 and on the workloads of the waypoint Service, give the same
record for the captured workload. -/
theorem Eds_determined_by_lookups_witness :
    scenario.WorkloadsByServiceKey.Lookup "default/vip.example.com"
      ≠ scenario.otherWorkloads.Lookup "default/vip.example.com" ∧
    scenario.idx.services.ByAddress.Lookup ⟨"", "4.4.4.4"⟩
      ≠ scenario.badBytesIdx.services.ByAddress.Lookup ⟨"", "4.4.4.4"⟩ ∧
    WorkloadEds scenario.WorkloadsByServiceKey scenario.idx.services.ByAddress
        scenario.capturedWorkload
      = WorkloadEds scenario.otherWorkloads scenario.badBytesIdx.services.ByAddress
          scenario.capturedWorkload ∧
    WorkloadEds scenario.WorkloadsByServiceKey scenario.idx.services.ByAddress
        scenario.capturedWorkload
      = some (some ⟨"cluster0//Pod/default/captured", workloadapi.TunnelProtocol.NONE,
          some [(scenario.waypointWorkload "waypoint-a" [3, 0, 0, 1]).Workload,
                (scenario.waypointWorkload "waypoint-b" [3, 0, 0, 2]).Workload],
          ["default/vip.example.com"]⟩) :=
  ⟨by decide, by decide,
   (Eds_determined_by_lookups scenario.WorkloadsByServiceKey scenario.otherWorkloads
     scenario.idx.services.ByAddress scenario.badBytesIdx.services.ByAddress).1
     scenario.capturedWorkload
     (fun addr h => by
       have h1 : some (⟨"", [3, 0, 0, 0]⟩ : workloadapi.NetworkAddress) = some addr := h
       cases h1
       decide)
     (fun addr svc h hmem => by
       have h1 : some (⟨"", [3, 0, 0, 0]⟩ : workloadapi.NetworkAddress) = some addr := h
       cases h1
       have hl : scenario.idx.services.ByAddress.Lookup
           ⟨"", mustByteIPToString [3, 0, 0, 0]⟩ = [⟨scenario.waypointSvc⟩] := by decide
       rw [hl, List.mem_singleton] at hmem
       subst hmem
       decide),
   by decide⟩

/-- C32: when the by-address index holds more than one Service at the
waypoint address, the per-Workload projection and the per-Service projection
do not fail: each emits its record, and the waypoint instances of the record
are the workloads indexed under the key of the first of those Services. -/
theorem Eds_first_of_several (W : krt.Index String model.WorkloadInfo)
    (S : krt.Index networkAddress model.ServiceInfo) (addr : workloadapi.NetworkAddress)
    (s0 s1 : model.ServiceInfo) (rest : List model.ServiceInfo)
    (hl : S.Lookup ⟨addr.Network, mustByteIPToString addr.Address⟩ = s0 :: s1 :: rest) :
    (∀ wl : model.WorkloadInfo,
      workloadapi.GatewayAddress.GetAddress wl.Workload.Waypoint = some addr →
      WorkloadEds W S wl = some (some ⟨wl.ResourceName, wl.Workload.TunnelProtocol,
        some ((W.Lookup s0.ResourceName).map (fun e => e.Workload)),
        slices.Sort_ (maps.Keys wl.Workload.Services)⟩)) ∧
    (∀ svc : model.ServiceInfo,
      workloadapi.GatewayAddress.GetAddress svc.Service.Waypoint = some addr →
      ServiceEds W S svc = some (some ⟨svc.ResourceName,
        some ((W.Lookup s0.ResourceName).map (fun e => e.Workload))⟩)) := by
  constructor
  · intro wl haddr
    rw [WorkloadEds_waypoint W S wl addr haddr]
    simp only [krt.FetchOne, hl, List.head?_cons, krt.Fetch, slices.Map]
  · intro svc haddr
    rw [ServiceEds_waypoint W S svc addr haddr, hl]

/-- Witness of C32: in the directory in which the Services `waypoint` and
`waypoint-copy` are both registered at 3.0.0.0, the record of the service
`vip.example.com` lists the workloads of `waypoint`, the first of the two. -/
theorem Eds_first_of_several_witness :
    scenario.dupIdx.services.ByAddress.Lookup ⟨"", mustByteIPToString [3, 0, 0, 0]⟩
      = [⟨scenario.waypointSvc⟩, ⟨scenario.waypointSvc2⟩] ∧
    ServiceEds scenario.WorkloadsByServiceKey scenario.dupIdx.services.ByAddress
        ⟨scenario.vipSvc⟩
      = some (some ⟨"default/vip.example.com",
          some [(scenario.waypointWorkload "waypoint-a" [3, 0, 0, 1]).Workload,
                (scenario.waypointWorkload "waypoint-b" [3, 0, 0, 2]).Workload]⟩) :=
  ⟨by decide,
   (Eds_first_of_several scenario.WorkloadsByServiceKey scenario.dupIdx.services.ByAddress
     ⟨"", [3, 0, 0, 0]⟩ ⟨scenario.waypointSvc⟩ ⟨scenario.waypointSvc2⟩ [] (by decide)).2
     ⟨scenario.vipSvc⟩ rfl⟩

/-- C33: for a service `s` that the collection holds under its key, when the
per-Service projection and `ServicesWithWaypoint` read the same by-address
index and that index holds at most one Service at each address, the
projection emits a record for `s` if and only if `ServicesWithWaypoint`
called with the key of `s` returns a non-empty list. Both fail on a service
whose waypoint carries no network address. -/
theorem ServiceEds_iff_ServicesWithWaypoint (fl : features.Vars) (a : index)
    (W : krt.Index String model.WorkloadInfo) (s : model.ServiceInfo)
    (hstored : a.services.toCollection.GetKey model.ServiceInfo.ResourceName s.ResourceName
      = some s)
    (hone : ∀ k, (a.services.ByAddress.Lookup k).length ≤ 1) :
    (∃ r, ServiceEds W a.services.ByAddress s = some (some r)) ↔
      (∃ l, a.ServicesWithWaypoint fl s.ResourceName = some l ∧ l ≠ []) := by
  have hkey : (s.ResourceName == "") = false := by
    have hne : s.ResourceName ≠ "" := workloadapi.Service.ResourceName_ne_empty s.Service
    simpa using hne
  have hcons : a.considered s.ResourceName = [s] := by
    unfold index.considered
    simp only [hkey, hstored, ptr.ToList]
    rfl
  rw [ServicesWithWaypoint_eq, hcons]
  cases hwp : s.Service.Waypoint with
  | none =>
    have h1 : ServiceEds W a.services.ByAddress s = some none := by
      unfold ServiceEds; simp only [hwp]
    simp [h1, index.addressless, index.entryOf, model.ServiceInfo.GetWaypoint,
      workloadapi.Service.GetWaypoint, hwp, workloadapi.GatewayAddress.GetAddress]
  | some wp =>
    cases hga : workloadapi.GatewayAddress.GetAddress (some wp) with
    | none =>
      rw [ServiceEds_addressless W a.services.ByAddress s wp hwp hga]
      simp [index.addressless, model.ServiceInfo.GetWaypoint,
        workloadapi.Service.GetWaypoint, hwp, hga]
    | some addr =>
      have haddr : workloadapi.GatewayAddress.GetAddress s.Service.Waypoint = some addr := by
        rw [hwp]; exact hga
      rw [ServiceEds_waypoint W a.services.ByAddress s addr haddr]
      cases hl : a.services.ByAddress.Lookup ⟨addr.Network, mustByteIPToString addr.Address⟩ with
      | nil =>
        have hl2 : a.services.ByAddress.Lookup
            ⟨addr.Network, netip.AddrFromSliceString addr.Address⟩ = [] := hl
        simp [index.addressless, index.entryOf, model.ServiceInfo.GetWaypoint,
          workloadapi.Service.GetWaypoint, hwp, hga, hl2]
      | cons w0 ws =>
        have hl2 : a.services.ByAddress.Lookup
            ⟨addr.Network, netip.AddrFromSliceString addr.Address⟩ = w0 :: ws := hl
        simp [index.addressless, index.entryOf, model.ServiceInfo.GetWaypoint,
          workloadapi.Service.GetWaypoint, hwp, hga, hl2]

end ambient

namespace ambient

/-- Witness of C33: in the directory of the scenario, whose by-address index
holds one Service at most at each address, the projection emits the record
of `vip.example.com` and `ServicesWithWaypoint` returns its entry. -/
theorem ServiceEds_iff_ServicesWithWaypoint_witness :
    ((∃ r, ServiceEds scenario.WorkloadsByServiceKey scenario.idx.services.ByAddress
        ⟨scenario.vipSvc⟩ = some (some r)) ↔
      (∃ l, scenario.idx.ServicesWithWaypoint ⟨true⟩
        (model.ServiceInfo.ResourceName ⟨scenario.vipSvc⟩) = some l ∧ l ≠ [])) ∧
    scenario.idx.ServicesWithWaypoint ⟨true⟩ "default/vip.example.com"
      = some [⟨scenario.vipSvc, "waypoint.default.svc.cluster.local"⟩] ∧
    ServiceEds scenario.WorkloadsByServiceKey scenario.idx.services.ByAddress ⟨scenario.vipSvc⟩
      = some (some ⟨"default/vip.example.com",
          some [(scenario.waypointWorkload "waypoint-a" [3, 0, 0, 1]).Workload,
                (scenario.waypointWorkload "waypoint-b" [3, 0, 0, 2]).Workload]⟩) :=
  ⟨ServiceEds_iff_ServicesWithWaypoint ⟨true⟩ scenario.idx scenario.WorkloadsByServiceKey
     ⟨scenario.vipSvc⟩ (by decide)
     (fun k => by
       by_cases hk : k = ⟨"", "1.1.1.1"⟩
       · subst hk; decide
       · have hv : (List.any scenario.vipSvc.Addresses (fun a =>
             decide ((⟨a.Network, netip.AddrFromSliceString a.Address⟩ : networkAddress) = k)))
             = false := by
           have e1 : netip.AddrFromSliceString [1, 1, 1, 1] = "1.1.1.1" := by decide
           have hk2 : ¬ (⟨"", "1.1.1.1"⟩ : networkAddress) = k := fun e => hk e.symm
           simp [scenario.vipSvc, e1, hk2]
         have hlook : scenario.idx.services.ByAddress.Lookup k
             = List.filter (fun s => s.Service.Addresses.any (fun a =>
                 decide ((⟨a.Network, netip.AddrFromSliceString a.Address⟩ : networkAddress) = k)))
               [⟨scenario.waypointSvc⟩] := by
           have hdef : scenario.idx.services.ByAddress.Lookup k
               = List.filter (fun s => s.Service.Addresses.any (fun a =>
                   decide ((⟨a.Network, netip.AddrFromSliceString a.Address⟩ : networkAddress) = k)))
                 [(⟨scenario.vipSvc⟩ : model.ServiceInfo), ⟨scenario.waypointSvc⟩] := rfl
           rw [hdef, List.filter_cons_of_neg (by simp [hv])]
         rw [hlook]
         exact List.length_filter_le _ _),
   by decide, by decide⟩

end ambient

/-! ## The identity of the workload client across the calls of the watcher -/

namespace spire

/-- The client after an update whose SVID converts without error: the new
certificate and ID, and every listener holding an event exactly when the
identity changed. -/
theorem OnX509ContextUpdate_eq (lib : CryptoLib) (c : WorkloadClient)
    (certCtx : workloadapi.X509Context) (svid : x509svid.SVID)
    (hs : certCtx.DefaultSVID = some svid)
    (hc : (certificateFromSVID lib (some svid)).2 = none) :
    c.OnX509ContextUpdate lib certCtx = some
      { c with
        workloadx509Cert := (certificateFromSVID lib (some svid)).1
        currentSpiffeID := svid.ID.String
        listeners :=
          if c.currentSpiffeID ≠ "" ∧ c.currentSpiffeID ≠ svid.ID.String then
            c.listeners.map (fun p => (p.1, ⟨1⟩))
          else c.listeners } := by
  unfold WorkloadClient.OnX509ContextUpdate
  rw [hs]
  rcases hcert : certificateFromSVID lib (some svid) with ⟨cert, err⟩
  rw [hcert] at hc
  simp only at hc
  subst hc
  simp only [hcert]
  by_cases hn : c.currentSpiffeID ≠ "" ∧ c.currentSpiffeID ≠ svid.ID.String
  · rw [if_pos hn, if_pos hn, notifyAll_eq]
  · rw [if_neg hn, if_neg hn]

/-- An update that delivers no SVID, or an SVID that does not convert,
leaves the client as it is. -/
theorem OnX509ContextUpdate_unchanged (lib : CryptoLib) (c : WorkloadClient)
    (certCtx : workloadapi.X509Context)
    (h : certCtx.DefaultSVID = none ∨
      ∃ svid, certCtx.DefaultSVID = some svid ∧ (certificateFromSVID lib (some svid)).2 ≠ none) :
    c.OnX509ContextUpdate lib certCtx = some c := by
  unfold WorkloadClient.OnX509ContextUpdate
  rcases h with h | ⟨svid, hs, hc⟩
  · rw [h]
  · rw [hs]
    rcases hcert : certificateFromSVID lib (some svid) with ⟨cert, err⟩
    rw [hcert] at hc
    cases err with
    | none => exact absurd rfl hc
    | some e => simp only [hcert]

/-- A watch error leaves the client with no SPIFFE ID when its code is
PermissionDenied. -/
theorem OnX509ContextWatchError_denied (c : WorkloadClient) (err : status.GoError)
    (herr : status.Code err = codes.Code.PermissionDenied) :
    (c.OnX509ContextWatchError err).currentSpiffeID = "" ∧
    (c.OnX509ContextWatchError err).listeners = c.listeners := by
  unfold WorkloadClient.OnX509ContextWatchError
  simp only [herr, reduceCtorEq, if_false, if_true]
  by_cases hid : c.currentSpiffeID = ""
  · simp [hid]
  · simp [hid]

/-- C36: `OnX509ContextUpdate` with an SVID that converts without error
returns, and it sends the listeners their event if and only if the previous
SPIFFE ID of the client is non-empty and differs from the ID of the SVID:
then every listener holds an event afterwards, otherwise the channels are as
before, so that, when some listener has an empty channel, the channels
change exactly in the first case. A first identity, an unchanged identity
and an identity that follows a PermissionDenied watch error notify nobody. -/
theorem OnX509ContextUpdate_notifies_iff (lib : CryptoLib) (c : WorkloadClient)
    (certCtx : workloadapi.X509Context) (svid : x509svid.SVID)
    (hs : certCtx.DefaultSVID = some svid)
    (hc : (certificateFromSVID lib (some svid)).2 = none) :
    (∃ c1, c.OnX509ContextUpdate lib certCtx = some c1 ∧
      (c.currentSpiffeID ≠ "" ∧ c.currentSpiffeID ≠ svid.ID.String →
        c1.listeners = c.listeners.map (fun p => (p.1, ⟨1⟩))) ∧
      (¬ (c.currentSpiffeID ≠ "" ∧ c.currentSpiffeID ≠ svid.ID.String) →
        c1.listeners = c.listeners) ∧
      ((∃ p ∈ c.listeners, p.2.len = 0) →
        (c1.listeners ≠ c.listeners ↔
          c.currentSpiffeID ≠ "" ∧ c.currentSpiffeID ≠ svid.ID.String)) ∧
      (c.currentSpiffeID = "" → c1.listeners = c.listeners) ∧
      (c.currentSpiffeID = svid.ID.String → c1.listeners = c.listeners)) ∧
    (∀ err, status.Code err = codes.Code.PermissionDenied →
      ∃ c2, (c.OnX509ContextWatchError err).OnX509ContextUpdate lib certCtx = some c2 ∧
        c2.listeners = c.listeners) := by
  constructor
  · refine ⟨_, OnX509ContextUpdate_eq lib c certCtx svid hs hc, ?_, ?_, ?_, ?_, ?_⟩
    · intro hn
      simp only [if_pos hn]
    · intro hn
      simp only [if_neg hn]
    · rintro ⟨p, hp, hlen⟩
      by_cases hn : c.currentSpiffeID ≠ "" ∧ c.currentSpiffeID ≠ svid.ID.String
      · simp only [if_pos hn]
        refine ⟨fun _ => hn, fun _ heq => ?_⟩
        rw [← heq] at hp
        obtain ⟨q, _, hq⟩ := List.mem_map.mp hp
        rw [← hq] at hlen
        have h1 : ((1 : Fin 2) = 0) := hlen
        exact absurd h1 (by decide)
      · simp only [if_neg hn]
        exact ⟨fun h => absurd rfl h, fun h => absurd h hn⟩
    · intro h0
      have hn : ¬ (c.currentSpiffeID ≠ "" ∧ c.currentSpiffeID ≠ svid.ID.String) :=
        fun h => h.1 h0
      simp only [if_neg hn]
    · intro h0
      have hn : ¬ (c.currentSpiffeID ≠ "" ∧ c.currentSpiffeID ≠ svid.ID.String) :=
        fun h => h.2 h0
      simp only [if_neg hn]
  · intro err herr
    have hd := OnX509ContextWatchError_denied c err herr
    refine ⟨_, OnX509ContextUpdate_eq lib (c.OnX509ContextWatchError err) certCtx svid hs hc, ?_⟩
    have hn : ¬ ((c.OnX509ContextWatchError err).currentSpiffeID ≠ "" ∧
        (c.OnX509ContextWatchError err).currentSpiffeID ≠ svid.ID.String) :=
      fun h => h.1 hd.1
    simp only [if_neg hn, hd.2]

/-- Witness of C36: a client with one subscriber and the identity of
`TestX509Watcher` receives an SVID of another identity: the subscriber is
sent its event. The same SVID once more sends nothing. -/
theorem OnX509ContextUpdate_notifies_iff_witness :
    (∃ c1, ({ socketPath := "", workloadx509Cert := none,
              currentSpiffeID := "spiffe://cluster.local/ns/foo/sa/baz",
              listeners := [("id-1", ⟨0⟩)] } : WorkloadClient).OnX509ContextUpdate
          exampleLib ⟨[otherSVID]⟩ = some c1 ∧
      c1.listeners = [("id-1", ⟨1⟩)]) ∧
    (∃ c1, ({ socketPath := "", workloadx509Cert := none,
              currentSpiffeID := "spiffe://cluster.local/ns/foo/sa/other",
              listeners := [("id-1", ⟨0⟩)] } : WorkloadClient).OnX509ContextUpdate
          exampleLib ⟨[otherSVID]⟩ = some c1 ∧
      c1.listeners = [("id-1", ⟨0⟩)]) :=
  ⟨by
    obtain ⟨c1, h1, h2, _⟩ := (OnX509ContextUpdate_notifies_iff exampleLib
      { socketPath := "", workloadx509Cert := none,
        currentSpiffeID := "spiffe://cluster.local/ns/foo/sa/baz",
        listeners := [("id-1", ⟨0⟩)] } ⟨[otherSVID]⟩ otherSVID (by decide) (by decide)).1
    exact ⟨c1, h1, h2 (by decide)⟩,
   ⟨_, rfl, by decide⟩⟩

/-- C40: `OnX509ContextUpdate` with a context that has no default SVID, or
whose default SVID does not convert to a TLS certificate, returns and leaves
the client as it was: the stored certificate, the `currentSpiffeID` and the
channels of the listeners are unchanged. An SVID that carries no
certificates is one that does not convert. -/
theorem OnX509ContextUpdate_ignored (lib : CryptoLib) (c : WorkloadClient)
    (certCtx : workloadapi.X509Context) :
    (certCtx.DefaultSVID = none → c.OnX509ContextUpdate lib certCtx = some c) ∧
    (∀ svid, certCtx.DefaultSVID = some svid →
      (certificateFromSVID lib (some svid)).2 ≠ none →
      c.OnX509ContextUpdate lib certCtx = some c) ∧
    (∀ svid : x509svid.SVID, svid.Certificates = [] →
      certificateFromSVID lib (some svid) = (none, some "no certificates found")) := by
  refine ⟨fun h => OnX509ContextUpdate_unchanged lib c certCtx (Or.inl h),
    fun svid hs hc => OnX509ContextUpdate_unchanged lib c certCtx (Or.inr ⟨svid, hs, hc⟩), ?_⟩
  intro svid hcerts
  unfold certificateFromSVID
  simp [hcerts]

/-- Witness of C40: a client that holds an identity and has a subscriber
keeps both, and the subscriber is sent nothing, when the context holds an
SVID without certificates; a fresh client stays fresh when the context holds
no SVID. -/
theorem OnX509ContextUpdate_ignored_witness :
    certificateFromSVID exampleLib (some emptySVID) = (none, some "no certificates found") ∧
    ({ socketPath := "", workloadx509Cert := some ⟨[[1, 2, 3]], [7, 8, 9]⟩,
       currentSpiffeID := "spiffe://cluster.local/ns/foo/sa/baz",
       listeners := [("id-1", ⟨0⟩)] } : WorkloadClient).OnX509ContextUpdate
        exampleLib ⟨[emptySVID]⟩
      = some { socketPath := "", workloadx509Cert := some ⟨[[1, 2, 3]], [7, 8, 9]⟩,
               currentSpiffeID := "spiffe://cluster.local/ns/foo/sa/baz",
               listeners := [("id-1", ⟨0⟩)] } ∧
    (NewWorkloadClient "").OnX509ContextUpdate exampleLib ⟨[]⟩ = some (NewWorkloadClient "") :=
  ⟨by decide,
   (OnX509ContextUpdate_ignored exampleLib
     { socketPath := "", workloadx509Cert := some ⟨[[1, 2, 3]], [7, 8, 9]⟩,
       currentSpiffeID := "spiffe://cluster.local/ns/foo/sa/baz",
       listeners := [("id-1", ⟨0⟩)] } ⟨[emptySVID]⟩).2.1 emptySVID rfl (by decide),
   (OnX509ContextUpdate_ignored exampleLib (NewWorkloadClient "") ⟨[]⟩).1 rfl⟩

end spire

namespace spire

/-- One call of the watcher that delivers no SVID with an empty ID returns
and keeps the invariant: the certificate is nil exactly when the SPIFFE ID
is empty. -/
theorem call_keeps_invariant (lib : CryptoLib) (c : WorkloadClient) (k : Call)
    (hk : k.identified = true)
    (hinv : c.workloadx509Cert = none ↔ c.currentSpiffeID = "") :
    ∃ c1, c.call lib k = some c1 ∧ (c1.workloadx509Cert = none ↔ c1.currentSpiffeID = "") := by
  cases k with
  | OnX509ContextUpdate certCtx =>
    simp only [WorkloadClient.call]
    cases hs : certCtx.DefaultSVID with
    | none => exact ⟨c, OnX509ContextUpdate_unchanged lib c certCtx (Or.inl hs), hinv⟩
    | some svid =>
      cases hc : (certificateFromSVID lib (some svid)).2 with
      | some e =>
        exact ⟨c, OnX509ContextUpdate_unchanged lib c certCtx
          (Or.inr ⟨svid, hs, by rw [hc]; exact Option.some_ne_none e⟩), hinv⟩
      | none =>
        refine ⟨_, OnX509ContextUpdate_eq lib c certCtx svid hs hc, ?_⟩
        have hid : svid.ID.String ≠ "" := by
          simpa [Call.identified, hs] using hk
        have hsome := certificateFromSVID_isSome lib svid hc
        constructor
        · intro hnone
          simp only at hnone
          rw [hnone] at hsome
          exact absurd hsome (by decide)
        · intro hempty
          exact absurd hempty hid
  | OnX509ContextWatchError err =>
    refine ⟨_, rfl, ?_⟩
    unfold WorkloadClient.OnX509ContextWatchError
    by_cases h1 : status.Code err = codes.Code.Canceled
    · rw [if_pos h1]; exact hinv
    · by_cases h2 : status.Code err = codes.Code.PermissionDenied
      · rw [if_neg h1, if_pos h2]
        by_cases h3 : c.currentSpiffeID = ""
        · rw [if_neg (fun h => h h3)]
          exact hinv
        · rw [if_pos h3]
          exact ⟨fun _ => rfl, fun _ => rfl⟩
      · rw [if_neg h1, if_neg h2]; exact hinv

/-- A sequence of such calls returns and keeps the invariant. -/
theorem calls_keep_invariant (lib : CryptoLib) (ks : List Call) (c : WorkloadClient)
    (hk : ∀ k ∈ ks, k.identified = true)
    (hinv : c.workloadx509Cert = none ↔ c.currentSpiffeID = "") :
    ∃ c1, c.calls lib ks = some c1 ∧ (c1.workloadx509Cert = none ↔ c1.currentSpiffeID = "") := by
  induction ks generalizing c with
  | nil => exact ⟨c, rfl, hinv⟩
  | cons k rest ih =>
    obtain ⟨c1, h1, hinv1⟩ :=
      call_keeps_invariant lib c k (hk k (List.mem_cons_self _ _)) hinv
    obtain ⟨c2, h2, hinv2⟩ := ih c1 (fun k1 hk1 => hk k1 (List.mem_cons_of_mem _ hk1)) hinv1
    refine ⟨c2, ?_, hinv2⟩
    simp only [WorkloadClient.calls, h1, h2]

/-- C39: every sequence of calls `OnX509ContextUpdate`, each delivering an
SVID with a non-empty ID or no SVID at all, and `OnX509ContextWatchError`,
with any error, made on the client `NewWorkloadClient` returns, and in the
state reached the stored workload certificate is nil exactly when
`currentSpiffeID` is empty. -/
theorem calls_cert_nil_iff_no_identity (lib : CryptoLib) (socketPath : String)
    (ks : List Call) (hk : ∀ k ∈ ks, k.identified = true) :
    ∃ c, (NewWorkloadClient socketPath).calls lib ks = some c ∧
      (c.workloadx509Cert = none ↔ c.currentSpiffeID = "") :=
  calls_keep_invariant lib ks (NewWorkloadClient socketPath) hk
    (by simp [NewWorkloadClient])

/-- Witness of C39: the calls of `TestX509Watcher`, an identity, its
revocation and a new identity, and then a revocation again. -/
theorem calls_cert_nil_iff_no_identity_witness :
    (∃ c, (NewWorkloadClient "").calls exampleLib
        [Call.OnX509ContextUpdate testContext, Call.OnX509ContextWatchError noIdentityError,
         Call.OnX509ContextUpdate ⟨[otherSVID]⟩] = some c ∧
      (c.workloadx509Cert = none ↔ c.currentSpiffeID = "")) ∧
    (NewWorkloadClient "").calls exampleLib
        [Call.OnX509ContextUpdate testContext, Call.OnX509ContextWatchError noIdentityError,
         Call.OnX509ContextUpdate ⟨[otherSVID]⟩]
      = some { socketPath := "", workloadx509Cert := some ⟨[[1, 2, 3]], [7, 8, 9]⟩,
               currentSpiffeID := "spiffe://cluster.local/ns/foo/sa/other", listeners := [] } ∧
    (NewWorkloadClient "").calls exampleLib
        [Call.OnX509ContextUpdate testContext, Call.OnX509ContextWatchError noIdentityError]
      = some (NewWorkloadClient "") :=
  ⟨calls_cert_nil_iff_no_identity exampleLib ""
     [Call.OnX509ContextUpdate testContext, Call.OnX509ContextWatchError noIdentityError,
      Call.OnX509ContextUpdate ⟨[otherSVID]⟩] (by decide),
   by decide, by decide⟩

end spire

/-! ## `ServicesWithWaypoint` and the projections on a waypoint without a network address -/

namespace ambient

/-- A service contributes no entry and causes no failure exactly when it
declares no waypoint or declares a waypoint network address at which the
by-address index finds nothing. -/
theorem noEntry_iff (a : index) (s : model.ServiceInfo) :
    a.noEntry s = true ↔
      s.GetWaypoint = none ∨
      ∃ addr, workloadapi.GatewayAddress.GetAddress s.GetWaypoint = some addr ∧
        a.services.ByAddress.Lookup ⟨addr.Network, netip.AddrFromSliceString addr.Address⟩
          = [] := by
  unfold index.noEntry
  cases hwp : s.GetWaypoint with
  | none => simp
  | some wp =>
    cases hga : workloadapi.GatewayAddress.GetAddress (some wp) with
    | none => simp [hga]
    | some addr => simp [hga, List.isEmpty_iff]

/-- A service makes `ServicesWithWaypoint` dereference nil exactly when it
declares a waypoint whose `GetAddress()` is nil. -/
theorem addressless_iff (s : model.ServiceInfo) :
    index.addressless s = true ↔
      ∃ wp, s.GetWaypoint = some wp ∧
        workloadapi.GatewayAddress.GetAddress (some wp) = none := by
  unfold index.addressless
  cases hwp : s.GetWaypoint with
  | none => simp
  | some wp => simp [Option.isNone_iff_eq_none]

/-- C8, amended: `ServicesWithWaypoint` does not read the waypoint-interop
flag: with the flag off the method of the index does what it does with the
flag on. It returns the empty list exactly when each of the services it
considers (all services for the empty key, the service stored under the key
otherwise) declares no waypoint or declares a waypoint network address at
which the by-address index finds no Service; whenever it returns, a
considered service whose waypoint address resolves has its entry in the
result; and it fails to return exactly when a considered service declares a
waypoint that carries no network address. The method of the push context
does what the method of its index does, and `findWaypointServices`, the
caller that applies the flag, returns nil. -/
theorem ServicesWithWaypoint_flag_off (fl : features.Vars) (a : index) (key : String)
    (hfl : fl.EnableWaypointInterop = false) :
    a.ServicesWithWaypoint fl key = a.ServicesWithWaypoint ⟨true⟩ key ∧
    (a.ServicesWithWaypoint fl key = some [] ↔
      ∀ s ∈ a.considered key,
        s.GetWaypoint = none ∨
        ∃ addr, workloadapi.GatewayAddress.GetAddress s.GetWaypoint = some addr ∧
          a.services.ByAddress.Lookup ⟨addr.Network, netip.AddrFromSliceString addr.Address⟩
            = []) ∧
    (∀ res, a.ServicesWithWaypoint fl key = some res →
      ∀ s ∈ a.considered key, ∀ addr w0 ws,
        workloadapi.GatewayAddress.GetAddress s.GetWaypoint = some addr →
        a.services.ByAddress.Lookup ⟨addr.Network, netip.AddrFromSliceString addr.Address⟩
          = w0 :: ws →
        (⟨s.Service, w0.Hostname⟩ : model.ServiceWaypointInfo) ∈ res) ∧
    (a.ServicesWithWaypoint fl key = none ↔
      ∃ s ∈ a.considered key, ∃ wp, s.GetWaypoint = some wp ∧
        workloadapi.GatewayAddress.GetAddress (some wp) = none) ∧
    (∀ ps : model.PushContext, ps.ambientIndex = model.AmbientIndexes.index a →
      ps.ServicesWithWaypoint fl key = a.ServicesWithWaypoint fl key) ∧
    (∀ push : model.PushContext, core.findWaypointServices fl push = some none) := by
  refine ⟨rfl, ?_, ?_, ?_, ?_, ?_⟩
  · have h : a.ServicesWithWaypoint fl key = some [] ↔
        ∀ s ∈ a.considered key, a.noEntry s = true := by
      unfold index.ServicesWithWaypoint index.considered
      simp only [servicesWithWaypointLoop_eq_nil, true_and]
    rw [h]
    constructor
    · intro h1 s hs
      exact (noEntry_iff a s).mp (h1 s hs)
    · intro h1 s hs
      exact (noEntry_iff a s).mpr (h1 s hs)
  · intro res hres s hs addr w0 ws haddr hl
    rw [ServicesWithWaypoint_eq] at hres
    by_cases hany : (a.considered key).any index.addressless = true
    · rw [if_pos hany] at hres
      exact absurd hres (by simp)
    · rw [if_neg hany, Option.some.injEq] at hres
      rw [← hres]
      exact List.mem_filterMap.mpr
        ⟨s, hs, (entryOf_eq_some a s _).mpr ⟨addr, w0, ws, haddr, hl, rfl⟩⟩
  · rw [ServicesWithWaypoint_eq]
    by_cases hany : (a.considered key).any index.addressless = true
    · rw [if_pos hany]
      obtain ⟨s, hs, hadd⟩ := List.any_eq_true.mp hany
      exact ⟨fun _ => ⟨s, hs, (addressless_iff s).mp hadd⟩, fun _ => rfl⟩
    · rw [if_neg hany]
      constructor
      · intro h
        exact absurd h (by simp)
      · rintro ⟨s, hs, hwp⟩
        exact absurd (List.any_eq_true.mpr ⟨s, hs, (addressless_iff s).mpr hwp⟩) hany
  · intro ps hps
    unfold model.PushContext.ServicesWithWaypoint
    rw [hps]
  · intro push
    unfold core.findWaypointServices
    simp [hfl]

/-- Witness of C8, amended, flag off: the directory of the scenario when the
service entry uses no waypoint gives the empty list; the directory of the
scenario gives the entry of `vip.example.com`; the directory with the
service whose waypoint is given by hostname gives no result. -/
theorem ServicesWithWaypoint_flag_off_witness :
    (scenario.indexOf [⟨scenario.plainSvc⟩, ⟨scenario.waypointSvc⟩]).ServicesWithWaypoint
      ⟨false⟩ "" = some [] ∧
    scenario.idx.ServicesWithWaypoint ⟨false⟩ "default/vip.example.com"
      = some [⟨scenario.vipSvc, "waypoint.default.svc.cluster.local"⟩] ∧
    (⟨scenario.vipSvc, "waypoint.default.svc.cluster.local"⟩ : model.ServiceWaypointInfo)
      ∈ [(⟨scenario.vipSvc, "waypoint.default.svc.cluster.local"⟩ : model.ServiceWaypointInfo)] ∧
    scenario.hostIdx.ServicesWithWaypoint ⟨false⟩ "" = none :=
  ⟨((ServicesWithWaypoint_flag_off ⟨false⟩
      (scenario.indexOf [⟨scenario.plainSvc⟩, ⟨scenario.waypointSvc⟩]) "" rfl).2.1).mpr
      (by
        intro s hs
        have h : s = ⟨scenario.plainSvc⟩ ∨ s = ⟨scenario.waypointSvc⟩ := by
          simpa [index.considered, scenario.indexOf, krt.Collection.List] using hs
        rcases h with h | h <;> subst h <;> exact Or.inl rfl),
   by decide,
   (ServicesWithWaypoint_flag_off ⟨false⟩ scenario.idx "default/vip.example.com" rfl).2.2.1
      [⟨scenario.vipSvc, "waypoint.default.svc.cluster.local"⟩] (by decide)
      ⟨scenario.vipSvc⟩ (by decide) ⟨"", [3, 0, 0, 0]⟩ ⟨scenario.waypointSvc⟩ []
      (by decide) (by decide),
   ((ServicesWithWaypoint_flag_off ⟨false⟩ scenario.hostIdx "" rfl).2.2.2.1).mpr
      ⟨⟨scenario.hostSvc⟩, by decide, _, rfl, by decide⟩⟩

/-- C13, at the failing input: in the directory in which the Services
`waypoint` and `waypoint-copy` are both registered at 3.0.0.0, the waypoint
address of `vip.example.com`, and one more service declares its waypoint by
hostname, the by-address index returns the two Services for that address and
`ServicesWithWaypoint` for the empty key does not return: it dereferences the
nil `GetAddress()` of the hostname waypoint, at the index and through the
push context, and gives no entry for `vip.example.com`. The call for the key
of `vip.example.com` returns its entry with the hostname of `waypoint`, the
first of the two. -/
theorem ServicesWithWaypoint_multiple_matches_panics :
    workloadapi.GatewayAddress.GetAddress scenario.vipSvc.GetWaypoint = some ⟨"", [3, 0, 0, 0]⟩ ∧
    scenario.dupHostIdx.services.ByAddress.Lookup ⟨"", netip.AddrFromSliceString [3, 0, 0, 0]⟩
      = [⟨scenario.waypointSvc⟩, ⟨scenario.waypointSvc2⟩] ∧
    (⟨scenario.vipSvc⟩ : model.ServiceInfo) ∈ scenario.dupHostIdx.considered "" ∧
    scenario.dupHostIdx.ServicesWithWaypoint ⟨true⟩ "" = none ∧
    scenario.dupHostIdx.ServicesWithWaypoint ⟨false⟩ "" = none ∧
    (scenario.pushWith scenario.dupHostIdx scenario.vipLabels "1.1.1.1").ServicesWithWaypoint
      ⟨true⟩ "" = none ∧
    scenario.dupHostIdx.ServicesWithWaypoint ⟨true⟩ "default/vip.example.com"
      = some [⟨scenario.vipSvc, "waypoint.default.svc.cluster.local"⟩] := by
  refine ⟨by decide, by decide, by decide, by decide, by decide, by decide, by decide⟩

/-- C24, at the failing input: the service `host.example.com` declares a
waypoint, given by hostname, so `GetAddress()` of the waypoint is nil, and
the per-Service projection neither emits nothing nor emits a record: it
dereferences nil on the read of `wAddress.Network`, whatever the indices
hold, and so in the directory of the scenario. -/
theorem ServiceEds_panics_on_hostname_waypoint :
    scenario.hostSvc.Waypoint ≠ none ∧
    workloadapi.GatewayAddress.GetAddress scenario.hostSvc.Waypoint = none ∧
    (∀ (W : krt.Index String model.WorkloadInfo)
        (S : krt.Index networkAddress model.ServiceInfo),
      ServiceEds W S ⟨scenario.hostSvc⟩ = none) ∧
    ServiceEds scenario.WorkloadsByServiceKey scenario.hostIdx.services.ByAddress
      ⟨scenario.hostSvc⟩ = none := by
  refine ⟨by decide, by decide, fun W S => rfl, by decide⟩

end ambient
